import Mathlib

/-!
# Haunted Web: event coordination core

A shallow embedding of the coordination logic of `src/content-bundle.js`
(the Event Gate, the gated effect schedulers, the Safety Monitor and the
orchestrator), followed by theorems about it.

Conventions of the embedding

* Times are integer milliseconds (`Nat`), as returned by `Date.now()`.
* Fractions (frequencies, intensity, random draws, timer delays) are exact
  rationals (`ℚ`).
* The browser is an explicit `Host` record: the clock, the table of pending
  `setTimeout` callbacks, the pending animation frames, the element tree under
  `document.body`, the inline style of `document.body`, the page-state signals
  sampled by the Safety Monitor and the stream of `Math.random()` draws.
* Every JavaScript closure handed to `setTimeout` is a constructor of
  `Callback`; running a pending callback is a separate function.
-/

namespace Haunted

/-! ## Constants (`content-bundle.js`, lines 9-57) -/

namespace TIME

def GHOST_MIN : Nat := 5000
def GHOST_MAX : Nat := 30000
def SPIDER_MIN : Nat := 10000
def SPIDER_MAX : Nat := 45000
def CORRUPTION_MIN : Nat := 3000
def CORRUPTION_MAX : Nat := 20000
def INTENSITY_SCALE_INTERVAL : Nat := 60000
def STARE_DURATION : Nat := 5000
def CRAWL_DURATION : Nat := 10000
/-- Minimum time between major events. -/
def EVENT_COOLDOWN : Nat := 2000

end TIME

/-! ## Settings (`DEFAULTS`, lines 9-27) -/

/-- The settings record; the fields are those of `DEFAULTS`. -/
structure Settings where
  enabled : Bool
  intensity : ℚ
  ghostFrequency : ℚ
  spiderFrequency : ℚ
  distortionFrequency : ℚ
  audioVolume : ℚ
  nightModeAggression : Bool
  ghosts : Bool
  spiders : Bool
  fog : Bool
  audio : Bool
  glitches : Bool
  corruption : Bool
  shadows : Bool
  blood : Bool
  whitelist : List String
  blacklist : List String
  deriving DecidableEq

def DEFAULTS : Settings where
  enabled := true
  intensity := 1 / 2
  ghostFrequency := 3 / 10
  spiderFrequency := 1 / 5
  distortionFrequency := 2 / 5
  audioVolume := 1 / 2
  nightModeAggression := true
  ghosts := true
  spiders := true
  fog := true
  audio := true
  glitches := true
  corruption := true
  shadows := true
  blood := true
  whitelist := []
  blacklist := []

/-! ## The host (browser) -/

/-- An inline style value of `document.body`, as far as the code writes it:
the empty string, the `rotate(<angle>deg)` of `layoutTilt`, the fixed filter
of `colorShift`, or any other string the page itself has set. -/
inductive CssValue where
  | empty
  | rotate (deg : ℚ)
  | hueShift
  | page (text : String)
  deriving DecidableEq

/-- The closures the code hands to `setTimeout`. -/
inductive Callback where
  /-- `() => { this.isEventActive = false; }` of `EventQueue.startEvent`. -/
  | eventRelease
  /-- The tick closure of `GhostManager.scheduleGhost`. -/
  | ghostTick
  /-- The 15000 ms bookkeeping removal of `GhostManager.spawnGhost`. -/
  | ghostForget (ghost : Nat)
  /-- The tick closure of `SpiderManager.scheduleSpider`. -/
  | spiderTick
  /-- The staggered creation closure of `SpiderManager.spawnSpider`. -/
  | spiderCreate
  /-- The 20000 ms bookkeeping removal nested in `spawnSpider`. -/
  | spiderForget (spider : Nat)
  /-- The tick closure of `CorruptionManager.scheduleCorruption`. -/
  | corruptionTick
  /-- The `schedule` closures of the four ambient loops. -/
  | shadowTick
  | glitchTick
  | bloodTick
  | flickerTick
  /-- `() => dripOnce()` of `scheduleBlood`. -/
  | bloodDrip
  /-- `if (x.parentNode) x.parentNode.removeChild(x)` for one element. -/
  | removeNode (node : Nat)
  /-- `document.body.style.transform = t0` of `layoutTilt`. -/
  | restoreTransform (t0 : CssValue)
  /-- `document.body.style.filter = f0` of `colorShift`. -/
  | restoreFilter (f0 : CssValue)
  deriving DecidableEq

/-- The tick closures of the seven scheduling loops. -/
def Callback.isTick : Callback → Bool
  | .ghostTick => true
  | .spiderTick => true
  | .corruptionTick => true
  | .shadowTick => true
  | .glitchTick => true
  | .bloodTick => true
  | .flickerTick => true
  | _ => false

/-- The closures that only end one effect: they drop a sprite from its list,
remove one element or restore one style. -/
def Callback.isCleanup : Callback → Bool
  | .ghostForget _ => true
  | .spiderForget _ => true
  | .removeNode _ => true
  | .restoreTransform _ => true
  | .restoreFilter _ => true
  | _ => false

/-- One pending `setTimeout`: its handle, the clock when it was registered,
the delay in milliseconds and the closure. -/
structure Timer where
  id : Nat
  setAt : Nat
  delay : ℚ
  cb : Callback
  deriving DecidableEq

/-- A timer may run once its delay has elapsed. -/
def Timer.due (t : Timer) (now : Nat) : Bool :=
  decide ((t.setAt : ℚ) + t.delay ≤ (now : ℚ))

/-- The elements below `document.body`, in first-child / next-sibling form.
An element carries an identity and its list of classes; its `class`
attribute is the classes joined by single spaces, as `createElement` builds
it (`el.className = classes.join(' ')`). -/
inductive Dom where
  | nil
  | node (id : Nat) (classes : List (List Char)) (children : Dom) (next : Dom)
  deriving DecidableEq

/-- The element focused in the page, as `hasActiveForm` inspects it. -/
structure ActiveElement where
  tagName : String
  isContentEditable : Bool
  deriving DecidableEq

/-- The browser state the code reads and writes. -/
structure Host where
  /-- `Date.now()`. -/
  now : Nat
  /-- `new Date().getHours()`. -/
  hour : Nat
  /-- The successive results of `Math.random()`. -/
  rand : Nat → ℚ
  /-- How many draws have been consumed. -/
  drawn : Nat
  /-- Pending `setTimeout` callbacks. -/
  timers : List Timer
  nextTimer : Nat
  /-- Handles of pending `requestAnimationFrame` callbacks. -/
  frames : List Nat
  nextFrame : Nat
  /-- The elements below `document.body`. -/
  body : Dom
  nextNode : Nat
  /-- `document.body.style.transform` and `.filter`. -/
  bodyTransform : CssValue
  bodyFilter : CssValue
  /-- `document.fullscreenElement !== null`. -/
  fullscreen : Bool
  /-- `document.querySelector('video[autoplay]') !== null`. -/
  autoplayVideo : Bool
  /-- `document.activeElement`. -/
  activeElement : Option ActiveElement
  /-- `document.querySelector('input[type="password"]')` is non-null. -/
  passwordInput : Bool
  /-- A form whose action contains "login" or "signin" exists. -/
  loginForm : Bool
  /-- Some `div, section, aside, nav, img` is wider and taller than 100 px. -/
  largeElements : Bool
  /-- `window.innerWidth` and `window.innerHeight`. -/
  innerWidth : Nat
  innerHeight : Nat
  /-- Whether constructing an `AudioContext` succeeds. -/
  audioContextAvailable : Bool
  /-- `window.matchMedia('(prefers-reduced-motion: reduce)').matches`. -/
  reducedMotion : Bool
  /-- `new URL(window.location.href).hostname`. -/
  hostname : String

/-- `Math.random()`: the next draw of the stream. -/
def Host.random (h : Host) : ℚ × Host :=
  (h.rand h.drawn, { h with drawn := h.drawn + 1 })

/-- `setTimeout(cb, delay)`: registers the callback and returns its handle. -/
def Host.setTimeout (h : Host) (cb : Callback) (delay : ℚ) : Nat × Host :=
  (h.nextTimer,
   { h with
     timers := h.timers ++ [{ id := h.nextTimer, setAt := h.now, delay := delay, cb := cb }]
     nextTimer := h.nextTimer + 1 })

/-- `clearTimeout(id)`. -/
def Host.clearTimeout (h : Host) (id : Nat) : Host :=
  { h with timers := h.timers.filter (fun t => t.id != id) }

/-- `requestAnimationFrame(cb)`: returns the handle of the request. -/
def Host.requestAnimationFrame (h : Host) : Nat × Host :=
  (h.nextFrame, { h with frames := h.frames ++ [h.nextFrame], nextFrame := h.nextFrame + 1 })

/-- `cancelAnimationFrame(id)`. -/
def Host.cancelAnimationFrame (h : Host) (id : Nat) : Host :=
  { h with frames := h.frames.filter (fun f => f != id) }

/-- The number of pending timers whose closure is `cb`. -/
def Host.pending (h : Host) (cb : Callback) : Nat :=
  (h.timers.filter (fun t => t.cb == cb)).length

/-- A page that has just loaded at clock `now`: nothing is pending, the body
is empty, every draw is `r`. -/
def Host.fresh (now : Nat) (r : ℚ) : Host where
  now := now
  hour := 12
  rand := fun _ => r
  drawn := 0
  timers := []
  nextTimer := 1
  frames := []
  nextFrame := 1
  body := Dom.nil
  nextNode := 1
  bodyTransform := CssValue.empty
  bodyFilter := CssValue.empty
  fullscreen := false
  autoplayVideo := false
  activeElement := none
  passwordInput := false
  loginForm := false
  largeElements := false
  innerWidth := 1280
  innerHeight := 720
  audioContextAvailable := true
  reducedMotion := false
  hostname := "example.org"

/-! ## Event queue (`content-bundle.js`, lines 63-85) -/

structure EventQueue where
  isEventActive : Bool
  lastEventTime : Nat
  deriving DecidableEq

namespace EventQueue

/-- The constructor. -/
def new : EventQueue := { isEventActive := false, lastEventTime := 0 }

/-- `canStartEvent()`; `now` is the value of `Date.now()`. The subtraction is
over the integers, as in JavaScript. -/
def canStartEvent (q : EventQueue) (now : Nat) : Bool :=
  !q.isEventActive && decide ((now : Int) - (q.lastEventTime : Int) ≥ (TIME.EVENT_COOLDOWN : Int))

/-- `startEvent(duration)`. -/
def startEvent (q : EventQueue) (h : Host) (duration : Nat) : EventQueue × Host :=
  ({ q with isEventActive := true, lastEventTime := h.now },
   (h.setTimeout Callback.eventRelease duration).2)

/-- The closure `startEvent` hands to `setTimeout`. -/
def release (q : EventQueue) : EventQueue :=
  { q with isEventActive := false }

/-- `reset()`. -/
def reset (q : EventQueue) : EventQueue :=
  { q with isEventActive := false }

/-- The clock reaches `t` and the host has run every release closure whose
delay has elapsed by then (timers are taken to be punctual); no other closure
runs. -/
def elapse (q : EventQueue) (h : Host) (t : Nat) : EventQueue × Host :=
  let due := h.timers.filter (fun tm => tm.cb == Callback.eventRelease && tm.due t)
  (due.foldl (fun q _ => q.release) q,
   { h with
     now := t
     timers := h.timers.filter (fun tm => !(tm.cb == Callback.eventRelease && tm.due t)) })

end EventQueue

/-! ## Utility functions (lines 91-139)

The functions that call `Math.random()` take the draw `r` as an argument. -/

def random (lo hi : ℚ) (r : ℚ) : ℚ := r * (hi - lo) + lo

def randomInt (lo hi : ℚ) (r : ℚ) : Int := Int.floor (random lo hi r)

/-- `array[randomInt(0, array.length)]`; `none` is `undefined`. -/
def randomChoice {α : Type} (array : List α) (r : ℚ) : Option α :=
  let i := randomInt 0 array.length r
  if 0 ≤ i then array.get? i.toNat else none

def probability (chance : ℚ) (r : ℚ) : Bool := decide (r < chance)

def clamp (value lo hi : ℚ) : ℚ := Min.min (Max.max value lo) hi

def isNightTime (h : Host) : Bool := decide (h.hour ≥ 19) || decide (h.hour < 6)

def isFullscreenOrCall (h : Host) : Bool := h.fullscreen || h.autoplayVideo

def hasActiveForm (h : Host) : Bool :=
  match h.activeElement with
  | none => false
  | some a => a.tagName == "INPUT" || a.tagName == "TEXTAREA" || a.isContentEditable

def prefersReducedMotion (h : Host) : Bool := h.reducedMotion

def UNSAFE_DOMAINS : List String :=
  ["bank", "paypal", "stripe", "checkout", "payment",
   "gov", "irs", "medicare", "healthcare",
   "login", "signin", "auth",
   "meet", "zoom", "teams", "webex"]

/-- `s.includes(part)`. -/
def includes (s part : String) : Bool := decide (part.toList <:+: s.toList)

/-- `s.toLowerCase()`, for the ASCII letters of a hostname. -/
def toLowerCase (s : String) : String := String.mk (s.toList.map Char.toLower)

/-- `isUnsafeDomain(url, unsafeDomains)`, on the hostname of the URL. -/
def isUnsafeDomain (hostname : String) (unsafeDomains : List String) : Bool :=
  unsafeDomains.any (fun domain => includes (toLowerCase hostname) domain)

/-- `isWhitelisted(url, whitelist)`, on the hostname of the URL. -/
def isWhitelisted (hostname : String) (whitelist : List String) : Bool :=
  if whitelist.length = 0 then false
  else whitelist.any (fun site => includes hostname site)

/-! ## The element tree -/

namespace Dom

/-- `parent.appendChild(n)` on a sibling chain: `n` becomes the last sibling. -/
def append : Dom → Dom → Dom
  | nil, n => n
  | node i c ch nx, n => node i c ch (append nx n)

/-- Detaches the element with identity `x` (and its subtree) wherever it is:
`if (el.parentNode) el.parentNode.removeChild(el)`. -/
def remove (x : Nat) : Dom → Dom
  | nil => nil
  | node i c ch nx => if i = x then remove x nx else node i c (remove x ch) (remove x nx)

/-- Detaches every element whose classes satisfy `p`. -/
def prune (p : List (List Char) → Bool) : Dom → Dom
  | nil => nil
  | node i c ch nx => if p c then prune p nx else node i c (prune p ch) (prune p nx)

/-- Some element of the tree has classes satisfying `p`. -/
def any (p : List (List Char) → Bool) : Dom → Bool
  | nil => false
  | node _ c ch nx => p c || any p ch || any p nx

/-- The number of elements whose classes satisfy `p`. -/
def count (p : List (List Char) → Bool) : Dom → Nat
  | nil => 0
  | node _ c ch nx => (if p c then 1 else 0) + count p ch + count p nx

end Dom

/-- `classes.join(' ')`: the `class` attribute of an element. -/
def className : List (List Char) → List Char
  | [] => []
  | [c] => c
  | c :: cs => c ++ ' ' :: className cs

def HAUNTED : List Char := "haunted-".toList

/-- The selector `[class^="haunted-"], [class*=" haunted-"]` of `cleanup`. -/
def hauntedSelector (classes : List (List Char)) : Bool :=
  HAUNTED.isPrefixOf (className classes) || decide ((' ' :: HAUNTED) <:+: className classes)

/-- The class list has a class that starts with `haunted-`. -/
def hasHauntedClass (classes : List (List Char)) : Bool :=
  classes.any (fun c => HAUNTED.isPrefixOf c)

/-- `createElement(tag, classes)` followed by `document.body.appendChild`:
returns the identity of the new element. -/
def Host.appendToBody (h : Host) (classes : List (List Char)) (children : Dom) (used : Nat) :
    Nat × Host :=
  (h.nextNode,
   { h with
     body := h.body.append (Dom.node h.nextNode classes children Dom.nil)
     nextNode := h.nextNode + 1 + used })

/-! ## Ghosts (lines 353-716)

The sprite classes are the renderer: of a sprite the coordination logic only
keeps the element and the animation-frame handle that `destroy()` uses.
Draws that only position or paint a sprite are not taken from the stream, and
the sprite's own self-destruction timers are not modelled. -/

inductive GhostBehavior where
  | slide | teleport | follow | peek | stare | crawl
  deriving DecidableEq

def GHOST_BEHAVIORS : List GhostBehavior :=
  [.slide, .teleport, .follow, .peek, .stare, .crawl]

structure Ghost where
  element : Nat
  animationFrame : Option Nat
  deriving DecidableEq

/-- Whether `setupBehavior` leaves a pending animation frame: `slide`,
`follow` and `crawl` animate per frame, and `peek` falls back to `slide` when
the page has no large element. -/
def GhostBehavior.animates (b : Option GhostBehavior) (largeElements : Bool) : Bool :=
  match b with
  | some .slide => true
  | some .follow => true
  | some .crawl => true
  | some .peek => !largeElements
  | _ => false

/-- `new Ghost(audioSystem).create()`. -/
def Ghost.create (h : Host) : Ghost × Host :=
  -- constructor: generateId(), randomChoice(GHOST_BEHAVIORS)
  let h := h.random.2
  let behavior := randomChoice GHOST_BEHAVIORS h.random.1
  let h := h.random.2
  -- setupBehavior()
  let frame := if GhostBehavior.animates behavior h.largeElements then some h.nextFrame else none
  let h := if GhostBehavior.animates behavior h.largeElements then h.requestAnimationFrame.2 else h
  -- the element, with its canvas child; document.body.appendChild(this.element)
  let canvas := Dom.node (h.nextNode + 1) [] Dom.nil Dom.nil
  let el := h.appendToBody ["haunted-ghost".toList] canvas 1
  -- Math.random() < 0.3: playWhisper()
  ({ element := el.1, animationFrame := frame }, el.2.random.2)

/-- `destroy()` of a sprite. -/
def Ghost.destroy (g : Ghost) (h : Host) : Host :=
  let h := match g.animationFrame with
    | some f => h.cancelAnimationFrame f
    | none => h
  { h with body := h.body.remove g.element }

structure GhostManager where
  settings : Settings
  ghosts : List Ghost
  timers : List Nat

namespace GhostManager

/-- The constructor. -/
def new (settings : Settings) : GhostManager :=
  { settings := settings, ghosts := [], timers := [] }

/-- The base interval of `scheduleGhost`. -/
def baseInterval (ghostFrequency : ℚ) : ℚ :=
  TIME.GHOST_MIN + (1 - ghostFrequency) * ((TIME.GHOST_MAX : ℚ) - TIME.GHOST_MIN)

/-- The delay `scheduleGhost` passes to `setTimeout`, for the draw `r`. -/
def interval (ghostFrequency : ℚ) (r : ℚ) : ℚ :=
  baseInterval ghostFrequency + random (-5000) 5000 r

/-- `scheduleGhost()`: registers the next tick and records its handle. -/
def scheduleGhost (m : GhostManager) (h : Host) : GhostManager × Host :=
  let r := h.random
  let timer := r.2.setTimeout Callback.ghostTick (interval m.settings.ghostFrequency r.1)
  ({ m with timers := m.timers ++ [timer.1] }, timer.2)

/-- `spawnGhost()`. -/
def spawnGhost (m : GhostManager) (q : EventQueue) (h : Host) :
    GhostManager × EventQueue × Host :=
  let ghost := Ghost.create h
  let m := { m with ghosts := m.ghosts ++ [ghost.1] }
  -- Mark event as active for typical ghost duration
  let ev := q.startEvent ghost.2 8000
  let h := (ev.2.setTimeout (Callback.ghostForget ghost.1.element) 15000).2
  (m, ev.1, h)

/-- The condition under which a tick spawns. -/
def tickFires (m : GhostManager) (q : EventQueue) (h : Host) : Bool :=
  m.settings.enabled && m.settings.ghosts && q.canStartEvent h.now

/-- The tick closure of `scheduleGhost`. -/
def tick (m : GhostManager) (q : EventQueue) (h : Host) :
    GhostManager × EventQueue × Host :=
  let s := if m.tickFires q h then m.spawnGhost q h else (m, q, h)
  let r := s.1.scheduleGhost s.2.2
  (r.1, s.2.1, r.2)

/-- The 15000 ms closure of `spawnGhost`: `indexOf` and `splice(index, 1)`. -/
def forget (m : GhostManager) (ghost : Nat) : GhostManager :=
  { m with ghosts := m.ghosts.eraseP (fun g => g.element == ghost) }

/-- `stop()`. -/
def stop (m : GhostManager) (h : Host) : GhostManager × Host :=
  let h := m.timers.foldl Host.clearTimeout h
  let h := m.ghosts.foldl (fun h g => g.destroy h) h
  ({ m with timers := [], ghosts := [] }, h)

def start (m : GhostManager) (h : Host) : GhostManager × Host :=
  m.scheduleGhost h

def updateSettings (m : GhostManager) (settings : Settings) : GhostManager :=
  { m with settings := settings }

end GhostManager

/-! ## Spiders (lines 722-970) -/

inductive SpiderBehavior where
  | walk | drop | inspect
  deriving DecidableEq

structure Spider where
  element : Nat
  animationFrame : Option Nat
  deriving DecidableEq

/-- `new Spider(audioSystem).create()`. Each of the three behaviours leaves a
pending animation frame; `drop` adds the class `spider-dropping` and a thread
element. The legs and eyes below `spider-body` are left out. -/
def Spider.create (h : Host) : Spider × Host :=
  -- constructor: generateId(), random(1, 3), randomChoice(['walk', 'drop', 'inspect'])
  let h := h.random.2
  let h := h.random.2
  let behavior := randomChoice [SpiderBehavior.walk, .drop, .inspect] h.random.1
  let h := h.random.2
  let body := Dom.node (h.nextNode + 1) ["spider-body".toList] Dom.nil
  let dropping := decide (behavior = some SpiderBehavior.drop)
  let classes := if dropping then ["haunted-spider".toList, "spider-dropping".toList]
    else ["haunted-spider".toList]
  let children := if dropping
    then body (Dom.node (h.nextNode + 2) ["spider-thread".toList] Dom.nil Dom.nil)
    else body Dom.nil
  -- setupBehavior()
  let frame := h.requestAnimationFrame
  -- document.body.appendChild(this.element)
  let el := frame.2.appendToBody classes children 2
  -- Math.random() < 0.4: playCrawling()
  ({ element := el.1, animationFrame := some frame.1 }, el.2.random.2)

def Spider.destroy (s : Spider) (h : Host) : Host :=
  let h := match s.animationFrame with
    | some f => h.cancelAnimationFrame f
    | none => h
  { h with body := h.body.remove s.element }

structure SpiderManager where
  settings : Settings
  spiders : List Spider
  timers : List Nat

namespace SpiderManager

def new (settings : Settings) : SpiderManager :=
  { settings := settings, spiders := [], timers := [] }

def baseInterval (spiderFrequency : ℚ) : ℚ :=
  TIME.SPIDER_MIN + (1 - spiderFrequency) * ((TIME.SPIDER_MAX : ℚ) - TIME.SPIDER_MIN)

def interval (spiderFrequency : ℚ) (r : ℚ) : ℚ :=
  baseInterval spiderFrequency + random (-5000) 5000 r

def scheduleSpider (m : SpiderManager) (h : Host) : SpiderManager × Host :=
  let r := h.random
  let timer := r.2.setTimeout Callback.spiderTick (interval m.settings.spiderFrequency r.1)
  ({ m with timers := m.timers ++ [timer.1] }, timer.2)

/-- `probability(0.1) ? randomInt(2, 5) : 1` for the draws `r1`, `r2`. -/
def clusterCount (r1 r2 : ℚ) : Int :=
  if probability (1 / 10) r1 then randomInt 2 5 r2 else 1

/-- `spawnSpider()`: the creations themselves are deferred to timers. -/
def spawnSpider (m : SpiderManager) (q : EventQueue) (h : Host) :
    SpiderManager × EventQueue × Host :=
  let r1 := h.random
  let h := if probability (1 / 10) r1.1 then r1.2.random.2 else r1.2
  let count := clusterCount r1.1 r1.2.random.1
  -- Mark event as active while spiders are crawling
  let ev := q.startEvent h 12000
  let h := (List.range count.toNat).foldl
    (fun (h : Host) (i : Nat) => (h.setTimeout Callback.spiderCreate ((i : ℚ) * 500)).2) ev.2
  (m, ev.1, h)

/-- The closure `spawnSpider` defers by `i * 500` ms. -/
def create (m : SpiderManager) (h : Host) : SpiderManager × Host :=
  let s := Spider.create h
  let h := (s.2.setTimeout (Callback.spiderForget s.1.element) 20000).2
  ({ m with spiders := m.spiders ++ [s.1] }, h)

def forget (m : SpiderManager) (spider : Nat) : SpiderManager :=
  { m with spiders := m.spiders.eraseP (fun s => s.element == spider) }

def tickFires (m : SpiderManager) (q : EventQueue) (h : Host) : Bool :=
  m.settings.enabled && m.settings.spiders && q.canStartEvent h.now

def tick (m : SpiderManager) (q : EventQueue) (h : Host) :
    SpiderManager × EventQueue × Host :=
  let s := if m.tickFires q h then m.spawnSpider q h else (m, q, h)
  let r := s.1.scheduleSpider s.2.2
  (r.1, s.2.1, r.2)

def stop (m : SpiderManager) (h : Host) : SpiderManager × Host :=
  let h := m.timers.foldl Host.clearTimeout h
  let h := m.spiders.foldl (fun h s => s.destroy h) h
  ({ m with timers := [], spiders := [] }, h)

def start (m : SpiderManager) (h : Host) : SpiderManager × Host :=
  m.scheduleSpider h

def updateSettings (m : SpiderManager) (settings : Settings) : SpiderManager :=
  { m with settings := settings }

end SpiderManager

/-! ## Corruption effects (lines 976-1040) -/

inductive CorruptionEffect where
  | textMutation | layoutTilt | cursorCorruption | colorShift | linkSabotage
  deriving DecidableEq

structure CorruptionManager where
  settings : Settings
  timers : List Nat

namespace CorruptionManager

def new (settings : Settings) : CorruptionManager :=
  { settings := settings, timers := [] }

def baseInterval (distortionFrequency : ℚ) : ℚ :=
  TIME.CORRUPTION_MIN +
    (1 - distortionFrequency) * ((TIME.CORRUPTION_MAX : ℚ) - TIME.CORRUPTION_MIN)

def interval (distortionFrequency : ℚ) (r : ℚ) : ℚ :=
  baseInterval distortionFrequency + random (-2000) 2000 r

def scheduleCorruption (m : CorruptionManager) (h : Host) : CorruptionManager × Host :=
  let r := h.random
  let timer := r.2.setTimeout Callback.corruptionTick
    (interval m.settings.distortionFrequency r.1)
  ({ m with timers := m.timers ++ [timer.1] }, timer.2)

/-- The array `effects` of `applyRandomCorruption`. -/
def effects : List CorruptionEffect :=
  [.textMutation, .layoutTilt, .cursorCorruption, .colorShift, .linkSabotage]

/-- `layoutTilt()`. -/
def layoutTilt (h : Host) : Host :=
  let t0 := h.bodyTransform
  let angle := h.random
  let h := { angle.2 with bodyTransform := CssValue.rotate (random (-2) 2 angle.1) }
  let d := h.random
  (d.2.setTimeout (Callback.restoreTransform t0) (random 2000 4000 d.1)).2

/-- `cursorCorruption()`. The repaint interval, which only redraws the trail
and is cleared by the closure that removes the element, is left out. -/
def cursorCorruption (h : Host) : Host :=
  let cursor := h.appendToBody ["haunted-cursor-trail".toList] Dom.nil 0
  let d := cursor.2.random
  (d.2.setTimeout (Callback.removeNode cursor.1) (random 3000 6000 d.1)).2

/-- `colorShift()`. -/
def colorShift (h : Host) : Host :=
  let f0 := h.bodyFilter
  let h := { h with bodyFilter := CssValue.hueShift }
  let d := h.random
  (d.2.setTimeout (Callback.restoreFilter f0) (random 1000 3000 d.1)).2

/-- Runs one effect. `textMutation` and `linkSabotage` only touch inline
styles of page elements, which the host record does not hold. -/
def applyEffect (e : CorruptionEffect) (h : Host) : Host :=
  match e with
  | .textMutation => h
  | .layoutTilt => layoutTilt h
  | .cursorCorruption => cursorCorruption h
  | .colorShift => colorShift h
  | .linkSabotage => h

/-- `applyRandomCorruption()`. For a draw outside `[0, 1)` `randomChoice`
yields `undefined`, which the code would fail to call; no effect runs then. -/
def applyRandomCorruption (m : CorruptionManager) (q : EventQueue) (h : Host) :
    CorruptionManager × EventQueue × Host :=
  -- Mark event as active for corruption duration
  let ev := q.startEvent h 4000
  let r := ev.2.random
  match randomChoice effects r.1 with
  | some e => (m, ev.1, applyEffect e r.2)
  | none => (m, ev.1, r.2)

def tickFires (m : CorruptionManager) (q : EventQueue) (h : Host) : Bool :=
  m.settings.enabled && m.settings.corruption && q.canStartEvent h.now

def tick (m : CorruptionManager) (q : EventQueue) (h : Host) :
    CorruptionManager × EventQueue × Host :=
  let s := if m.tickFires q h then m.applyRandomCorruption q h else (m, q, h)
  let r := s.1.scheduleCorruption s.2.2
  (r.1, s.2.1, r.2)

def stop (m : CorruptionManager) (h : Host) : CorruptionManager × Host :=
  let h := m.timers.foldl Host.clearTimeout h
  ({ m with timers := [] }, h)

def start (m : CorruptionManager) (h : Host) : CorruptionManager × Host :=
  m.scheduleCorruption h

def updateSettings (m : CorruptionManager) (s : Settings) : CorruptionManager :=
  { m with settings := s }

end CorruptionManager

/-! ## Environmental effects (lines 1046-1064) -/

structure FogParticle where
  x : ℚ
  y : ℚ
  size : ℚ
  speedX : ℚ
  speedY : ℚ
  opacity : ℚ
  deriving DecidableEq

/-- One particle of `startFog`, from six draws. -/
def FogParticle.create (h : Host) : FogParticle × Host :=
  let x := h.random
  let y := x.2.random
  let size := y.2.random
  let speedX := size.2.random
  let speedY := speedX.2.random
  let opacity := speedY.2.random
  ({ x := random 0 h.innerWidth x.1
     y := random 0 h.innerHeight y.1
     size := random 100 300 size.1
     speedX := random (-1 / 2) (1 / 2) speedX.1
     speedY := random (-3 / 10) (3 / 10) speedY.1
     opacity := random (1 / 20) (3 / 20) opacity.1 }, opacity.2)

/-- The per-particle step of `animateFog` on a `w` by `h` canvas. -/
def FogParticle.move (w h : ℚ) (p : FogParticle) : FogParticle :=
  let p := { p with x := p.x + p.speedX, y := p.y + p.speedY }
  let p := if p.x < -p.size then { p with x := w + p.size } else p
  let p := if p.x > w + p.size then { p with x := -p.size } else p
  let p := if p.y < -p.size then { p with y := h + p.size } else p
  if p.y > h + p.size then { p with y := -p.size } else p

structure EnvironmentManager where
  settings : Settings
  fogCanvas : Option Nat
  /-- `fogCtx` is non-null. -/
  fogCtx : Bool
  fogParticles : List FogParticle
  fogAnimationFrame : Option Nat
  effectTimers : List Nat

namespace EnvironmentManager

def new (settings : Settings) : EnvironmentManager :=
  { settings := settings, fogCanvas := none, fogCtx := false, fogParticles := [],
    fogAnimationFrame := none, effectTimers := [] }

/-- `animateFog()`. -/
def animateFog (m : EnvironmentManager) (h : Host) : EnvironmentManager × Host :=
  if !m.fogCtx then (m, h)
  else
    let frame := h.requestAnimationFrame
    ({ m with
       fogParticles := m.fogParticles.map (FogParticle.move h.innerWidth h.innerHeight)
       fogAnimationFrame := some frame.1 }, frame.2)

/-- The loop of `startFog` that pushes `n` particles. -/
def pushParticles : Nat → List FogParticle → Host → List FogParticle × Host
  | 0, ps, h => (ps, h)
  | n + 1, ps, h =>
    let p := FogParticle.create h
    pushParticles n (ps ++ [p.1]) p.2

/-- `startFog()`. -/
def startFog (m : EnvironmentManager) (h : Host) : EnvironmentManager × Host :=
  let canvas := h.appendToBody ["haunted-fog".toList] Dom.nil 0
  let ps := pushParticles 50 m.fogParticles canvas.2
  animateFog { m with fogCanvas := some canvas.1, fogCtx := true, fogParticles := ps.1 } ps.2

/-- `stopFog()`. -/
def stopFog (m : EnvironmentManager) (h : Host) : EnvironmentManager × Host :=
  let h := match m.fogAnimationFrame with
    | some f => h.cancelAnimationFrame f
    | none => h
  let h := match m.fogCanvas with
    | some c => { h with body := h.body.remove c }
    | none => h
  ({ m with fogCanvas := none, fogCtx := false, fogParticles := [] }, h)

/-- The closure `spawn` of `scheduleShadows`. -/
def spawnShadow (m : EnvironmentManager) (h : Host) : Host :=
  if !m.settings.enabled || !m.settings.shadows then h
  else
    let edge := h.random
    let cls := match randomChoice ["top", "right", "bottom", "left"] edge.1 with
      | some e => ("shadow-" ++ e).toList
      | none => "shadow-undefined".toList
    let shadow := edge.2.appendToBody ["haunted-shadow".toList, cls] Dom.nil 0
    (shadow.2.setTimeout (Callback.removeNode shadow.1) 5000).2

/-- The closure `schedule` of `scheduleShadows`. -/
def shadowSchedule (m : EnvironmentManager) (h : Host) : EnvironmentManager × Host :=
  let h := m.spawnShadow h
  let d := h.random
  let t := d.2.setTimeout Callback.shadowTick (random 10000 30000 d.1)
  ({ m with effectTimers := m.effectTimers ++ [t.1] }, t.2)

/-- The closure `glitch` of `scheduleGlitches`. -/
def glitch (m : EnvironmentManager) (h : Host) : Host :=
  if !m.settings.enabled || !m.settings.glitches then h
  else
    let type := h.random
    let cls := match randomChoice ["rgb-split", "static", "tear"] type.1 with
      | some e => ("glitch-" ++ e).toList
      | none => "glitch-undefined".toList
    let overlay := type.2.appendToBody ["haunted-glitch".toList, cls] Dom.nil 0
    let d := overlay.2.random
    (d.2.setTimeout (Callback.removeNode overlay.1) (random 100 400 d.1)).2

/-- The closure `schedule` of `scheduleGlitches`. -/
def glitchSchedule (m : EnvironmentManager) (h : Host) : EnvironmentManager × Host :=
  let h := m.glitch h
  let d := h.random
  let t := d.2.setTimeout Callback.glitchTick (random 15000 45000 d.1)
  ({ m with effectTimers := m.effectTimers ++ [t.1] }, t.2)

/-- The closure `dripOnce` of `scheduleBlood`. -/
def dripOnce (m : EnvironmentManager) (h : Host) : Host :=
  if !m.settings.enabled || !m.settings.blood then h
  else
    let drip := h.appendToBody ["haunted-blood-drip".toList] Dom.nil 0
    (drip.2.setTimeout (Callback.removeNode drip.1) 5000).2

/-- The closure `schedule` of `scheduleBlood`. -/
def bloodSchedule (m : EnvironmentManager) (h : Host) : EnvironmentManager × Host :=
  let c := h.random
  let h := (List.range (randomInt 1 3 c.1).toNat).foldl
    (fun (h : Host) (i : Nat) => (h.setTimeout Callback.bloodDrip ((i : ℚ) * 500)).2) c.2
  let d := h.random
  let t := d.2.setTimeout Callback.bloodTick (random 20000 60000 d.1)
  ({ m with effectTimers := m.effectTimers ++ [t.1] }, t.2)

/-- The loop `for (let i = 0; i < randomInt(1, 3); i++)` of `pageFlicker`, whose
bound is drawn anew at every test; for draws in `[0, 1)` the third test fails.
Returns the silhouettes, their number and the host after the draws. -/
def silhouettes : Nat → Nat → Dom → Host → Dom × Nat × Host
  | 0, i, acc, h => (acc, i, h)
  | fuel + 1, i, acc, h =>
    let r := h.random
    if (i : Int) < randomInt 1 3 r.1 then
      silhouettes fuel (i + 1)
        (acc.append (Dom.node (h.nextNode + 1 + i) ["haunted-silhouette".toList] Dom.nil Dom.nil))
        r.2
    else (acc, i, r.2)

/-- `pageFlicker()`. The five timers that toggle the overlay's opacity are left
out; the overlay is removed after `100 + 300 + 100 + 400 + 100` ms. -/
def pageFlicker (h : Host) : Host :=
  let s := silhouettes 3 0 Dom.nil h
  let overlay := s.2.2.appendToBody ["haunted-flicker-overlay".toList] s.1 s.2.1
  (overlay.2.setTimeout (Callback.removeNode overlay.1) 1000).2

/-- The closure `schedule` of `scheduleFlickers`. -/
def flickerSchedule (m : EnvironmentManager) (h : Host) : EnvironmentManager × Host :=
  let r := h.random
  let h := if r.1 < 1 / 5 then pageFlicker r.2 else r.2
  let d := h.random
  let t := d.2.setTimeout Callback.flickerTick (random 20000 60000 d.1)
  ({ m with effectTimers := m.effectTimers ++ [t.1] }, t.2)

/-- `start()`. -/
def start (m : EnvironmentManager) (h : Host) : EnvironmentManager × Host :=
  let s := if m.settings.fog then m.startFog h else (m, h)
  let s := s.1.shadowSchedule s.2
  let s := s.1.glitchSchedule s.2
  let s := s.1.bloodSchedule s.2
  s.1.flickerSchedule s.2

/-- `stop()`. -/
def stop (m : EnvironmentManager) (h : Host) : EnvironmentManager × Host :=
  let s := m.stopFog h
  let h := s.1.effectTimers.foldl Host.clearTimeout s.2
  ({ s.1 with effectTimers := [] }, h)

/-- `updateSettings(s)`. -/
def updateSettings (m : EnvironmentManager) (s : Settings) (h : Host) :
    EnvironmentManager × Host :=
  let m := { m with settings := s }
  if s.fog && m.fogCanvas.isNone then m.startFog h
  else if !s.fog && m.fogCanvas.isSome then m.stopFog h
  else (m, h)

end EnvironmentManager

/-! ## Audio (lines 193-347), as far as the orchestrator drives it -/

structure HorrorAudio where
  volume : ℚ
  initialized : Bool
  /-- `droneOscillator` is non-null. -/
  droneOscillator : Bool
  deriving DecidableEq

namespace HorrorAudio

def new : HorrorAudio := { volume := 1 / 2, initialized := false, droneOscillator := false }

/-- `init()`: a failure to construct the context is caught and logged. -/
def init (a : HorrorAudio) (h : Host) : HorrorAudio :=
  if a.initialized then a
  else if h.audioContextAvailable then { a with initialized := true }
  else a

def setVolume (a : HorrorAudio) (volume : ℚ) : HorrorAudio :=
  { a with volume := clamp volume 0 1 }

def startDrone (a : HorrorAudio) : HorrorAudio :=
  if !a.initialized || a.droneOscillator then a else { a with droneOscillator := true }

def stopDrone (a : HorrorAudio) : HorrorAudio :=
  if a.droneOscillator then { a with droneOscillator := false } else a

end HorrorAudio

/-! ## Messages (`MSG`, lines 36-42) -/

namespace MSG

def GET_SETTINGS : String := "GET_SETTINGS"
def UPDATE_SETTINGS : String := "UPDATE_SETTINGS"
def PANIC : String := "PANIC"
def ENABLE : String := "ENABLE"
def DISABLE : String := "DISABLE"

end MSG

/-- The `settings` payload of an `UPDATE_SETTINGS` request: the fields it
carries. -/
structure SettingsPatch where
  enabled : Option Bool := none
  intensity : Option ℚ := none
  ghostFrequency : Option ℚ := none
  spiderFrequency : Option ℚ := none
  distortionFrequency : Option ℚ := none
  audioVolume : Option ℚ := none
  nightModeAggression : Option Bool := none
  ghosts : Option Bool := none
  spiders : Option Bool := none
  fog : Option Bool := none
  audio : Option Bool := none
  glitches : Option Bool := none
  corruption : Option Bool := none
  shadows : Option Bool := none
  blood : Option Bool := none
  whitelist : Option (List String) := none
  blacklist : Option (List String) := none

/-- The spread `{ ...settings, ...patch }`. -/
def Settings.merge (s : Settings) (p : SettingsPatch) : Settings where
  enabled := p.enabled.getD s.enabled
  intensity := p.intensity.getD s.intensity
  ghostFrequency := p.ghostFrequency.getD s.ghostFrequency
  spiderFrequency := p.spiderFrequency.getD s.spiderFrequency
  distortionFrequency := p.distortionFrequency.getD s.distortionFrequency
  audioVolume := p.audioVolume.getD s.audioVolume
  nightModeAggression := p.nightModeAggression.getD s.nightModeAggression
  ghosts := p.ghosts.getD s.ghosts
  spiders := p.spiders.getD s.spiders
  fog := p.fog.getD s.fog
  audio := p.audio.getD s.audio
  glitches := p.glitches.getD s.glitches
  corruption := p.corruption.getD s.corruption
  shadows := p.shadows.getD s.shadows
  blood := p.blood.getD s.blood
  whitelist := p.whitelist.getD s.whitelist
  blacklist := p.blacklist.getD s.blacklist

structure Request where
  type : String
  settings : SettingsPatch := {}

/-! ## Main orchestrator (lines 1070-1152)

The record is the orchestrator once `init()` has constructed the event queue,
the audio system and the four managers; the timers of the Safety Monitor and
of the Intensity Controller and the message listener only exist from then on.
The managers do not store the event queue and the audio system: the
orchestrator's are passed to them. -/

structure HauntedWeb where
  settings : Settings
  audio : HorrorAudio
  eventQueue : EventQueue
  ghostManager : GhostManager
  spiderManager : SpiderManager
  corruptionManager : CorruptionManager
  environmentManager : EnvironmentManager
  intensity : ℚ
  timeOnPage : Nat
  initialized : Bool
  enabled : Bool
  /-- The managers hold the very object `this.settings` (after the
  constructors, and after the last branch of `updateFromSettings`), so that an
  assignment to `this.settings.enabled` is seen by them. -/
  sharedSettings : Bool

namespace HauntedWeb

def isLoginPage (h : Host) : Bool := h.passwordInput || h.loginForm

/-- `shouldDisable()`. -/
def shouldDisable (settings : Settings) (h : Host) : Bool :=
  if isWhitelisted h.hostname settings.whitelist then true
  else if isUnsafeDomain h.hostname UNSAFE_DOMAINS then true
  else if isLoginPage h then true
  else false

/-- The snapshot `boosted` of `start()`. -/
def boosted (settings : Settings) (h : Host) : Settings :=
  let nightBoost : ℚ := if settings.nightModeAggression && isNightTime h then 3 / 2 else 1
  { settings with
    ghostFrequency := Min.min (settings.ghostFrequency * nightBoost) 1
    spiderFrequency := Min.min (settings.spiderFrequency * nightBoost) 1
    distortionFrequency := Min.min (settings.distortionFrequency * nightBoost) 1 }

/-- Hands one settings object to the four managers. -/
def pushSettings (hw : HauntedWeb) (s : Settings) (h : Host) : HauntedWeb × Host :=
  let env := hw.environmentManager.updateSettings s h
  ({ hw with
     ghostManager := hw.ghostManager.updateSettings s
     spiderManager := hw.spiderManager.updateSettings s
     corruptionManager := hw.corruptionManager.updateSettings s
     environmentManager := env.1 }, env.2)

/-- `start()`. -/
def start (hw : HauntedWeb) (h : Host) : HauntedWeb × Host :=
  if !hw.enabled then (hw, h)
  else
    let hw := { hw with enabled := true }
    let p := hw.pushSettings (boosted hw.settings h) h
    let hw := { p.1 with sharedSettings := false }
    let g := if hw.settings.ghosts then hw.ghostManager.start p.2 else (hw.ghostManager, p.2)
    let sp := if hw.settings.spiders then hw.spiderManager.start g.2
      else (hw.spiderManager, g.2)
    let c := if hw.settings.corruption then hw.corruptionManager.start sp.2
      else (hw.corruptionManager, sp.2)
    let e := hw.environmentManager.start c.2
    let audio := if hw.audio.initialized && hw.settings.audio then hw.audio.startDrone
      else hw.audio
    ({ hw with
       ghostManager := g.1, spiderManager := sp.1, corruptionManager := c.1
       environmentManager := e.1, audio := audio }, e.2)

/-- `stop()`. -/
def stop (hw : HauntedWeb) (h : Host) : HauntedWeb × Host :=
  let g := hw.ghostManager.stop h
  let sp := hw.spiderManager.stop g.2
  let c := hw.corruptionManager.stop sp.2
  let e := hw.environmentManager.stop c.2
  ({ hw with
     enabled := false
     ghostManager := g.1, spiderManager := sp.1, corruptionManager := c.1
     environmentManager := e.1, audio := hw.audio.stopDrone }, e.2)

/-- `cleanup()`. -/
def cleanup (h : Host) : Host :=
  { h with
    body := h.body.prune hauntedSelector
    bodyTransform := CssValue.empty
    bodyFilter := CssValue.empty }

/-- `panic()`. -/
def panic (hw : HauntedWeb) (h : Host) : HauntedWeb × Host :=
  let s := hw.stop h
  ({ s.1 with eventQueue := s.1.eventQueue.reset }, cleanup s.2)

/-- `scale` of the Intensity Controller. -/
def intensityScale (timeOnPage : Nat) : ℚ :=
  1 + Min.min ((timeOnPage : ℚ) / 300000) 1

/-- The closure of `startIntensityScaling`. -/
def intensityTick (hw : HauntedWeb) (h : Host) : HauntedWeb × Host :=
  let hw := { hw with timeOnPage := hw.timeOnPage + TIME.INTENSITY_SCALE_INTERVAL }
  let hw := { hw with intensity := hw.settings.intensity * intensityScale hw.timeOnPage }
  if hw.enabled then
    let p := hw.pushSettings { hw.settings with intensity := hw.intensity } h
    ({ p.1 with sharedSettings := false }, p.2)
  else (hw, h)

/-- The closure of `startSafetyChecks`. -/
def safetyTick (hw : HauntedWeb) (h : Host) : HauntedWeb × Host :=
  if isFullscreenOrCall h || hasActiveForm h || isLoginPage h then
    if hw.enabled then hw.stop h else (hw, h)
  else if !hw.enabled && hw.settings.enabled then hw.start h
  else (hw, h)

/-- `updateFromSettings()`. -/
def updateFromSettings (hw : HauntedWeb) (h : Host) : HauntedWeb × Host :=
  let audio := hw.audio.setVolume hw.settings.audioVolume
  let audio :=
    if hw.settings.audio && !audio.droneOscillator then audio.startDrone
    else if !hw.settings.audio && audio.droneOscillator then audio.stopDrone
    else audio
  let hw := { hw with audio := audio }
  if hw.settings.enabled && !hw.enabled then hw.start h
  else if !hw.settings.enabled && hw.enabled then hw.stop h
  else if hw.enabled then
    let p := hw.pushSettings hw.settings h
    ({ p.1 with sharedSettings := true }, p.2)
  else (hw, h)

/-- The assignment `this.settings.enabled = b`, seen by the managers when they
hold the same object. -/
def setEnabled (hw : HauntedWeb) (b : Bool) : HauntedWeb :=
  let hw := { hw with settings := { hw.settings with enabled := b } }
  if hw.sharedSettings then
    { hw with
      ghostManager := { hw.ghostManager with
        settings := { hw.ghostManager.settings with enabled := b } }
      spiderManager := { hw.spiderManager with
        settings := { hw.spiderManager.settings with enabled := b } }
      corruptionManager := { hw.corruptionManager with
        settings := { hw.corruptionManager.settings with enabled := b } }
      environmentManager := { hw.environmentManager with
        settings := { hw.environmentManager.settings with enabled := b } } }
  else hw

/-- The listener of `setupMessageListener`. -/
def onMessage (hw : HauntedWeb) (req : Request) (h : Host) : HauntedWeb × Host :=
  if req.type = MSG.UPDATE_SETTINGS then
    updateFromSettings
      { hw with settings := hw.settings.merge req.settings, sharedSettings := false } h
  else if req.type = MSG.PANIC then hw.panic h
  else if req.type = MSG.ENABLE then (hw.setEnabled true).start h
  else if req.type = MSG.DISABLE then (hw.setEnabled false).stop h
  else (hw, h)

/-- The constructors of `init()`: a fresh event queue and audio system, and
the four managers, each holding the object `settings`. -/
def construct (settings : Settings) : HauntedWeb where
  settings := settings
  audio := HorrorAudio.new
  eventQueue := EventQueue.new
  ghostManager := GhostManager.new settings
  spiderManager := SpiderManager.new settings
  corruptionManager := CorruptionManager.new settings
  environmentManager := EnvironmentManager.new settings
  intensity := settings.intensity
  timeOnPage := 0
  initialized := false
  enabled := true
  sharedSettings := true

/-- `init()` on a new orchestrator, for the settings `getSettings()` resolved
to; `none` is the early return that leaves the orchestrator without managers
and timers. -/
def init (fetched : Settings) (h : Host) : Option (HauntedWeb × Host) :=
  if shouldDisable fetched h then none
  else
    let settings :=
      if prefersReducedMotion h then
        { fetched with intensity := Min.min fetched.intensity (1 / 5) }
      else fetched
    let hw := construct settings
    let s := if settings.enabled then hw.start h else (hw, h)
    some ({ s.1 with initialized := true }, s.2)

/-- The closure `init` of `initAudioOnInteraction`, run at the first click or
key press. -/
def onFirstInteraction (hw : HauntedWeb) (h : Host) : HauntedWeb :=
  let audio := hw.audio.init h
  if hw.settings.audio && hw.settings.enabled then
    { hw with audio := (audio.setVolume hw.settings.audioVolume).startDrone }
  else { hw with audio := audio }

/-- Runs the closure of a timer. -/
def runCallback (hw : HauntedWeb) (h : Host) : Callback → HauntedWeb × Host
  | .eventRelease => ({ hw with eventQueue := hw.eventQueue.release }, h)
  | .ghostTick =>
    let r := hw.ghostManager.tick hw.eventQueue h
    ({ hw with ghostManager := r.1, eventQueue := r.2.1 }, r.2.2)
  | .ghostForget g => ({ hw with ghostManager := hw.ghostManager.forget g }, h)
  | .spiderTick =>
    let r := hw.spiderManager.tick hw.eventQueue h
    ({ hw with spiderManager := r.1, eventQueue := r.2.1 }, r.2.2)
  | .spiderCreate =>
    let r := hw.spiderManager.create h
    ({ hw with spiderManager := r.1 }, r.2)
  | .spiderForget s => ({ hw with spiderManager := hw.spiderManager.forget s }, h)
  | .corruptionTick =>
    let r := hw.corruptionManager.tick hw.eventQueue h
    ({ hw with corruptionManager := r.1, eventQueue := r.2.1 }, r.2.2)
  | .shadowTick =>
    let r := hw.environmentManager.shadowSchedule h
    ({ hw with environmentManager := r.1 }, r.2)
  | .glitchTick =>
    let r := hw.environmentManager.glitchSchedule h
    ({ hw with environmentManager := r.1 }, r.2)
  | .bloodTick =>
    let r := hw.environmentManager.bloodSchedule h
    ({ hw with environmentManager := r.1 }, r.2)
  | .flickerTick =>
    let r := hw.environmentManager.flickerSchedule h
    ({ hw with environmentManager := r.1 }, r.2)
  | .bloodDrip => (hw, hw.environmentManager.dripOnce h)
  | .removeNode x => (hw, { h with body := h.body.remove x })
  | .restoreTransform t0 => (hw, { h with bodyTransform := t0 })
  | .restoreFilter f0 => (hw, { h with bodyFilter := f0 })

/-- The host runs the pending timer with handle `id`, if its delay has
elapsed. -/
def fire (hw : HauntedWeb) (h : Host) (id : Nat) : HauntedWeb × Host :=
  match h.timers.find? (fun t => t.id == id) with
  | none => (hw, h)
  | some t =>
    if t.due h.now then
      hw.runCallback { h with timers := h.timers.filter (fun u => u.id != id) } t.cb
    else (hw, h)

end HauntedWeb

/-! ## The orchestrator object around `init()` (lines 1071-1118) -/

/-- The second argument of the callback of `chrome.runtime.sendMessage`, and
the argument of `sendResponse` in the service worker. -/
structure Response where
  success : Bool
  /-- `none` when the response has no `settings` field. -/
  settings : Option Settings := none
  error : Option String := none

/-- What `chrome.runtime.sendMessage(message, callback)` does in
`getSettings()`: the call throws, or the callback is run with the response
(`none` for `undefined`, when nothing answered). -/
inductive SendOutcome where
  | threw
  | answered (res : Option Response)

/-- The value `getSettings()` resolves to; `none` is `undefined`. -/
def HauntedWeb.getSettings : SendOutcome → Option Settings
  | .threw => some DEFAULTS
  | .answered none => some DEFAULTS
  | .answered (some res) => if res.success then res.settings else some DEFAULTS

/-- The object `new HauntedWeb()` and what `init()` makes of it. `core` holds
the event queue, the audio system and the four managers once they are
constructed, and is `none` while those fields are `null`; `listening` says
that the message listener, the Intensity Controller and the Safety Monitor are
registered. -/
structure Instance where
  settings : Option Settings
  core : Option HauntedWeb
  initialized : Bool
  enabled : Bool
  listening : Bool

namespace Instance

/-- The constructor. -/
def new : Instance :=
  { settings := none, core := none, initialized := false, enabled := true, listening := false }

/-- `init()`, for the settings `getSettings()` resolved to. -/
def init (o : Instance) (fetched : Settings) (h : Host) : Instance × Host :=
  if o.initialized then (o, h)
  else
    match HauntedWeb.init fetched h with
    | none => ({ o with settings := some fetched }, h)
    | some s =>
      ({ settings := some s.1.settings, core := some s.1, initialized := s.1.initialized,
         enabled := s.1.enabled, listening := true }, s.2)

end Instance

/-! ## The background service worker (`background.js`)

`shared/settings.js` holds the same class `Settings`. The outcome of an
asynchronous function is its resolved value, or the message of the error it
rejects with. -/

def SettingsPatch.ofSettings (s : Settings) : SettingsPatch where
  enabled := some s.enabled
  intensity := some s.intensity
  ghostFrequency := some s.ghostFrequency
  spiderFrequency := some s.spiderFrequency
  distortionFrequency := some s.distortionFrequency
  audioVolume := some s.audioVolume
  nightModeAggression := some s.nightModeAggression
  ghosts := some s.ghosts
  spiders := some s.spiders
  fog := some s.fog
  audio := some s.audio
  glitches := some s.glitches
  corruption := some s.corruption
  shadows := some s.shadows
  blood := some s.blood
  whitelist := some s.whitelist
  blacklist := some s.blacklist

/-- The area `chrome.storage.sync`: the keys stored so far, and whether a read
or a write fails (with the message of the error). -/
structure Storage where
  items : SettingsPatch
  getError : Option String
  setError : Option String

namespace Storage

/-- `chrome.storage.sync.get(defaults)`: the stored value of every key of
`defaults`, and the default where the key is not stored. -/
def get (st : Storage) (defaults : Settings) : Except String Settings :=
  match st.getError with
  | some e => Except.error e
  | none => Except.ok (defaults.merge st.items)

/-- `chrome.storage.sync.set(items)` for an object with every settings key. -/
def set (st : Storage) (items : Settings) : Except String Storage :=
  match st.setError with
  | some e => Except.error e
  | none => Except.ok { st with items := SettingsPatch.ofSettings items }

end Storage

/-- `Settings.get()`. -/
def Settings.get (st : Storage) : Except String Settings :=
  match st.get DEFAULTS with
  | Except.ok result => Except.ok result
  | Except.error _ => Except.ok DEFAULTS

/-- `Settings.set(settings)`: the boolean returned and the storage afterwards. -/
def Settings.set (st : Storage) (settings : Settings) : Except String (Bool × Storage) :=
  match st.set settings with
  | Except.ok st' => Except.ok (true, st')
  | Except.error _ => Except.ok (false, st)

/-- `Settings.update(updates)`. -/
def Settings.update (st : Storage) (updates : SettingsPatch) : Except String (Bool × Storage) :=
  match Settings.get st with
  | Except.ok current => Settings.set st (current.merge updates)
  | Except.error e => Except.error e

/-- `Settings.reset()`. -/
def Settings.reset (st : Storage) : Except String (Bool × Storage) :=
  Settings.set st DEFAULTS

/-- The service worker's surroundings: the storage area, and the tab ids
`chrome.tabs.query({})` resolves to (or the message of its rejection). -/
structure Browser where
  storage : Storage
  tabs : Except String (List Nat)

/-- What handling one request comes to: the argument of `sendResponse`, the
storage afterwards and the messages sent to tabs. -/
structure Handled where
  response : Response
  storage : Storage
  sent : List (Nat × Request)

namespace Background

/-- The `catch` branch of the listener. -/
def failed (e : String) (st : Storage) : Handled :=
  { response := { success := false, error := some e }, storage := st, sent := [] }

/-- `Settings.update(updates)` followed by `sendResponse({ success: true })`. -/
def updateThenAck (b : Browser) (updates : SettingsPatch) : Handled :=
  match Settings.update b.storage updates with
  | Except.error e => failed e b.storage
  | Except.ok r => { response := { success := true }, storage := r.2, sent := [] }

/-- `Settings.update(updates)`, then `msg` to every tab, then the
acknowledgement. -/
def updateThenNotify (b : Browser) (updates : SettingsPatch) (msg : Request) : Handled :=
  match Settings.update b.storage updates with
  | Except.error e => failed e b.storage
  | Except.ok r =>
    match b.tabs with
    | Except.error e => failed e r.2
    | Except.ok tabs =>
      { response := { success := true }, storage := r.2, sent := tabs.map (fun id => (id, msg)) }

/-- The listener of `chrome.runtime.onMessage` in the service worker. -/
def onMessage (b : Browser) (request : Request) : Handled :=
  if request.type = MSG.GET_SETTINGS then
    match Settings.get b.storage with
    | Except.error e => failed e b.storage
    | Except.ok settings =>
      { response := { success := true, settings := some settings }, storage := b.storage,
        sent := [] }
  else if request.type = MSG.UPDATE_SETTINGS then
    updateThenNotify b request.settings
      { type := MSG.UPDATE_SETTINGS, settings := request.settings }
  else if request.type = MSG.PANIC then
    updateThenNotify b { enabled := some false } { type := MSG.PANIC }
  else if request.type = MSG.ENABLE then updateThenAck b { enabled := some true }
  else if request.type = MSG.DISABLE then updateThenAck b { enabled := some false }
  else
    { response := { success := false, error := some "Unknown message type" },
      storage := b.storage, sent := [] }

end Background

/-! ## Executions of an initialized orchestrator -/

/-- What can happen to an initialized orchestrator. -/
inductive Step where
  /-- The closure of the Safety Monitor runs. -/
  | safety
  /-- The closure of the Intensity Controller runs. -/
  | intensity
  /-- A message reaches the listener. -/
  | message (req : Request)
  /-- The first click or key press. -/
  | interaction
  /-- The host runs the pending timer with this handle, if it is due. -/
  | fire (id : Nat)
  /-- The page, the user and the clock move on: anything in the host but the
  timer table may change, and the clock does not go back. -/
  | page (w : Host)

/-- The number of Intensity Controller ticks among the steps. -/
def Step.ticks : List Step → Nat
  | [] => 0
  | Step.intensity :: rest => Step.ticks rest + 1
  | _ :: rest => Step.ticks rest

/-- The three frequencies lie in `[0, 1]`. -/
def Settings.frequenciesInUnit (s : Settings) : Prop :=
  (0 ≤ s.ghostFrequency ∧ s.ghostFrequency ≤ 1) ∧
  (0 ≤ s.spiderFrequency ∧ s.spiderFrequency ≤ 1) ∧
  (0 ≤ s.distortionFrequency ∧ s.distortionFrequency ≤ 1)

/-- The host `w` with the timer table of `h` and a clock not before that of `h`. -/
def Host.moveOn (h w : Host) : Host :=
  { w with timers := h.timers, nextTimer := h.nextTimer, now := Max.max h.now w.now }

namespace HauntedWeb

def step (s : HauntedWeb × Host) : Step → HauntedWeb × Host
  | .safety => s.1.safetyTick s.2
  | .intensity => s.1.intensityTick s.2
  | .message req => s.1.onMessage req s.2
  | .interaction => (s.1.onFirstInteraction s.2, s.2)
  | .fire id => s.1.fire s.2 id
  | .page w => (s.1, s.2.moveOn w)

def run (s : HauntedWeb × Host) (steps : List Step) : HauntedWeb × Host :=
  steps.foldl step s

/-- The four managers hold the snapshot `s`. -/
def schedulersHold (hw : HauntedWeb) (s : Settings) : Prop :=
  hw.ghostManager.settings = s ∧ hw.spiderManager.settings = s ∧
  hw.corruptionManager.settings = s ∧ hw.environmentManager.settings = s

/-- The list in which the scheduler of a tick closure records its handles. -/
def handles (hw : HauntedWeb) : Callback → List Nat
  | .ghostTick => hw.ghostManager.timers
  | .spiderTick => hw.spiderManager.timers
  | .corruptionTick => hw.corruptionManager.timers
  | .shadowTick => hw.environmentManager.effectTimers
  | .glitchTick => hw.environmentManager.effectTimers
  | .bloodTick => hw.environmentManager.effectTimers
  | .flickerTick => hw.environmentManager.effectTimers
  | _ => []

/-- Every pending tick timer is recorded by its scheduler. -/
def Tracked (hw : HauntedWeb) (h : Host) : Prop :=
  ∀ tm ∈ h.timers, tm.cb.isTick = true → tm.id ∈ hw.handles tm.cb

end HauntedWeb

/-- The states an orchestrator reaches: `init()` on a page where this code has
no timer pending yet, then any steps. -/
inductive Reachable : HauntedWeb × Host → Prop where
  | init (fetched : Settings) (h : Host) (s : HauntedWeb × Host) :
      h.timers = [] → HauntedWeb.init fetched h = some s → Reachable s
  | step (s : HauntedWeb × Host) (a : Step) : Reachable s → Reachable (HauntedWeb.step s a)

/-! ## Executions of the gated schedulers -/

/-- The three families that share the event gate. -/
inductive Family where
  | ghost | spider | corruption
  deriving DecidableEq

/-- The tick closure of a family. -/
def Family.tick : Family → Callback
  | .ghost => Callback.ghostTick
  | .spider => Callback.spiderTick
  | .corruption => Callback.corruptionTick

/-- What happens around the gate: the clock advances (it never goes back), the
host runs the release closures that are due, the tick closure of a family
runs (at any time, whether or not its own timer is due), or the three
schedulers receive a settings snapshot. Release closures may run late or
never. -/
inductive GateStep where
  | advance (t : Nat)
  | release
  | tick (f : Family)
  | configure (settings : Settings)

/-- The events started between two host states, as `(start, duration)`: every
call of `startEvent(d)` registers a release timer, with a new handle, that
carries the clock of the call and the duration `d`. -/
def Host.startedSince (h h' : Host) : List (Nat × ℚ) :=
  (h'.timers.filter
    (fun t => t.cb == Callback.eventRelease && decide (h.nextTimer ≤ t.id))).map
    (fun t => (t.setAt, t.delay))

namespace HauntedWeb

def gateStep (s : HauntedWeb × Host) : GateStep → HauntedWeb × Host
  | .advance t => (s.1, { s.2 with now := Max.max s.2.now t })
  | .release =>
    ({ s.1 with eventQueue := (s.1.eventQueue.elapse s.2 s.2.now).1 },
     (s.1.eventQueue.elapse s.2 s.2.now).2)
  | .tick f => s.1.runCallback s.2 f.tick
  | .configure settings =>
    ({ s.1 with
       ghostManager := s.1.ghostManager.updateSettings settings
       spiderManager := s.1.spiderManager.updateSettings settings
       corruptionManager := s.1.corruptionManager.updateSettings settings }, s.2)

/-- The state after a sequence of steps. -/
def gateRun (s : HauntedWeb × Host) (steps : List GateStep) : HauntedWeb × Host :=
  steps.foldl gateStep s

/-- The events started along a sequence of steps, in order. -/
def gateEvents : HauntedWeb × Host → List GateStep → List (Nat × ℚ)
  | _, [] => []
  | s, a :: steps => s.2.startedSince (gateStep s a).2 ++ gateEvents (gateStep s a) steps

end HauntedWeb

/-- Two events, the first started before the second, do not overlap and are a
cooldown apart: `start2 >= start1 + duration1` and `start2 - start1 >= 2000`. -/
def Separated (e1 e2 : Nat × ℚ) : Prop :=
  (e1.1 : ℚ) + e1.2 ≤ (e2.1 : ℚ) ∧ e1.1 + TIME.EVENT_COOLDOWN ≤ e2.1

/-- What holds of the gate, the timer table and the events started so far
(`log`) along an execution of the gated schedulers: handles are below the
next handle; the last start is not in the future and no logged start is after
it; when the gate is open every logged event has ended; a pending release
timer means the gate is closed and ends after every logged event; and at most
one release timer is pending. -/
def GateInv (s : HauntedWeb × Host) (log : List (Nat × ℚ)) : Prop :=
  (∀ tm ∈ s.2.timers, tm.id < s.2.nextTimer) ∧
  s.1.eventQueue.lastEventTime ≤ s.2.now ∧
  (∀ e ∈ log, e.1 ≤ s.1.eventQueue.lastEventTime) ∧
  (s.1.eventQueue.isEventActive = false → ∀ e ∈ log, (e.1 : ℚ) + e.2 ≤ (s.2.now : ℚ)) ∧
  (∀ tm ∈ s.2.timers, tm.cb = Callback.eventRelease →
    s.1.eventQueue.isEventActive = true ∧
    ∀ e ∈ log, (e.1 : ℚ) + e.2 ≤ (tm.setAt : ℚ) + tm.delay) ∧
  (s.2.timers.filter (fun t => t.cb == Callback.eventRelease)).length ≤ 1

/-- The clock value from which a timer may run. -/
def Timer.dueAt (t : Timer) : ℚ := t.setAt + t.delay

/-- At clock `t` the timer with handle `id` is pending and due, and no pending
timer is due before it. -/
def Host.runsNext (h : Host) (id t : Nat) : Bool :=
  decide (h.now ≤ t) &&
    h.timers.any (fun u =>
      u.id == id && u.due t && h.timers.all (fun v => decide (u.dueAt ≤ v.dueAt)))

/-- At clock `t` the host takes the timer with handle `id` off the table, to
run its closure. -/
def Host.take (h : Host) (id t : Nat) : Host :=
  { h with now := t, timers := h.timers.filter (fun u => u.id != id) }

/-! ## A scenario: suspension by the Safety Monitor -/

namespace Scenario

/-- The orchestrator started from the default settings on a fresh page. -/
def active : HauntedWeb × Host :=
  (HauntedWeb.construct DEFAULTS).start (Host.fresh 1000 0)

/-- A Safety Monitor tick while the page is fullscreen. -/
def suspended : HauntedWeb × Host :=
  active.1.safetyTick { active.2 with fullscreen := true }

/-- The orchestrator as `init()` leaves it. -/
def initialized : HauntedWeb × Host :=
  ({ active.1 with initialized := true }, active.2)

/-- One second later no unsafe condition holds. -/
def safePage (h : Host) : Host :=
  { h with
    now := h.now + 1000
    fullscreen := false
    autoplayVideo := false
    activeElement := none
    passwordInput := false
    loginForm := false }

/-- The next Safety Monitor tick, on the safe page. -/
def resumed : HauntedWeb × Host :=
  suspended.1.safetyTick (safePage suspended.2)

/-- Ticks around the gate: a ghost tick at clock 5000, the release of its
event at 13000, a spider tick, and a corruption tick at 14000. -/
def gateSteps : List GateStep :=
  [GateStep.tick Family.ghost, GateStep.advance 13000, GateStep.release,
   GateStep.tick Family.spider, GateStep.advance 14000, GateStep.tick Family.corruption]

end Scenario

/-! ## A scenario: a cluster of spiders and `stop()` -/

namespace Scenario

/-- A spider manager with the default settings, started at clock 5000 on a
page where every draw is 0, so that a firing spawns a cluster of two. Its
first tick timer has handle 1 and the delay 33000. -/
def spiderStarted : SpiderManager × Host :=
  (SpiderManager.new DEFAULTS).start (Host.fresh 5000 0)

/-- The tick runs at clock 38000 with the gate open: `spawnSpider()` registers
the release timer (handle 2) and two creations (handles 3 and 4, after 0 and
500 ms), and the next tick is scheduled (handle 5). -/
def spiderTicked : SpiderManager × EventQueue × Host :=
  spiderStarted.1.tick EventQueue.new (spiderStarted.2.take 1 38000)

/-- The first creation runs at once. -/
def spiderFirst : SpiderManager × Host :=
  spiderTicked.1.create (spiderTicked.2.2.take 3 38000)

/-- `stop()` at clock 38200. -/
def spiderStopped : SpiderManager × Host :=
  spiderFirst.1.stop { spiderFirst.2 with now := 38200 }

/-- The second creation, due at 38500, runs. -/
def spiderLate : SpiderManager × Host :=
  spiderStopped.1.create (spiderStopped.2.take 4 38500)

/-- The same for ghosts: a manager started at clock 5000, whose tick runs at
22500 and spawns a ghost, is stopped at 23000. -/
def ghostStarted : GhostManager × Host :=
  (GhostManager.new DEFAULTS).start (Host.fresh 5000 0)

def ghostTicked : GhostManager × EventQueue × Host :=
  ghostStarted.1.tick EventQueue.new (ghostStarted.2.take 1 22500)

def ghostStopped : GhostManager × Host :=
  ghostTicked.1.stop { ghostTicked.2.2 with now := 23000 }

end Scenario

/-! ## Scenarios of the orchestrator -/

namespace Scenario

/-- The orchestrator as `init()` leaves it for the fetched settings `st` on the
host `h`, when the page is not disabled, reduced motion is not asked for and
`st.enabled` holds. -/
def booted (st : Settings) (h : Host) : HauntedWeb × Host :=
  ({ ((HauntedWeb.construct st).start h).1 with initialized := true },
   ((HauntedWeb.construct st).start h).2)

/-- The host runs the timers with the given handles at the given clock values,
one after the other, each when it is due and in the order of their due times;
`none` if a timer of the list is not the next to run. The Safety Monitor, which
changes nothing while the page is safe and the orchestrator enabled, is not
played. -/
def play : HauntedWeb × Host → List (Nat × Nat) → Option (HauntedWeb × Host)
  | s, [] => some s
  | s, e :: rest =>
    if s.2.runsNext e.2 e.1 then play (s.1.fire { s.2 with now := e.1 } e.2) rest else none

/-- The default settings with every family but the spiders switched off. -/
def onlySpiders : Settings :=
  { DEFAULTS with
    ghosts := false, corruption := false, fog := false, shadows := false
    glitches := false, blood := false, audio := false }

/-- The timers that run, in order, after `init()` at clock 5000 with every draw
0: the ambient loops, then at 38000 the spider tick (handle 1) and the first
creation of its cluster (handle 18). -/
def clusterEvents : List (Nat × Nat) :=
  [(5000, 4), (6000, 6), (15000, 2), (20000, 3), (25000, 5), (25000, 7), (25000, 8),
   (25000, 10), (26000, 12), (35000, 9), (35000, 14), (38000, 1), (38000, 18)]

/-- The orchestrator when the first spider of the cluster is on the page. -/
def clusterSpawned : Option (HauntedWeb × Host) :=
  play (booted onlySpiders (Host.fresh 5000 0)) clusterEvents

/-- The panic button at clock 38200. -/
def clusterPanicked : Option (HauntedWeb × Host) :=
  clusterSpawned.map
    (fun s => s.1.onMessage { type := MSG.PANIC } { s.2 with now := 38200 })

/-- The second creation of the cluster (handle 19) runs at 38500. -/
def clusterLate : Option (HauntedWeb × Host) :=
  clusterPanicked.bind (fun s => play s [(38500, 19)])

/-- What the scenario looks at: `enabled`, the number of live spiders, the
spider manager's timer list, the number of elements with a `haunted-` class
and the number of pending creations. -/
def glance (s : HauntedWeb × Host) : Bool × Nat × List Nat × Nat × Nat :=
  (s.1.enabled, s.1.spiderManager.spiders.length, s.1.spiderManager.timers,
   s.2.body.count hasHauntedClass, s.2.pending Callback.spiderCreate)

/-- A page loaded at ten in the evening. -/
def nightHost : Host := { Host.fresh 1000 0 with hour := 22 }

/-- The default settings with the stored intensity 0.9. -/
def loud : Settings := { DEFAULTS with intensity := 9 / 10 }

/-- The default settings with a stored ghost frequency of 2. -/
def wild : SettingsPatch := { ghostFrequency := some 2 }

/-- The default settings with a blacklist entry that matches `example.org`. -/
def blacklisted : Settings := { DEFAULTS with blacklist := ["example"] }

/-- The first click, the panic button, and then a settings update from the
popup (which by then shows `enabled = false`) that changes the volume. -/
def droneSteps : List Step :=
  [Step.interaction, Step.message { type := MSG.PANIC },
   Step.message
     { type := MSG.UPDATE_SETTINGS
       settings := { enabled := some false, audioVolume := some (7 / 10) } }]

end Scenario

/-- `el.classList.contains(name)`. -/
def hasClass (name : String) (classes : List (List Char)) : Bool :=
  classes.contains name.toList

/-! ## The modular version (`content.js`, `ghosts.js`, `spiders.js`, `corruption.js`)

The modular files hold the same sprite classes and the same managers without
the event queue; their orchestrator has no login-page test. The records and
the sprite functions above are shared. -/

namespace Modular

/-- `isWhitelisted(url, whitelist)` of `shared/utils.js`. -/
def isWhitelisted (hostname : String) (whitelist : List String) : Bool :=
  whitelist.any (fun site => includes hostname site)

/-- `shouldDisable()` of `content.js`. -/
def shouldDisable (settings : Settings) (h : Host) : Bool :=
  if isWhitelisted h.hostname settings.whitelist then true
  else if isUnsafeDomain h.hostname UNSAFE_DOMAINS then true
  else false

/-- What `init()` of `content.js` assigns to `this.settings` and to
`this.intensity`; the constructors, `start()` and the listeners that follow
assign neither. `none` is the early return. -/
def init (fetched : Settings) (h : Host) : Option (Settings × ℚ) :=
  if shouldDisable fetched h then none
  else
    let settings :=
      if prefersReducedMotion h then { fetched with intensity := 1 / 5 } else fetched
    some (settings, settings.intensity)

namespace GhostManager

/-- The condition of the tick closure of `ghosts.js`. -/
def tickFires (m : Haunted.GhostManager) : Bool :=
  m.settings.enabled && m.settings.ghosts

/-- `spawnGhost()` of `ghosts.js`. -/
def spawnGhost (m : Haunted.GhostManager) (h : Host) : Haunted.GhostManager × Host :=
  let ghost := Ghost.create h
  let m := { m with ghosts := m.ghosts ++ [ghost.1] }
  (m, (ghost.2.setTimeout (Callback.ghostForget ghost.1.element) 15000).2)

/-- The tick closure of `scheduleGhost` in `ghosts.js`. -/
def tick (m : Haunted.GhostManager) (h : Host) : Haunted.GhostManager × Host :=
  let s := if tickFires m then spawnGhost m h else (m, h)
  s.1.scheduleGhost s.2

end GhostManager

namespace SpiderManager

/-- The condition of the tick closure of `spiders.js`. -/
def tickFires (m : Haunted.SpiderManager) : Bool :=
  m.settings.enabled && m.settings.spiders

/-- `spawnSpider()` of `spiders.js`. -/
def spawnSpider (m : Haunted.SpiderManager) (h : Host) : Haunted.SpiderManager × Host :=
  let r1 := h.random
  let h := if probability (1 / 10) r1.1 then r1.2.random.2 else r1.2
  let count := Haunted.SpiderManager.clusterCount r1.1 r1.2.random.1
  let h := (List.range count.toNat).foldl
    (fun (h : Host) (i : Nat) => (h.setTimeout Callback.spiderCreate ((i : ℚ) * 500)).2) h
  (m, h)

/-- The tick closure of `scheduleSpider` in `spiders.js`. -/
def tick (m : Haunted.SpiderManager) (h : Host) : Haunted.SpiderManager × Host :=
  let s := if tickFires m then spawnSpider m h else (m, h)
  s.1.scheduleSpider s.2

end SpiderManager

namespace CorruptionManager

/-- The condition of the tick closure of `corruption.js`. -/
def tickFires (m : Haunted.CorruptionManager) : Bool :=
  m.settings.enabled && m.settings.corruption

/-- `applyRandomCorruption()` of `corruption.js`. -/
def applyRandomCorruption (m : Haunted.CorruptionManager) (h : Host) :
    Haunted.CorruptionManager × Host :=
  let r := h.random
  match randomChoice Haunted.CorruptionManager.effects r.1 with
  | some e => (m, Haunted.CorruptionManager.applyEffect e r.2)
  | none => (m, r.2)

/-- The tick closure of `scheduleCorruption` in `corruption.js`. -/
def tick (m : Haunted.CorruptionManager) (h : Host) : Haunted.CorruptionManager × Host :=
  let s := if tickFires m then applyRandomCorruption m h else (m, h)
  s.1.scheduleCorruption s.2

end CorruptionManager

end Modular

/-! ## Scenarios of the last claims -/

namespace Scenario

/-- The default settings with the ghost family switched off. -/
def noGhosts : Settings := { DEFAULTS with ghosts := false }

/-- The popup switches the ghost family on. -/
def ghostsOn : Request :=
  { type := MSG.UPDATE_SETTINGS, settings := { ghosts := some true } }

/-- A user who asks for reduced motion and has stored the intensity 0.1. -/
def calm : Settings := { DEFAULTS with intensity := 1 / 10 }

def calmHost : Host := { Host.fresh 1000 0 with reducedMotion := true }

/-- A corruption event of 4000 ms starts at clock 10000 on a fresh gate. -/
def gateFirst : EventQueue × Host := EventQueue.new.startEvent (Host.fresh 10000 0) 4000

/-- `reset()` at clock 11000, as `panic()` calls it. -/
def gateReset : EventQueue × Host := (gateFirst.1.reset, { gateFirst.2 with now := 11000 })

/-- At clock 12500 the gate is open and a spider event of 12000 ms starts. -/
def gateSecond : EventQueue × Host :=
  gateReset.1.startEvent { gateReset.2 with now := 12500 } 12000

/-- At clock 14000 the host runs the release closure of the first event. -/
def gateStale : EventQueue × Host := gateSecond.1.elapse gateSecond.2 14000

/-- The same with a host that is late: after the `reset()` at 11000 the second
event starts at clock 14200, when the window of the first is over but its
release closure has not run yet. -/
def gateLateSecond : EventQueue × Host :=
  gateReset.1.startEvent { gateReset.2 with now := 14200 } 12000

/-- At clock 16000 the host runs the release closure of the first event. -/
def gateLateStale : EventQueue × Host := gateLateSecond.1.elapse gateLateSecond.2 16000

end Scenario

/-! # Theorems -/

/-! ## The event gate -/

/-- C2. `canStartEvent()` returns true exactly when `isEventActive` is false
and `now - lastEventTime >= 2000` (the subtraction over the integers, and
equivalently `lastEventTime + 2000 <= now`). It is a function of the gate and
the clock that returns only the boolean, so the gate is not modified. -/
theorem C2_canStartEvent_iff (q : EventQueue) (now : Nat) :
    (q.canStartEvent now = true ↔
      (q.isEventActive = false ∧ (now : Int) - (q.lastEventTime : Int) ≥ 2000)) ∧
    (q.canStartEvent now = true ↔
      (q.isEventActive = false ∧ q.lastEventTime + TIME.EVENT_COOLDOWN ≤ now)) := by
  unfold EventQueue.canStartEvent TIME.EVENT_COOLDOWN
  constructor
  · cases q.isEventActive <;> simp
  · cases q.isEventActive <;> simp
    omega

theorem Timer_due_iff (id setAt d : Nat) (cb : Callback) (t : Nat) :
    Timer.due { id := id, setAt := setAt, delay := (d : ℚ), cb := cb } t = true ↔
      setAt + d ≤ t := by
  simp only [Timer.due, decide_eq_true_eq]
  exact_mod_cast Iff.rfl

theorem filter_release_nil (ts : List Timer) (t : Nat)
    (hfree : ∀ tm ∈ ts, tm.cb ≠ Callback.eventRelease) :
    ts.filter (fun tm => tm.cb == Callback.eventRelease && tm.due t) = [] := by
  rw [List.filter_eq_nil_iff]
  intro tm htm
  simp [hfree tm htm]

/-- C3. After `startEvent(d)` at clock `t0` on a gate with no other pending
release timer, the gate is active with `lastEventTime = t0`,
`canStartEvent()` is false at `t0`, and at any time `t` (timers being
punctual and no further `startEvent` being made) `canStartEvent()` is true
exactly when `t >= t0 + d` and `t - t0 >= 2000`. -/
theorem C3_startEvent_window (q : EventQueue) (h : Host) (d t : Nat)
    (hfree : ∀ tm ∈ h.timers, tm.cb ≠ Callback.eventRelease) :
    (q.startEvent h d).1.isEventActive = true ∧
    (q.startEvent h d).1.lastEventTime = h.now ∧
    (q.startEvent h d).1.canStartEvent h.now = false ∧
    (((q.startEvent h d).1.elapse (q.startEvent h d).2 t).1.canStartEvent t = true ↔
      (h.now + d ≤ t ∧ (t : Int) - (h.now : Int) ≥ 2000)) := by
  refine ⟨rfl, rfl, ?_, ?_⟩
  · simp [EventQueue.startEvent, EventQueue.canStartEvent]
  · simp only [EventQueue.startEvent, EventQueue.elapse, Host.setTimeout, List.filter_append,
      filter_release_nil h.timers t hfree, List.nil_append]
    by_cases hd : h.now + d ≤ t
    · have hdue := (Timer_due_iff h.nextTimer h.now d Callback.eventRelease t).2 hd
      simp [List.filter, hdue, EventQueue.release, EventQueue.canStartEvent,
        TIME.EVENT_COOLDOWN, hd]
    · have hdue : Timer.due (Timer.mk h.nextTimer h.now (d : ℚ) Callback.eventRelease) t
          = false := by
        rw [Bool.eq_false_iff]
        exact fun hc => hd ((Timer_due_iff _ _ _ _ _).1 hc)
      simp [List.filter, hdue, EventQueue.canStartEvent, hd]

/-- Witness of C3: an event of 8000 ms started at clock 10000 on a freshly
loaded page. -/
theorem C3_startEvent_window_witness :
    ((EventQueue.new.startEvent (Host.fresh 10000 0) 8000).1.elapse
        (EventQueue.new.startEvent (Host.fresh 10000 0) 8000).2 18000).1.canStartEvent 18000
      = true ∧
    ((EventQueue.new.startEvent (Host.fresh 10000 0) 8000).1.elapse
        (EventQueue.new.startEvent (Host.fresh 10000 0) 8000).2 17999).1.canStartEvent 17999
      = false := by
  have hfree : ∀ tm ∈ (Host.fresh 10000 0).timers, tm.cb ≠ Callback.eventRelease := by
    simp [Host.fresh]
  constructor
  · exact (C3_startEvent_window EventQueue.new (Host.fresh 10000 0) 8000 18000 hfree).2.2.2.2
      (by simp [Host.fresh])
  · rw [Bool.eq_false_iff]
    intro hc
    have := (C3_startEvent_window EventQueue.new (Host.fresh 10000 0) 8000 17999
      hfree).2.2.2.1 hc
    simp [Host.fresh] at this

/-! ## Scheduling intervals -/

/-- C5. For each family the base interval `MIN + (1 - f) * (MAX - MIN)` does
not increase when the frequency grows; the jitter `random(-J, J)` of a draw
in `[0, 1)` lies in `[-J, J)`; and for a frequency in `[0, 1]` the scheduled
interval, for every offset `j` with `-J <= j < J` and in particular for the
offset the code draws, lies in `[MIN - J, MAX + J]` and is not negative
(ghost 5000, 30000, 5000; spider 10000, 45000, 5000; corruption 3000, 20000,
2000). -/
theorem C5_interval_bounds (f f' r : ℚ) (hf : 0 ≤ f) (hff : f ≤ f') (hf' : f' ≤ 1)
    (hr0 : 0 ≤ r) (hr1 : r < 1) :
    (GhostManager.baseInterval f' ≤ GhostManager.baseInterval f ∧
      (-5000 ≤ random (-5000) 5000 r ∧ random (-5000) 5000 r < 5000) ∧
      (∀ j : ℚ, -5000 ≤ j → j < 5000 →
        5000 - 5000 ≤ GhostManager.baseInterval f + j ∧
        GhostManager.baseInterval f + j ≤ 30000 + 5000 ∧
        0 ≤ GhostManager.baseInterval f + j) ∧
      5000 - 5000 ≤ GhostManager.interval f r ∧ GhostManager.interval f r ≤ 30000 + 5000 ∧
      0 ≤ GhostManager.interval f r) ∧
    (SpiderManager.baseInterval f' ≤ SpiderManager.baseInterval f ∧
      (∀ j : ℚ, -5000 ≤ j → j < 5000 →
        10000 - 5000 ≤ SpiderManager.baseInterval f + j ∧
        SpiderManager.baseInterval f + j ≤ 45000 + 5000 ∧
        0 ≤ SpiderManager.baseInterval f + j) ∧
      10000 - 5000 ≤ SpiderManager.interval f r ∧ SpiderManager.interval f r ≤ 45000 + 5000 ∧
      0 ≤ SpiderManager.interval f r) ∧
    (CorruptionManager.baseInterval f' ≤ CorruptionManager.baseInterval f ∧
      (-2000 ≤ random (-2000) 2000 r ∧ random (-2000) 2000 r < 2000) ∧
      (∀ j : ℚ, -2000 ≤ j → j < 2000 →
        3000 - 2000 ≤ CorruptionManager.baseInterval f + j ∧
        CorruptionManager.baseInterval f + j ≤ 20000 + 2000 ∧
        0 ≤ CorruptionManager.baseInterval f + j) ∧
      3000 - 2000 ≤ CorruptionManager.interval f r ∧
      CorruptionManager.interval f r ≤ 20000 + 2000 ∧
      0 ≤ CorruptionManager.interval f r) := by
  have hf1 : f ≤ 1 := le_trans hff hf'
  simp only [GhostManager.baseInterval, GhostManager.interval, SpiderManager.baseInterval,
    SpiderManager.interval, CorruptionManager.baseInterval, CorruptionManager.interval,
    random, TIME.GHOST_MIN, TIME.GHOST_MAX, TIME.SPIDER_MIN, TIME.SPIDER_MAX,
    TIME.CORRUPTION_MIN, TIME.CORRUPTION_MAX]
  push_cast
  refine ⟨⟨?_, ⟨?_, ?_⟩, ?_, ?_, ?_, ?_⟩, ⟨?_, ?_, ?_, ?_, ?_⟩, ⟨?_, ⟨?_, ?_⟩, ?_, ?_, ?_, ?_⟩⟩ <;>
    first
    | linarith
    | (intro j hj0 hj1; refine ⟨?_, ?_, ?_⟩ <;> linarith)

/-- Witness of C5: frequencies 3/10 and 1/2 and the draw 1/4. -/
theorem C5_interval_bounds_witness :
    GhostManager.baseInterval (1 / 2) ≤ GhostManager.baseInterval (3 / 10) ∧
    0 ≤ GhostManager.interval (3 / 10) (1 / 4) ∧
    0 ≤ CorruptionManager.interval (3 / 10) (1 / 4) :=
  have h := C5_interval_bounds (3 / 10) (1 / 2) (1 / 4) (by norm_num) (by norm_num)
    (by norm_num) (by norm_num) (by norm_num)
  ⟨h.1.1, h.1.2.2.2.2.2, h.2.2.2.2.2.2.2⟩

/-! ## What the operations do to the clock and to the timer table -/

@[simp] theorem Host_random_timers (h : Host) : h.random.2.timers = h.timers := rfl
@[simp] theorem Host_random_nextTimer (h : Host) : h.random.2.nextTimer = h.nextTimer := rfl
@[simp] theorem Host_random_now (h : Host) : h.random.2.now = h.now := rfl
@[simp] theorem Host_random_body (h : Host) : h.random.2.body = h.body := rfl

@[simp] theorem Host_setTimeout_timers (h : Host) (cb : Callback) (d : ℚ) :
    (h.setTimeout cb d).2.timers = h.timers ++ [Timer.mk h.nextTimer h.now d cb] := rfl
@[simp] theorem Host_setTimeout_nextTimer (h : Host) (cb : Callback) (d : ℚ) :
    (h.setTimeout cb d).2.nextTimer = h.nextTimer + 1 := rfl
@[simp] theorem Host_setTimeout_now (h : Host) (cb : Callback) (d : ℚ) :
    (h.setTimeout cb d).2.now = h.now := rfl
@[simp] theorem Host_setTimeout_handle (h : Host) (cb : Callback) (d : ℚ) :
    (h.setTimeout cb d).1 = h.nextTimer := rfl
@[simp] theorem Host_setTimeout_body (h : Host) (cb : Callback) (d : ℚ) :
    (h.setTimeout cb d).2.body = h.body := rfl

@[simp] theorem Host_requestAnimationFrame_timers (h : Host) :
    h.requestAnimationFrame.2.timers = h.timers := rfl
@[simp] theorem Host_requestAnimationFrame_nextTimer (h : Host) :
    h.requestAnimationFrame.2.nextTimer = h.nextTimer := rfl
@[simp] theorem Host_requestAnimationFrame_now (h : Host) :
    h.requestAnimationFrame.2.now = h.now := rfl

@[simp] theorem Host_appendToBody_timers (h : Host) (c : List (List Char)) (ch : Dom) (n : Nat) :
    (h.appendToBody c ch n).2.timers = h.timers := rfl
@[simp] theorem Host_appendToBody_nextTimer (h : Host) (c : List (List Char)) (ch : Dom)
    (n : Nat) : (h.appendToBody c ch n).2.nextTimer = h.nextTimer := rfl
@[simp] theorem Host_appendToBody_now (h : Host) (c : List (List Char)) (ch : Dom) (n : Nat) :
    (h.appendToBody c ch n).2.now = h.now := rfl

@[simp] theorem Ghost_create_timers (h : Host) : (Ghost.create h).2.timers = h.timers := by
  unfold Ghost.create
  dsimp only
  split_ifs <;> rfl
@[simp] theorem Ghost_create_nextTimer (h : Host) :
    (Ghost.create h).2.nextTimer = h.nextTimer := by
  unfold Ghost.create
  dsimp only
  split_ifs <;> rfl
@[simp] theorem Ghost_create_now (h : Host) : (Ghost.create h).2.now = h.now := by
  unfold Ghost.create
  dsimp only
  split_ifs <;> rfl

@[simp] theorem Spider_create_timers (h : Host) : (Spider.create h).2.timers = h.timers := rfl
@[simp] theorem Spider_create_nextTimer (h : Host) :
    (Spider.create h).2.nextTimer = h.nextTimer := rfl
@[simp] theorem Spider_create_now (h : Host) : (Spider.create h).2.now = h.now := rfl

theorem Host_pending_def (h : Host) (cb : Callback) :
    h.pending cb = (h.timers.filter (fun t => t.cb == cb)).length := rfl

/-- The loop `for (i = 0; i < n; i++) setTimeout(cb, f i)` registers `n`
timers, with consecutive handles, and changes nothing else. -/
theorem foldl_setTimeout (cb : Callback) (f : Nat → ℚ) (n : Nat) (h : Host) :
    (List.range n).foldl (fun h i => (h.setTimeout cb (f i)).2) h =
      { h with
        timers := h.timers ++
          (List.range n).map (fun i => Timer.mk (h.nextTimer + i) h.now (f i) cb)
        nextTimer := h.nextTimer + n } := by
  induction n with
  | zero => simp
  | succ n ih =>
    rw [List.range_succ, List.foldl_append, ih]
    simp [Host.setTimeout, List.map_append, Nat.add_assoc]

theorem filter_cb_nil (added : List Timer) (c c' : Callback) (hne : c ≠ c')
    (hall : ∀ tm ∈ added, tm.cb = c) :
    added.filter (fun t => t.cb == c') = [] := by
  rw [List.filter_eq_nil_iff]
  intro tm htm
  simp [hall tm htm, hne]

/-! ## The gated ticks -/

theorem GhostManager_tick_fires (m : GhostManager) (q : EventQueue) (h : Host)
    (hf : m.tickFires q h = true) :
    (m.tick q h).2.1 = { isEventActive := true, lastEventTime := h.now } ∧
    (m.tick q h).1.ghosts = m.ghosts ++ [(Ghost.create h).1] ∧
    (m.tick q h).1.timers = m.timers ++ [h.nextTimer + 2] ∧
    (m.tick q h).2.2.now = h.now ∧
    (m.tick q h).2.2.nextTimer = h.nextTimer + 3 ∧
    (m.tick q h).2.2.timers = h.timers ++
      [Timer.mk h.nextTimer h.now 8000 Callback.eventRelease,
       Timer.mk (h.nextTimer + 1) h.now 15000 (Callback.ghostForget (Ghost.create h).1.element),
       Timer.mk (h.nextTimer + 2) h.now
         (GhostManager.interval m.settings.ghostFrequency (h.rand (h.drawn + 3)))
         Callback.ghostTick] := by
  simp only [GhostManager.tick, hf, if_true, GhostManager.spawnGhost,
    GhostManager.scheduleGhost, EventQueue.startEvent]
  refine ⟨by simp, by simp, by simp, by simp, by simp, ?_⟩
  simp
  unfold Ghost.create
  dsimp only
  split_ifs <;> rfl

theorem GhostManager_tick_idle (m : GhostManager) (q : EventQueue) (h : Host)
    (hf : m.tickFires q h = false) :
    (m.tick q h).2.1 = q ∧
    (m.tick q h).1.ghosts = m.ghosts ∧
    (m.tick q h).1.timers = m.timers ++ [h.nextTimer] ∧
    (m.tick q h).2.2.now = h.now ∧
    (m.tick q h).2.2.nextTimer = h.nextTimer + 1 ∧
    (m.tick q h).2.2.body = h.body ∧
    (m.tick q h).2.2.timers = h.timers ++
      [Timer.mk h.nextTimer h.now
         (GhostManager.interval m.settings.ghostFrequency (h.rand h.drawn))
         Callback.ghostTick] := by
  simp only [GhostManager.tick, hf, GhostManager.scheduleGhost]
  exact ⟨rfl, rfl, rfl, rfl, rfl, rfl, rfl⟩

theorem SpiderManager_spawnSpider_spec (m : SpiderManager) (q : EventQueue) (h : Host) :
    ∃ n : Nat,
    (m.spawnSpider q h).1 = m ∧
    (m.spawnSpider q h).2.1 = { isEventActive := true, lastEventTime := h.now } ∧
    (m.spawnSpider q h).2.2.now = h.now ∧
    (m.spawnSpider q h).2.2.body = h.body ∧
    (m.spawnSpider q h).2.2.nextTimer = h.nextTimer + 1 + n ∧
    (m.spawnSpider q h).2.2.timers = h.timers ++
      (Timer.mk h.nextTimer h.now 12000 Callback.eventRelease ::
        (List.range n).map
          (fun i => Timer.mk (h.nextTimer + 1 + i) h.now ((i : ℚ) * 500) Callback.spiderCreate)) := by
  refine ⟨(SpiderManager.clusterCount h.random.1 h.random.2.random.1).toNat, ?_⟩
  obtain ⟨hd, hdef⟩ : ∃ hd : Host,
      hd = (if probability (1 / 10) h.random.1 then h.random.2.random.2 else h.random.2) :=
    ⟨_, rfl⟩
  have h1 : hd.timers = h.timers := by rw [hdef]; split_ifs <;> rfl
  have h2 : hd.nextTimer = h.nextTimer := by rw [hdef]; split_ifs <;> rfl
  have h3 : hd.now = h.now := by rw [hdef]; split_ifs <;> rfl
  have h4 : hd.body = h.body := by rw [hdef]; split_ifs <;> rfl
  simp only [SpiderManager.spawnSpider, EventQueue.startEvent, foldl_setTimeout, ← hdef]
  simp [h1, h2, h3, h4]

theorem SpiderManager_tick_fires (m : SpiderManager) (q : EventQueue) (h : Host)
    (hf : m.tickFires q h = true) :
    ∃ n : Nat,
    (m.tick q h).2.1 = { isEventActive := true, lastEventTime := h.now } ∧
    (m.tick q h).1.spiders = m.spiders ∧
    (m.tick q h).1.timers = m.timers ++ [h.nextTimer + 1 + n] ∧
    (m.tick q h).2.2.now = h.now ∧
    (m.tick q h).2.2.body = h.body ∧
    (m.tick q h).2.2.nextTimer = h.nextTimer + 1 + n + 1 ∧
    ∃ r : ℚ,
    (m.tick q h).2.2.timers = h.timers ++
      (Timer.mk h.nextTimer h.now 12000 Callback.eventRelease ::
        ((List.range n).map
            (fun i => Timer.mk (h.nextTimer + 1 + i) h.now ((i : ℚ) * 500) Callback.spiderCreate)
          ++ [Timer.mk (h.nextTimer + 1 + n) h.now
                (SpiderManager.interval m.settings.spiderFrequency r) Callback.spiderTick])) := by
  obtain ⟨n, e1, e2, e3, e4, e5, e6⟩ := SpiderManager_spawnSpider_spec m q h
  refine ⟨n, ?_⟩
  simp only [SpiderManager.tick, hf, if_true, SpiderManager.scheduleSpider]
  refine ⟨e2, by simp [e1], by simp [e1, e5], by simp [e3], by simp [e4], by simp [e5],
    (m.spawnSpider q h).2.2.rand (m.spawnSpider q h).2.2.drawn, ?_⟩
  simp [e1, e3, e5, e6, Host.random]

theorem SpiderManager_tick_idle (m : SpiderManager) (q : EventQueue) (h : Host)
    (hf : m.tickFires q h = false) :
    (m.tick q h).2.1 = q ∧
    (m.tick q h).1.spiders = m.spiders ∧
    (m.tick q h).1.timers = m.timers ++ [h.nextTimer] ∧
    (m.tick q h).2.2.now = h.now ∧
    (m.tick q h).2.2.nextTimer = h.nextTimer + 1 ∧
    (m.tick q h).2.2.body = h.body ∧
    (m.tick q h).2.2.timers = h.timers ++
      [Timer.mk h.nextTimer h.now
         (SpiderManager.interval m.settings.spiderFrequency (h.rand h.drawn))
         Callback.spiderTick] := by
  simp only [SpiderManager.tick, hf, SpiderManager.scheduleSpider]
  exact ⟨rfl, rfl, rfl, rfl, rfl, rfl, rfl⟩

theorem CorruptionManager_applyEffect_spec (e : CorruptionEffect) (h : Host) :
    ∃ eff : List Timer,
    (CorruptionManager.applyEffect e h).now = h.now ∧
    (CorruptionManager.applyEffect e h).nextTimer = h.nextTimer + eff.length ∧
    (CorruptionManager.applyEffect e h).timers = h.timers ++ eff ∧
    eff.length ≤ 1 ∧
    ∀ tm ∈ eff, tm.id = h.nextTimer ∧ tm.setAt = h.now ∧ tm.cb.isCleanup = true := by
  cases e
  · exact ⟨[], rfl, rfl, by simp [CorruptionManager.applyEffect], by simp, by simp⟩
  · exact ⟨[_], rfl, rfl, rfl, by simp, by simp [Host.random, Callback.isCleanup]⟩
  · exact ⟨[_], rfl, rfl, rfl, by simp, by simp [Host.random, Host.appendToBody,
      Callback.isCleanup]⟩
  · exact ⟨[_], rfl, rfl, rfl, by simp, by simp [Host.random, Callback.isCleanup]⟩
  · exact ⟨[], rfl, rfl, by simp [CorruptionManager.applyEffect], by simp, by simp⟩

theorem CorruptionManager_tick_fires (m : CorruptionManager) (q : EventQueue) (h : Host)
    (hf : m.tickFires q h = true) :
    ∃ eff : List Timer,
    (m.tick q h).2.1 = { isEventActive := true, lastEventTime := h.now } ∧
    (m.tick q h).1.timers = m.timers ++ [h.nextTimer + 1 + eff.length] ∧
    (m.tick q h).2.2.now = h.now ∧
    (m.tick q h).2.2.nextTimer = h.nextTimer + 1 + eff.length + 1 ∧
    eff.length ≤ 1 ∧
    (∀ tm ∈ eff, tm.id = h.nextTimer + 1 ∧ tm.setAt = h.now ∧ tm.cb.isCleanup = true) ∧
    ∃ r : ℚ,
    (m.tick q h).2.2.timers = h.timers ++
      (Timer.mk h.nextTimer h.now 4000 Callback.eventRelease ::
        (eff ++ [Timer.mk (h.nextTimer + 1 + eff.length) h.now
                (CorruptionManager.interval m.settings.distortionFrequency r)
                Callback.corruptionTick])) := by
  simp only [CorruptionManager.tick, hf, if_true, CorruptionManager.applyRandomCorruption,
    CorruptionManager.scheduleCorruption, EventQueue.startEvent]
  cases hc : randomChoice CorruptionManager.effects
      (h.setTimeout Callback.eventRelease 4000).2.random.1 with
  | none =>
    refine ⟨[], by simp [hc], by simp [hc], by simp [hc], by simp [hc], by simp, by simp, ?_⟩
    exact ⟨(h.setTimeout Callback.eventRelease 4000).2.random.2.random.1, by simp [hc]⟩
  | some e =>
    obtain ⟨eff, e1, e2, e3, e4, e5⟩ :=
      CorruptionManager_applyEffect_spec e (h.setTimeout Callback.eventRelease 4000).2.random.2
    refine ⟨eff, by simp [hc], ?_, by simp [hc, e1], ?_, e4, ?_, ?_⟩
    · simp [hc, e2]
    · simp [hc, e2]
    · intro tm htm
      simpa using e5 tm htm
    · exact ⟨(CorruptionManager.applyEffect e
        (h.setTimeout Callback.eventRelease 4000).2.random.2).random.1, by simp [hc, e1, e2, e3]⟩

theorem CorruptionManager_tick_idle (m : CorruptionManager) (q : EventQueue) (h : Host)
    (hf : m.tickFires q h = false) :
    (m.tick q h).2.1 = q ∧
    (m.tick q h).1.timers = m.timers ++ [h.nextTimer] ∧
    (m.tick q h).2.2.now = h.now ∧
    (m.tick q h).2.2.nextTimer = h.nextTimer + 1 ∧
    (m.tick q h).2.2.body = h.body ∧
    (m.tick q h).2.2.timers = h.timers ++
      [Timer.mk h.nextTimer h.now
         (CorruptionManager.interval m.settings.distortionFrequency (h.rand h.drawn))
         Callback.corruptionTick] := by
  simp only [CorruptionManager.tick, hf, CorruptionManager.scheduleCorruption]
  exact ⟨rfl, rfl, rfl, rfl, rfl, rfl⟩

theorem filter_creates (n base now : Nat) (c : Callback) (hc : c ≠ Callback.spiderCreate) :
    ((List.range n).map
      (fun i => Timer.mk (base + i) now ((i : ℚ) * 500) Callback.spiderCreate)).filter
        (fun t => t.cb == c) = [] := by
  apply filter_cb_nil _ Callback.spiderCreate c (Ne.symm hc)
  intro tm htm
  obtain ⟨i, _, rfl⟩ := List.mem_map.1 htm
  rfl

theorem filter_cleanup (eff : List Timer) (c : Callback) (hc : c.isCleanup = false)
    (hall : ∀ tm ∈ eff, tm.cb.isCleanup = true) :
    eff.filter (fun t => t.cb == c) = [] := by
  rw [List.filter_eq_nil_iff]
  intro tm htm
  have := hall tm htm
  simp only [beq_iff_eq]
  intro heq
  rw [heq, hc] at this
  exact Bool.noConfusion this

/-- C4. For each gated scheduler (ghost, spider, corruption), every settings
snapshot, gate state and host: the tick fires (it starts an event, and the
ghost tick adds one ghost) exactly when `settings.enabled`, the family toggle
and `canStartEvent()` all hold; when it fires the gate is active with
`lastEventTime = now`; when it does not, the gate, the sprites and the
document are unchanged; and in both cases exactly one new tick timer is
pending, registered last, whose handle is appended to the manager's timer
list. With `spiders = false` a spider tick leaves the gate, the spider list,
the pending spider creations and the document unchanged. -/
theorem C4_gated_tick (gm : GhostManager) (sm : SpiderManager) (cm : CorruptionManager)
    (q : EventQueue) (h : Host) :
    ((gm.tickFires q h = true ↔
        gm.settings.enabled = true ∧ gm.settings.ghosts = true ∧
          q.canStartEvent h.now = true) ∧
      ((gm.tick q h).2.2.pending Callback.eventRelease = h.pending Callback.eventRelease + 1 ↔
        gm.tickFires q h = true) ∧
      ((gm.tick q h).1.ghosts.length = gm.ghosts.length + 1 ↔ gm.tickFires q h = true) ∧
      (gm.tickFires q h = true →
        (gm.tick q h).2.1 = { isEventActive := true, lastEventTime := h.now }) ∧
      (gm.tickFires q h = false →
        (gm.tick q h).2.1 = q ∧ (gm.tick q h).1.ghosts = gm.ghosts ∧
        (gm.tick q h).2.2.body = h.body ∧
        (gm.tick q h).2.2.pending Callback.eventRelease = h.pending Callback.eventRelease) ∧
      (gm.tick q h).2.2.pending Callback.ghostTick = h.pending Callback.ghostTick + 1 ∧
      ∃ tm : Timer, (gm.tick q h).2.2.timers.getLast? = some tm ∧
        tm.cb = Callback.ghostTick ∧ tm.setAt = h.now ∧
        (gm.tick q h).1.timers = gm.timers ++ [tm.id]) ∧
    ((sm.tickFires q h = true ↔
        sm.settings.enabled = true ∧ sm.settings.spiders = true ∧
          q.canStartEvent h.now = true) ∧
      ((sm.tick q h).2.2.pending Callback.eventRelease = h.pending Callback.eventRelease + 1 ↔
        sm.tickFires q h = true) ∧
      (sm.tickFires q h = true →
        (sm.tick q h).2.1 = { isEventActive := true, lastEventTime := h.now }) ∧
      (sm.tickFires q h = false →
        (sm.tick q h).2.1 = q ∧ (sm.tick q h).1.spiders = sm.spiders ∧
        (sm.tick q h).2.2.body = h.body ∧
        (sm.tick q h).2.2.pending Callback.spiderCreate = h.pending Callback.spiderCreate ∧
        (sm.tick q h).2.2.pending Callback.eventRelease = h.pending Callback.eventRelease) ∧
      (sm.settings.spiders = false →
        (sm.tick q h).2.1 = q ∧ (sm.tick q h).1.spiders = sm.spiders ∧
        (sm.tick q h).2.2.body = h.body ∧
        (sm.tick q h).2.2.pending Callback.spiderCreate = h.pending Callback.spiderCreate) ∧
      (sm.tick q h).2.2.pending Callback.spiderTick = h.pending Callback.spiderTick + 1 ∧
      ∃ tm : Timer, (sm.tick q h).2.2.timers.getLast? = some tm ∧
        tm.cb = Callback.spiderTick ∧ tm.setAt = h.now ∧
        (sm.tick q h).1.timers = sm.timers ++ [tm.id]) ∧
    ((cm.tickFires q h = true ↔
        cm.settings.enabled = true ∧ cm.settings.corruption = true ∧
          q.canStartEvent h.now = true) ∧
      ((cm.tick q h).2.2.pending Callback.eventRelease = h.pending Callback.eventRelease + 1 ↔
        cm.tickFires q h = true) ∧
      (cm.tickFires q h = true →
        (cm.tick q h).2.1 = { isEventActive := true, lastEventTime := h.now }) ∧
      (cm.tickFires q h = false →
        (cm.tick q h).2.1 = q ∧ (cm.tick q h).2.2.body = h.body ∧
        (cm.tick q h).2.2.pending Callback.eventRelease = h.pending Callback.eventRelease) ∧
      (cm.tick q h).2.2.pending Callback.corruptionTick = h.pending Callback.corruptionTick + 1 ∧
      ∃ tm : Timer, (cm.tick q h).2.2.timers.getLast? = some tm ∧
        tm.cb = Callback.corruptionTick ∧ tm.setAt = h.now ∧
        (cm.tick q h).1.timers = cm.timers ++ [tm.id]) := by
  refine ⟨?_, ?_, ?_⟩
  · cases hf : gm.tickFires q h
    · obtain ⟨e1, e2, e3, e4, e5, e6, e7⟩ := GhostManager_tick_idle gm q h hf
      refine ⟨?_, ?_, ?_, ?_, ?_, ?_, ?_⟩
      · simpa [GhostManager.tickFires, and_assoc] using hf
      · simp [Host_pending_def, e7, List.filter_append, List.filter_cons]
      · simp [e2]
      · simp
      · intro _
        exact ⟨e1, e2, e6, by simp [Host_pending_def, e7, List.filter_append, List.filter_cons]⟩
      · simp [Host_pending_def, e7, List.filter_append, List.filter_cons]
      · exact ⟨_, by rw [e7, List.getLast?_concat], rfl, rfl, e3⟩
    · obtain ⟨e1, e2, e3, e4, e5, e7⟩ := GhostManager_tick_fires gm q h hf
      refine ⟨?_, ?_, ?_, ?_, ?_, ?_, ?_⟩
      · simpa [GhostManager.tickFires, and_assoc] using hf
      · simp [Host_pending_def, e7, List.filter_append, List.filter_cons]
      · simp [e2]
      · exact fun _ => e1
      · simp
      · simp [Host_pending_def, e7, List.filter_append, List.filter_cons]
      · refine ⟨Timer.mk (h.nextTimer + 2) h.now
          (GhostManager.interval gm.settings.ghostFrequency (h.rand (h.drawn + 3)))
          Callback.ghostTick, ?_, rfl, rfl, e3⟩
        rw [e7]
        simp [List.getLast?_append]
  · have hidle : sm.tickFires q h = false →
        (sm.tick q h).2.1 = q ∧ (sm.tick q h).1.spiders = sm.spiders ∧
        (sm.tick q h).2.2.body = h.body ∧
        (sm.tick q h).2.2.pending Callback.spiderCreate = h.pending Callback.spiderCreate ∧
        (sm.tick q h).2.2.pending Callback.eventRelease = h.pending Callback.eventRelease := by
      intro hf
      obtain ⟨e1, e2, e3, e4, e5, e6, e7⟩ := SpiderManager_tick_idle sm q h hf
      exact ⟨e1, e2, e6, by simp [Host_pending_def, e7, List.filter_append, List.filter_cons],
        by simp [Host_pending_def, e7, List.filter_append, List.filter_cons]⟩
    have hoff : sm.settings.spiders = false → sm.tickFires q h = false := by
      intro hs
      simp [SpiderManager.tickFires, hs]
    cases hf : sm.tickFires q h
    · obtain ⟨e1, e2, e3, e4, e5, e6, e7⟩ := SpiderManager_tick_idle sm q h hf
      refine ⟨?_, ?_, ?_, ?_, ?_, ?_, ?_⟩
      · simpa [SpiderManager.tickFires, and_assoc] using hf
      · simp [Host_pending_def, e7, List.filter_append, List.filter_cons]
      · simp
      · exact fun _ => hidle hf
      · intro _
        exact ⟨(hidle hf).1, (hidle hf).2.1, (hidle hf).2.2.1, (hidle hf).2.2.2.1⟩
      · simp [Host_pending_def, e7, List.filter_append, List.filter_cons]
      · exact ⟨_, by rw [e7, List.getLast?_concat], rfl, rfl, e3⟩
    · obtain ⟨n, e1, e2, e3, e4, e5, e6, r, e7⟩ := SpiderManager_tick_fires sm q h hf
      refine ⟨?_, ?_, ?_, ?_, ?_, ?_, ?_⟩
      · simpa [SpiderManager.tickFires, and_assoc] using hf
      · simp [Host_pending_def, e7, List.filter_append, List.filter_cons,
          filter_creates n (h.nextTimer + 1) h.now Callback.eventRelease (by decide)]
      · exact fun _ => e1
      · simp
      · intro hs
        rw [hoff hs] at hf
        exact Bool.noConfusion hf
      · simp [Host_pending_def, e7, List.filter_append, List.filter_cons,
          filter_creates n (h.nextTimer + 1) h.now Callback.spiderTick (by decide)]
      · refine ⟨Timer.mk (h.nextTimer + 1 + n) h.now
          (SpiderManager.interval sm.settings.spiderFrequency r) Callback.spiderTick,
          ?_, rfl, rfl, e3⟩
        rw [e7, ← List.cons_append, ← List.append_assoc, List.getLast?_concat]
  · cases hf : cm.tickFires q h
    · obtain ⟨e1, e3, e4, e5, e6, e7⟩ := CorruptionManager_tick_idle cm q h hf
      refine ⟨?_, ?_, ?_, ?_, ?_, ?_⟩
      · simpa [CorruptionManager.tickFires, and_assoc] using hf
      · simp [Host_pending_def, e7, List.filter_append, List.filter_cons]
      · simp
      · intro _
        exact ⟨e1, e6, by simp [Host_pending_def, e7, List.filter_append, List.filter_cons]⟩
      · simp [Host_pending_def, e7, List.filter_append, List.filter_cons]
      · exact ⟨_, by rw [e7, List.getLast?_concat], rfl, rfl, e3⟩
    · obtain ⟨eff, e1, e3, e4, e5, _, e6, r, e7⟩ := CorruptionManager_tick_fires cm q h hf
      have hclean : ∀ tm ∈ eff, tm.cb.isCleanup = true := fun tm htm => (e6 tm htm).2.2
      refine ⟨?_, ?_, ?_, ?_, ?_, ?_⟩
      · simpa [CorruptionManager.tickFires, and_assoc] using hf
      · simp [Host_pending_def, e7, List.filter_append, List.filter_cons,
          filter_cleanup eff Callback.eventRelease rfl hclean]
      · exact fun _ => e1
      · simp
      · simp [Host_pending_def, e7, List.filter_append, List.filter_cons,
          filter_cleanup eff Callback.corruptionTick rfl hclean]
      · refine ⟨Timer.mk (h.nextTimer + 1 + eff.length) h.now
          (CorruptionManager.interval cm.settings.distortionFrequency r)
          Callback.corruptionTick, ?_, rfl, rfl, e3⟩
        rw [e7, ← List.cons_append, ← List.append_assoc, List.getLast?_concat]

/-! ## Stopping -/

/-- `ids.forEach(clearTimeout)` removes exactly the pending timers whose handle
is in `ids`, and touches nothing else. -/
theorem foldl_clearTimeout (ids : List Nat) (h : Host) :
    ids.foldl Host.clearTimeout h =
      { h with timers := h.timers.filter (fun t => !ids.contains t.id) } := by
  induction ids generalizing h with
  | nil => simp
  | cons i ids ih =>
    rw [List.foldl_cons, ih]
    simp only [Host.clearTimeout, List.filter_filter]
    congr 1
    apply List.filter_congr
    intro t _
    simp only [List.contains_cons, Bool.not_or, bne, Bool.and_comm]

@[simp] theorem Ghost_destroy_timers (g : Ghost) (h : Host) :
    (g.destroy h).timers = h.timers := by
  unfold Ghost.destroy
  cases g.animationFrame <;> rfl
@[simp] theorem Ghost_destroy_nextTimer (g : Ghost) (h : Host) :
    (g.destroy h).nextTimer = h.nextTimer := by
  unfold Ghost.destroy
  cases g.animationFrame <;> rfl
@[simp] theorem Ghost_destroy_now (g : Ghost) (h : Host) : (g.destroy h).now = h.now := by
  unfold Ghost.destroy
  cases g.animationFrame <;> rfl

@[simp] theorem Spider_destroy_timers (g : Spider) (h : Host) :
    (g.destroy h).timers = h.timers := by
  unfold Spider.destroy
  cases g.animationFrame <;> rfl
@[simp] theorem Spider_destroy_nextTimer (g : Spider) (h : Host) :
    (g.destroy h).nextTimer = h.nextTimer := by
  unfold Spider.destroy
  cases g.animationFrame <;> rfl
@[simp] theorem Spider_destroy_now (g : Spider) (h : Host) : (g.destroy h).now = h.now := by
  unfold Spider.destroy
  cases g.animationFrame <;> rfl

theorem foldl_ghost_destroy (gs : List Ghost) (h : Host) :
    (gs.foldl (fun h g => g.destroy h) h).timers = h.timers ∧
    (gs.foldl (fun h g => g.destroy h) h).nextTimer = h.nextTimer ∧
    (gs.foldl (fun h g => g.destroy h) h).now = h.now := by
  induction gs generalizing h with
  | nil => exact ⟨rfl, rfl, rfl⟩
  | cons g gs ih => simpa using ih (g.destroy h)

theorem foldl_spider_destroy (gs : List Spider) (h : Host) :
    (gs.foldl (fun h g => g.destroy h) h).timers = h.timers ∧
    (gs.foldl (fun h g => g.destroy h) h).nextTimer = h.nextTimer ∧
    (gs.foldl (fun h g => g.destroy h) h).now = h.now := by
  induction gs generalizing h with
  | nil => exact ⟨rfl, rfl, rfl⟩
  | cons g gs ih => simpa using ih (g.destroy h)

theorem GhostManager_stop_host (m : GhostManager) (h : Host) :
    (m.stop h).2.timers = h.timers.filter (fun t => !m.timers.contains t.id) ∧
    (m.stop h).2.nextTimer = h.nextTimer ∧ (m.stop h).2.now = h.now := by
  simp only [GhostManager.stop]
  obtain ⟨e1, e2, e3⟩ := foldl_ghost_destroy m.ghosts (m.timers.foldl Host.clearTimeout h)
  rw [e1, e2, e3, foldl_clearTimeout]
  exact ⟨rfl, rfl, rfl⟩

theorem SpiderManager_stop_host (m : SpiderManager) (h : Host) :
    (m.stop h).2.timers = h.timers.filter (fun t => !m.timers.contains t.id) ∧
    (m.stop h).2.nextTimer = h.nextTimer ∧ (m.stop h).2.now = h.now := by
  simp only [SpiderManager.stop]
  obtain ⟨e1, e2, e3⟩ := foldl_spider_destroy m.spiders (m.timers.foldl Host.clearTimeout h)
  rw [e1, e2, e3, foldl_clearTimeout]
  exact ⟨rfl, rfl, rfl⟩

theorem CorruptionManager_stop_host (m : CorruptionManager) (h : Host) :
    (m.stop h).2.timers = h.timers.filter (fun t => !m.timers.contains t.id) ∧
    (m.stop h).2.nextTimer = h.nextTimer ∧ (m.stop h).2.now = h.now := by
  simp only [CorruptionManager.stop, foldl_clearTimeout]
  exact ⟨trivial, trivial, trivial⟩

theorem EnvironmentManager_stopFog_host (m : EnvironmentManager) (h : Host) :
    (m.stopFog h).2.timers = h.timers ∧
    (m.stopFog h).2.nextTimer = h.nextTimer ∧ (m.stopFog h).2.now = h.now ∧
    (m.stopFog h).1.effectTimers = m.effectTimers ∧
    (m.stopFog h).1.settings = m.settings := by
  unfold EnvironmentManager.stopFog
  cases m.fogAnimationFrame <;> cases m.fogCanvas <;> exact ⟨rfl, rfl, rfl, rfl, rfl⟩

theorem EnvironmentManager_stop_host (m : EnvironmentManager) (h : Host) :
    (m.stop h).2.timers = h.timers.filter (fun t => !m.effectTimers.contains t.id) ∧
    (m.stop h).2.nextTimer = h.nextTimer ∧ (m.stop h).2.now = h.now := by
  obtain ⟨e1, e2, e3, e4, _⟩ := EnvironmentManager_stopFog_host m h
  simp only [EnvironmentManager.stop, foldl_clearTimeout, e1, e2, e3, e4]
  exact ⟨trivial, trivial, trivial⟩

theorem stop_state (hw : HauntedWeb) (h : Host) :
    (hw.stop h).1.enabled = false ∧
    (hw.stop h).1.ghostManager.timers = [] ∧ (hw.stop h).1.ghostManager.ghosts = [] ∧
    (hw.stop h).1.spiderManager.timers = [] ∧ (hw.stop h).1.spiderManager.spiders = [] ∧
    (hw.stop h).1.corruptionManager.timers = [] ∧
    (hw.stop h).1.environmentManager.effectTimers = [] ∧
    (hw.stop h).1.environmentManager.fogCanvas = none ∧
    (hw.stop h).1.settings = hw.settings ∧
    (hw.stop h).1.eventQueue = hw.eventQueue :=
  ⟨rfl, rfl, rfl, rfl, rfl, rfl, rfl, rfl, rfl, rfl⟩

theorem stop_host (hw : HauntedWeb) (h : Host) :
    (hw.stop h).2.timers = h.timers.filter (fun t =>
      !hw.ghostManager.timers.contains t.id && !hw.spiderManager.timers.contains t.id &&
      !hw.corruptionManager.timers.contains t.id &&
      !hw.environmentManager.effectTimers.contains t.id) ∧
    (hw.stop h).2.nextTimer = h.nextTimer ∧ (hw.stop h).2.now = h.now := by
  obtain ⟨g1, g2, g3⟩ := GhostManager_stop_host hw.ghostManager h
  obtain ⟨s1, s2, s3⟩ := SpiderManager_stop_host hw.spiderManager (hw.ghostManager.stop h).2
  obtain ⟨c1, c2, c3⟩ := CorruptionManager_stop_host hw.corruptionManager
    (hw.spiderManager.stop (hw.ghostManager.stop h).2).2
  obtain ⟨e1, e2, e3⟩ := EnvironmentManager_stop_host hw.environmentManager
    (hw.corruptionManager.stop (hw.spiderManager.stop (hw.ghostManager.stop h).2).2).2
  refine ⟨?_, ?_, ?_⟩
  · show (hw.environmentManager.stop _).2.timers = _
    rw [e1, c1, s1, g1]
    simp only [List.filter_filter]
    apply List.filter_congr
    intro t _
    cases hw.ghostManager.timers.contains t.id <;>
      cases hw.spiderManager.timers.contains t.id <;>
      cases hw.corruptionManager.timers.contains t.id <;>
      cases hw.environmentManager.effectTimers.contains t.id <;> rfl
  · show (hw.environmentManager.stop _).2.nextTimer = _
    rw [e2, c2, s2, g2]
  · show (hw.environmentManager.stop _).2.now = _
    rw [e3, c3, s3, g3]

/-! ## The Safety Monitor -/

/-- The unsafe conditions, spelled out on the page state. -/
theorem page_state_iff (h : Host) :
    (isFullscreenOrCall h || hasActiveForm h || HauntedWeb.isLoginPage h) = true ↔
      (h.fullscreen = true ∨ h.autoplayVideo = true ∨
        (∃ a, h.activeElement = some a ∧
          (a.tagName = "INPUT" ∨ a.tagName = "TEXTAREA" ∨ a.isContentEditable = true)) ∨
        h.passwordInput = true ∨ h.loginForm = true) := by
  unfold isFullscreenOrCall hasActiveForm HauntedWeb.isLoginPage
  cases h.activeElement with
  | none => simp [or_assoc]
  | some a => simp [or_assoc]

/-- C6. On a Safety Monitor tick at which the page is fullscreen or has an
autoplay video, or the focused element is an INPUT, a TEXTAREA or
content-editable, or the page is a login page: an orchestrator with
`enabled = true` ends the tick with `enabled = false`, with the timer list
of every manager empty and the ghost and spider collections empty, and every
timer whose handle was in one of those lists is no longer pending; an
orchestrator with `enabled = false` is left exactly as it was, so `start()`
is not invoked. -/
theorem C6_safety_suspend (hw : HauntedWeb) (h : Host)
    (hpage : h.fullscreen = true ∨ h.autoplayVideo = true ∨
      (∃ a, h.activeElement = some a ∧
        (a.tagName = "INPUT" ∨ a.tagName = "TEXTAREA" ∨ a.isContentEditable = true)) ∨
      h.passwordInput = true ∨ h.loginForm = true) :
    (hw.enabled = true →
      (hw.safetyTick h).1.enabled = false ∧
      (hw.safetyTick h).1.ghostManager.timers = [] ∧
      (hw.safetyTick h).1.spiderManager.timers = [] ∧
      (hw.safetyTick h).1.corruptionManager.timers = [] ∧
      (hw.safetyTick h).1.environmentManager.effectTimers = [] ∧
      (hw.safetyTick h).1.ghostManager.ghosts = [] ∧
      (hw.safetyTick h).1.spiderManager.spiders = [] ∧
      ∀ tm ∈ (hw.safetyTick h).2.timers, tm ∈ h.timers ∧
        tm.id ∉ hw.ghostManager.timers ∧ tm.id ∉ hw.spiderManager.timers ∧
        tm.id ∉ hw.corruptionManager.timers ∧ tm.id ∉ hw.environmentManager.effectTimers) ∧
    (hw.enabled = false → hw.safetyTick h = (hw, h)) := by
  have hu := (page_state_iff h).2 hpage
  constructor
  · intro he
    have hs : hw.safetyTick h = hw.stop h := by
      simp only [HauntedWeb.safetyTick, hu, he, if_true]
    rw [hs]
    refine ⟨rfl, rfl, rfl, rfl, rfl, rfl, rfl, ?_⟩
    intro tm htm
    rw [(stop_host hw h).1, List.mem_filter] at htm
    simpa [and_assoc] using htm
  · intro he
    simp [HauntedWeb.safetyTick, hu, he]

/-- Witness of C6: the orchestrator built from the default settings, on a page
that has gone fullscreen. -/
theorem C6_safety_suspend_witness :
    ((HauntedWeb.construct DEFAULTS).safetyTick
      { Host.fresh 5000 0 with fullscreen := true }).1.enabled = false :=
  ((C6_safety_suspend (HauntedWeb.construct DEFAULTS)
    { Host.fresh 5000 0 with fullscreen := true } (Or.inl rfl)).1 rfl).1

theorem start_disabled (hw : HauntedWeb) (h : Host) (he : hw.enabled = false) :
    hw.start h = (hw, h) := by
  simp [HauntedWeb.start, he]

theorem start_enabled (hw : HauntedWeb) (h : Host) (he : hw.enabled = true) :
    (hw.start h).1.enabled = true ∧ (hw.start h).1.settings = hw.settings := by
  simp only [HauntedWeb.start, he, Bool.not_true, Bool.false_eq_true, if_false]
  exact ⟨rfl, rfl⟩

/-- With `enabled = false` the closure of the Safety Monitor changes nothing,
whatever the page state and the stored settings: on a safe page it calls
`start()`, which returns at its first line. -/
theorem safetyTick_suspended (hw : HauntedWeb) (h : Host) (he : hw.enabled = false) :
    hw.safetyTick h = (hw, h) := by
  simp [HauntedWeb.safetyTick, he, start_disabled hw h he]

/-- C7, evaluated on the code. The orchestrator is started from the default
settings, suspended by a Safety Monitor tick on a fullscreen page, and then
ticked one second later on a page where no unsafe condition holds, with
`settings.enabled` and `settings.ghosts` true: it is still `enabled = false`,
no manager has a timer handle and no timer was registered. -/
theorem C7_safety_resume_blocked :
    Scenario.active.1.enabled = true ∧
    Scenario.suspended.1.enabled = false ∧
    Scenario.suspended.1.settings.enabled = true ∧
    Scenario.suspended.1.settings.ghosts = true ∧
    (isFullscreenOrCall (Scenario.safePage Scenario.suspended.2) ||
      hasActiveForm (Scenario.safePage Scenario.suspended.2) ||
      HauntedWeb.isLoginPage (Scenario.safePage Scenario.suspended.2)) = false ∧
    Scenario.resumed.1.enabled = false ∧
    Scenario.resumed.1.ghostManager.timers = [] ∧
    Scenario.resumed.1.spiderManager.timers = [] ∧
    Scenario.resumed.1.corruptionManager.timers = [] ∧
    Scenario.resumed.2.timers = Scenario.suspended.2.timers ∧
    Scenario.resumed.2.nextTimer = Scenario.suspended.2.nextTimer := by
  have ha : Scenario.active.1.enabled = true ∧
      Scenario.active.1.settings = (HauntedWeb.construct DEFAULTS).settings :=
    start_enabled (HauntedWeb.construct DEFAULTS) (Host.fresh 1000 0) rfl
  have hs : Scenario.suspended =
      Scenario.active.1.stop { Scenario.active.2 with fullscreen := true } := by
    simp [Scenario.suspended, HauntedWeb.safetyTick, isFullscreenOrCall, ha.1]
  have hsusp : Scenario.suspended.1.enabled = false := by rw [hs]; rfl
  have hset : Scenario.suspended.1.settings = DEFAULTS := by
    rw [hs, (stop_state _ _).2.2.2.2.2.2.2.2.1, ha.2]
    rfl
  have hr : Scenario.resumed = (Scenario.suspended.1, Scenario.safePage Scenario.suspended.2) :=
    safetyTick_suspended _ _ hsusp
  refine ⟨ha.1, hsusp, by rw [hset]; rfl, by rw [hset]; rfl, ?_, ?_, ?_, ?_, ?_, ?_, ?_⟩
  · simp [Scenario.safePage, isFullscreenOrCall, hasActiveForm, HauntedWeb.isLoginPage]
  · rw [hr]; exact hsusp
  · rw [hr, hs]; rfl
  · rw [hr, hs]; rfl
  · rw [hr, hs]; rfl
  · rw [hr]; simp only [Scenario.safePage]
  · rw [hr]; simp only [Scenario.safePage]

/-! ## Idempotence of `stop()` -/

theorem ghost_stop_idle (m : GhostManager) (h : Host) (ht : m.timers = []) (hg : m.ghosts = []) :
    m.stop h = (m, h) := by
  cases m
  simp only at ht hg
  subst ht hg
  rfl

theorem spider_stop_idle (m : SpiderManager) (h : Host) (ht : m.timers = [])
    (hg : m.spiders = []) : m.stop h = (m, h) := by
  cases m
  simp only at ht hg
  subst ht hg
  rfl

theorem corruption_stop_idle (m : CorruptionManager) (h : Host) (ht : m.timers = []) :
    m.stop h = (m, h) := by
  cases m
  simp only at ht
  subst ht
  rfl

theorem environment_stop_twice (m : EnvironmentManager) (h : Host) :
    (m.stop h).1.stop (m.stop h).2 = m.stop h := by
  cases hf : m.fogAnimationFrame <;> cases hc : m.fogCanvas <;>
    simp [EnvironmentManager.stop, EnvironmentManager.stopFog, foldl_clearTimeout, hf, hc,
      Host.cancelAnimationFrame, List.filter_filter]

theorem stopDrone_twice (a : HorrorAudio) : a.stopDrone.stopDrone = a.stopDrone := by
  unfold HorrorAudio.stopDrone
  cases hd : a.droneOscillator <;> simp [hd]

theorem stop_twice (hw : HauntedWeb) (h : Host) :
    (hw.stop h).1.stop (hw.stop h).2 = hw.stop h := by
  obtain ⟨hw1, h1, e⟩ : ∃ hw1 h1, hw.stop h = (hw1, h1) := ⟨_, _, rfl⟩
  have hst := stop_state hw h
  rw [e] at hst
  obtain ⟨s1, s2, s3, s4, s5, s6, _⟩ := hst
  have henv : hw1.environmentManager.stop h1 = (hw1.environmentManager, h1) := by
    have := environment_stop_twice hw.environmentManager
      (hw.corruptionManager.stop (hw.spiderManager.stop (hw.ghostManager.stop h).2).2).2
    have e1 : hw1.environmentManager = (hw.environmentManager.stop
      (hw.corruptionManager.stop (hw.spiderManager.stop (hw.ghostManager.stop h).2).2).2).1 :=
      congrArg (fun p => p.1.environmentManager) e.symm
    have e2 : h1 = (hw.environmentManager.stop
      (hw.corruptionManager.stop (hw.spiderManager.stop (hw.ghostManager.stop h).2).2).2).2 :=
      congrArg Prod.snd e.symm
    rw [e1, e2]
    exact this
  have haud : hw1.audio.stopDrone = hw1.audio := by
    have e1 : hw1.audio = hw.audio.stopDrone := congrArg (fun p => p.1.audio) e.symm
    rw [e1]
    exact stopDrone_twice _
  rw [e]
  simp only [HauntedWeb.stop, ghost_stop_idle _ _ s2 s3, spider_stop_idle _ _ s4 s5,
    corruption_stop_idle _ _ s6, henv, haud]
  cases hw1
  simp only at s1
  subst s1
  rfl

/-- C10. `stop()` is idempotent: for the ghost, spider, corruption and
environment managers and for the orchestrator, in every state, `stop()`
followed by `stop()` leaves the same state (manager and host) as a single
`stop()`; after it the timer list and the collection of live instances are
empty (and the fog is gone); and on a manager with no timer and no live
instance `stop()` changes nothing. -/
theorem C10_stop_idempotent (gm : GhostManager) (sm : SpiderManager) (cm : CorruptionManager)
    (em : EnvironmentManager) (hw : HauntedWeb) (s : Settings) (h : Host) :
    ((gm.stop h).1.stop (gm.stop h).2 = gm.stop h ∧
      (gm.stop h).1.timers = [] ∧ (gm.stop h).1.ghosts = [] ∧
      (GhostManager.new s).stop h = (GhostManager.new s, h)) ∧
    ((sm.stop h).1.stop (sm.stop h).2 = sm.stop h ∧
      (sm.stop h).1.timers = [] ∧ (sm.stop h).1.spiders = [] ∧
      (SpiderManager.new s).stop h = (SpiderManager.new s, h)) ∧
    ((cm.stop h).1.stop (cm.stop h).2 = cm.stop h ∧
      (cm.stop h).1.timers = [] ∧
      (CorruptionManager.new s).stop h = (CorruptionManager.new s, h)) ∧
    ((em.stop h).1.stop (em.stop h).2 = em.stop h ∧
      (em.stop h).1.effectTimers = [] ∧ (em.stop h).1.fogCanvas = none ∧
      (em.stop h).1.fogParticles = [] ∧
      (EnvironmentManager.new s).stop h = (EnvironmentManager.new s, h)) ∧
    ((hw.stop h).1.stop (hw.stop h).2 = hw.stop h ∧
      (hw.stop h).1.enabled = false ∧
      (hw.stop h).1.ghostManager.timers = [] ∧ (hw.stop h).1.ghostManager.ghosts = [] ∧
      (hw.stop h).1.spiderManager.timers = [] ∧ (hw.stop h).1.spiderManager.spiders = [] ∧
      (hw.stop h).1.corruptionManager.timers = [] ∧
      (hw.stop h).1.environmentManager.effectTimers = [] ∧
      (hw.stop h).1.audio.droneOscillator = false) := by
  refine ⟨⟨ghost_stop_idle _ _ rfl rfl, rfl, rfl, rfl⟩, ⟨spider_stop_idle _ _ rfl rfl, rfl, rfl, rfl⟩,
    ⟨corruption_stop_idle _ _ rfl, rfl, rfl⟩, ⟨environment_stop_twice em h, rfl, rfl, rfl, rfl⟩,
    ⟨stop_twice hw h, rfl, rfl, rfl, rfl, rfl, rfl, rfl, ?_⟩⟩
  show hw.audio.stopDrone.droneOscillator = false
  unfold HorrorAudio.stopDrone
  cases hd : hw.audio.droneOscillator <;> simp [hd]

/-! ## `panic()` and `cleanup()` -/

theorem className_cons (c : List Char) (cs : List (List Char)) :
    ∃ rest : List Char, className (c :: cs) = c ++ rest ∧
      (cs ≠ [] → rest = ' ' :: className cs) := by
  cases cs with
  | nil => exact ⟨[], by simp [className], fun hne => absurd rfl hne⟩
  | cons d ds => exact ⟨' ' :: className (d :: ds), rfl, fun _ => rfl⟩

/-- An element with a class that starts with `haunted-` is matched by the
selector of `cleanup()`: the class is either the first one, so the attribute
starts with `haunted-`, or it follows a space. -/
theorem selector_of_hauntedClass (classes : List (List Char))
    (hc : hasHauntedClass classes = true) : hauntedSelector classes = true := by
  induction classes with
  | nil => simp [hasHauntedClass] at hc
  | cons c cs ih =>
    obtain ⟨rest, hrest, hsp⟩ := className_cons c cs
    simp only [hasHauntedClass, List.any_cons, Bool.or_eq_true] at hc
    simp only [hauntedSelector, Bool.or_eq_true, decide_eq_true_eq, List.isPrefixOf_iff_prefix]
    rcases hc with hc | hc
    · left
      rw [hrest]
      exact (List.isPrefixOf_iff_prefix.1 hc).trans (List.prefix_append c rest)
    · right
      have hne : cs ≠ [] := by
        rintro rfl
        simp at hc
      have ih' := ih (by simpa [hasHauntedClass] using hc)
      simp only [hauntedSelector, Bool.or_eq_true, decide_eq_true_eq,
        List.isPrefixOf_iff_prefix] at ih'
      rw [hrest, hsp hne]
      rcases ih' with hp | hi
      · obtain ⟨t, ht⟩ := hp
        exact ⟨c, t, by rw [← ht]; simp⟩
      · obtain ⟨a, b, hab⟩ := hi
        exact ⟨c ++ ' ' :: a, b, by rw [← hab]; simp⟩

theorem prune_any (p sel : List (List Char) → Bool)
    (hps : ∀ c, p c = true → sel c = true) (d : Dom) :
    (d.prune sel).any p = false := by
  induction d with
  | nil => rfl
  | node i c ch nx ihc ihn =>
    by_cases hs : sel c = true
    · simp [Dom.prune, hs, ihn]
    · have hp : p c = false := by
        cases hpc : p c
        · rfl
        · exact absurd (hps c hpc) hs
      simp [Dom.prune, hs, Dom.any, hp, ihc, ihn]

theorem foldl_release (l : List Timer) (q : EventQueue) (hq : q.isEventActive = false) :
    l.foldl (fun q _ => q.release) q = q := by
  induction l with
  | nil => rfl
  | cons t l ih =>
    have : q.release = q := by
      cases q
      simp only at hq
      subst hq
      rfl
    rw [List.foldl_cons, this, ih]

/-- C8. Immediately after `panic()`, in every initialized orchestrator state
and host: `enabled` is false; the timer list of every manager and the ghost and
spider collections are empty; no element below `document.body` has a class
that starts with `haunted-` (nor is matched by the selector of `cleanup()`);
the inline transform and filter of `document.body` are the empty string; and
the gate has `isEventActive = false` with `lastEventTime` unchanged, so that
`canStartEvent()` is true at every time at least 2000 ms after the last
`startEvent`, also once the release timers still pending have run. -/
theorem C8_panic (hw : HauntedWeb) (h : Host) :
    (hw.panic h).1.enabled = false ∧
    (hw.panic h).1.ghostManager.timers = [] ∧
    (hw.panic h).1.spiderManager.timers = [] ∧
    (hw.panic h).1.corruptionManager.timers = [] ∧
    (hw.panic h).1.environmentManager.effectTimers = [] ∧
    (hw.panic h).1.ghostManager.ghosts = [] ∧
    (hw.panic h).1.spiderManager.spiders = [] ∧
    (hw.panic h).2.body.any hasHauntedClass = false ∧
    (hw.panic h).2.body.any hauntedSelector = false ∧
    (hw.panic h).2.bodyTransform = CssValue.empty ∧
    (hw.panic h).2.bodyFilter = CssValue.empty ∧
    (hw.panic h).1.eventQueue.isEventActive = false ∧
    (hw.panic h).1.eventQueue.lastEventTime = hw.eventQueue.lastEventTime ∧
    (∀ t : Nat, hw.eventQueue.lastEventTime + 2000 ≤ t →
      (hw.panic h).1.eventQueue.canStartEvent t = true ∧
      ((hw.panic h).1.eventQueue.elapse (hw.panic h).2 t).1.canStartEvent t = true) := by
  refine ⟨rfl, rfl, rfl, rfl, rfl, rfl, rfl, ?_, ?_, rfl, rfl, rfl, rfl, ?_⟩
  · exact prune_any hasHauntedClass hauntedSelector selector_of_hauntedClass _
  · exact prune_any hauntedSelector hauntedSelector (fun _ hc => hc) _
  · intro t ht
    have hcan : (hw.panic h).1.eventQueue.canStartEvent t = true := by
      show (!false && decide ((t : Int) - (hw.eventQueue.lastEventTime : Int)
        ≥ (TIME.EVENT_COOLDOWN : Int))) = true
      simp [TIME.EVENT_COOLDOWN]
      omega
    refine ⟨hcan, ?_⟩
    have hfold := foldl_release
      ((hw.panic h).2.timers.filter (fun tm => tm.cb == Callback.eventRelease && tm.due t))
      (hw.panic h).1.eventQueue rfl
    simp only [EventQueue.elapse, hfold]
    exact hcan

/-! ## The ambient loops and the timer table -/

theorem particle_create_timers (h : Host) :
    (FogParticle.create h).2.timers = h.timers ∧
    (FogParticle.create h).2.nextTimer = h.nextTimer ∧
    (FogParticle.create h).2.now = h.now := ⟨rfl, rfl, rfl⟩

theorem pushParticles_timers (n : Nat) (ps : List FogParticle) (h : Host) :
    (EnvironmentManager.pushParticles n ps h).2.timers = h.timers ∧
    (EnvironmentManager.pushParticles n ps h).2.nextTimer = h.nextTimer ∧
    (EnvironmentManager.pushParticles n ps h).2.now = h.now := by
  induction n generalizing ps h with
  | zero => exact ⟨rfl, rfl, rfl⟩
  | succ n ih =>
    obtain ⟨e1, e2, e3⟩ := ih (ps ++ [(FogParticle.create h).1]) (FogParticle.create h).2
    exact ⟨e1, e2, e3⟩

theorem animateFog_timers (m : EnvironmentManager) (h : Host) :
    (m.animateFog h).2.timers = h.timers ∧
    (m.animateFog h).2.nextTimer = h.nextTimer ∧
    (m.animateFog h).2.now = h.now ∧
    (m.animateFog h).1.effectTimers = m.effectTimers ∧
    (m.animateFog h).1.settings = m.settings := by
  unfold EnvironmentManager.animateFog
  split_ifs <;> exact ⟨rfl, rfl, rfl, rfl, rfl⟩

theorem startFog_timers (m : EnvironmentManager) (h : Host) :
    (m.startFog h).2.timers = h.timers ∧
    (m.startFog h).2.nextTimer = h.nextTimer ∧
    (m.startFog h).2.now = h.now ∧
    (m.startFog h).1.effectTimers = m.effectTimers ∧
    (m.startFog h).1.settings = m.settings := by
  unfold EnvironmentManager.startFog
  obtain ⟨a1, a2, a3, a4, a5⟩ := animateFog_timers
    { m with
      fogCanvas := some (h.appendToBody ["haunted-fog".toList] Dom.nil 0).1
      fogCtx := true
      fogParticles := (EnvironmentManager.pushParticles 50 m.fogParticles
        (h.appendToBody ["haunted-fog".toList] Dom.nil 0).2).1 }
    (EnvironmentManager.pushParticles 50 m.fogParticles
      (h.appendToBody ["haunted-fog".toList] Dom.nil 0).2).2
  obtain ⟨p1, p2, p3⟩ := pushParticles_timers 50 m.fogParticles
    (h.appendToBody ["haunted-fog".toList] Dom.nil 0).2
  exact ⟨a1.trans p1, a2.trans p2, a3.trans p3, a4, a5⟩

theorem env_updateSettings_timers (m : EnvironmentManager) (s : Settings) (h : Host) :
    (m.updateSettings s h).2.timers = h.timers ∧
    (m.updateSettings s h).2.nextTimer = h.nextTimer ∧
    (m.updateSettings s h).2.now = h.now ∧
    (m.updateSettings s h).1.effectTimers = m.effectTimers ∧
    (m.updateSettings s h).1.settings = s := by
  unfold EnvironmentManager.updateSettings
  dsimp only
  split_ifs
  · exact startFog_timers _ h
  · exact EnvironmentManager_stopFog_host _ h
  · exact ⟨rfl, rfl, rfl, rfl, rfl⟩

theorem spawnShadow_timers (m : EnvironmentManager) (h : Host) :
    ∃ pre : List Timer,
    (m.spawnShadow h).timers = h.timers ++ pre ∧ (m.spawnShadow h).now = h.now ∧
    (m.spawnShadow h).nextTimer = h.nextTimer + pre.length ∧
    ∀ tm ∈ pre, tm.cb.isCleanup = true := by
  unfold EnvironmentManager.spawnShadow
  split_ifs
  · exact ⟨[], by simp, rfl, rfl, by simp⟩
  · refine ⟨[_], rfl, rfl, rfl, ?_⟩
    intro tm htm
    rw [List.mem_singleton.1 htm]
    rfl

theorem glitch_timers (m : EnvironmentManager) (h : Host) :
    ∃ pre : List Timer,
    (m.glitch h).timers = h.timers ++ pre ∧ (m.glitch h).now = h.now ∧
    (m.glitch h).nextTimer = h.nextTimer + pre.length ∧
    ∀ tm ∈ pre, tm.cb.isCleanup = true := by
  unfold EnvironmentManager.glitch
  split_ifs
  · exact ⟨[], by simp, rfl, rfl, by simp⟩
  · refine ⟨[_], rfl, rfl, rfl, ?_⟩
    intro tm htm
    rw [List.mem_singleton.1 htm]
    rfl

theorem dripOnce_timers (m : EnvironmentManager) (h : Host) :
    ∃ pre : List Timer,
    (m.dripOnce h).timers = h.timers ++ pre ∧ (m.dripOnce h).now = h.now ∧
    (m.dripOnce h).nextTimer = h.nextTimer + pre.length ∧
    ∀ tm ∈ pre, tm.cb.isCleanup = true := by
  unfold EnvironmentManager.dripOnce
  split_ifs
  · exact ⟨[], by simp, rfl, rfl, by simp⟩
  · refine ⟨[_], rfl, rfl, rfl, ?_⟩
    intro tm htm
    rw [List.mem_singleton.1 htm]
    rfl

theorem silhouettes_timers (fuel i : Nat) (acc : Dom) (h : Host) :
    (EnvironmentManager.silhouettes fuel i acc h).2.2.timers = h.timers ∧
    (EnvironmentManager.silhouettes fuel i acc h).2.2.nextTimer = h.nextTimer ∧
    (EnvironmentManager.silhouettes fuel i acc h).2.2.now = h.now := by
  induction fuel generalizing i acc h with
  | zero => exact ⟨rfl, rfl, rfl⟩
  | succ n ih =>
    unfold EnvironmentManager.silhouettes
    dsimp only
    split_ifs
    · obtain ⟨e1, e2, e3⟩ := ih (i + 1)
        (acc.append (Dom.node (h.nextNode + 1 + i) ["haunted-silhouette".toList] Dom.nil Dom.nil))
        h.random.2
      exact ⟨e1, e2, e3⟩
    · exact ⟨rfl, rfl, rfl⟩

theorem pageFlicker_timers (h : Host) :
    ∃ pre : List Timer,
    (EnvironmentManager.pageFlicker h).timers = h.timers ++ pre ∧
    (EnvironmentManager.pageFlicker h).now = h.now ∧
    (EnvironmentManager.pageFlicker h).nextTimer = h.nextTimer + pre.length ∧
    ∀ tm ∈ pre, tm.cb.isCleanup = true := by
  obtain ⟨e1, e2, e3⟩ := silhouettes_timers 3 0 Dom.nil h
  refine ⟨[Timer.mk h.nextTimer h.now 1000 (Callback.removeNode
    ((EnvironmentManager.silhouettes 3 0 Dom.nil h).2.2.appendToBody
      ["haunted-flicker-overlay".toList] (EnvironmentManager.silhouettes 3 0 Dom.nil h).1
      (EnvironmentManager.silhouettes 3 0 Dom.nil h).2.1).1)], ?_, ?_, ?_, ?_⟩
  · simp only [EnvironmentManager.pageFlicker, Host_setTimeout_timers, Host_appendToBody_timers,
      Host_appendToBody_nextTimer, Host_appendToBody_now, e1, e2, e3]
  · simp only [EnvironmentManager.pageFlicker, Host_setTimeout_now, Host_appendToBody_now, e3]
  · simp only [EnvironmentManager.pageFlicker, Host_setTimeout_nextTimer,
      Host_appendToBody_nextTimer, e2, List.length_singleton]
  · intro tm htm
    rw [List.mem_singleton.1 htm]
    rfl

/-- Registering the next tick of an ambient loop after the timers `pre`. -/
theorem schedule_after (h h1 : Host) (pre : List Timer) (cb : Callback) (lo hi : ℚ)
    (e1 : h1.timers = h.timers ++ pre) (e2 : h1.now = h.now) :
    (h1.random.2.setTimeout cb (random lo hi h1.random.1)).2.timers =
      h.timers ++ (pre ++ [Timer.mk h1.nextTimer h.now (random lo hi h1.random.1) cb]) ∧
    (h1.random.2.setTimeout cb (random lo hi h1.random.1)).2.now = h.now ∧
    (h1.random.2.setTimeout cb (random lo hi h1.random.1)).1 = h1.nextTimer := by
  simp [e1, e2]

theorem cleanup_not_tick (cb : Callback) (hc : cb.isCleanup = true) : cb.isTick = false := by
  cases cb <;> first | rfl | exact Bool.noConfusion hc

/-- What one round of an ambient loop does to the timer table: it registers
timers that are not ticks, then its own next tick, whose handle it records. -/
theorem shadowSchedule_timers (m : EnvironmentManager) (h : Host) :
    ∃ (pre : List Timer) (id : Nat) (d : ℚ),
    (m.shadowSchedule h).2.timers =
      h.timers ++ (pre ++ [Timer.mk id h.now d Callback.shadowTick]) ∧
    (∀ tm ∈ pre, tm.cb.isTick = false) ∧
    (m.shadowSchedule h).1.effectTimers = m.effectTimers ++ [id] ∧
    (m.shadowSchedule h).1.settings = m.settings ∧
    (m.shadowSchedule h).2.now = h.now := by
  obtain ⟨pre, e1, e2, _, e4⟩ := spawnShadow_timers m h
  obtain ⟨s1, s2, s3⟩ := schedule_after h (m.spawnShadow h) pre Callback.shadowTick 10000 30000 e1 e2
  exact ⟨pre, _, _, s1, fun tm htm => cleanup_not_tick _ (e4 tm htm), rfl, rfl, s2⟩

theorem glitchSchedule_timers (m : EnvironmentManager) (h : Host) :
    ∃ (pre : List Timer) (id : Nat) (d : ℚ),
    (m.glitchSchedule h).2.timers =
      h.timers ++ (pre ++ [Timer.mk id h.now d Callback.glitchTick]) ∧
    (∀ tm ∈ pre, tm.cb.isTick = false) ∧
    (m.glitchSchedule h).1.effectTimers = m.effectTimers ++ [id] ∧
    (m.glitchSchedule h).1.settings = m.settings ∧
    (m.glitchSchedule h).2.now = h.now := by
  obtain ⟨pre, e1, e2, _, e4⟩ := glitch_timers m h
  obtain ⟨s1, s2, s3⟩ := schedule_after h (m.glitch h) pre Callback.glitchTick 15000 45000 e1 e2
  exact ⟨pre, _, _, s1, fun tm htm => cleanup_not_tick _ (e4 tm htm), rfl, rfl, s2⟩

theorem bloodSchedule_timers (m : EnvironmentManager) (h : Host) :
    ∃ (pre : List Timer) (id : Nat) (d : ℚ),
    (m.bloodSchedule h).2.timers =
      h.timers ++ (pre ++ [Timer.mk id h.now d Callback.bloodTick]) ∧
    (∀ tm ∈ pre, tm.cb.isTick = false) ∧
    (m.bloodSchedule h).1.effectTimers = m.effectTimers ++ [id] ∧
    (m.bloodSchedule h).1.settings = m.settings ∧
    (m.bloodSchedule h).2.now = h.now := by
  have hfold := foldl_setTimeout Callback.bloodDrip (fun i => (i : ℚ) * 500)
    (randomInt 1 3 h.random.1).toNat h.random.2
  obtain ⟨s1, s2, s3⟩ := schedule_after h
    ((List.range (randomInt 1 3 h.random.1).toNat).foldl
      (fun (h : Host) (i : Nat) => (h.setTimeout Callback.bloodDrip ((i : ℚ) * 500)).2)
      h.random.2)
    ((List.range (randomInt 1 3 h.random.1).toNat).map
      (fun (i : Nat) => Timer.mk (h.nextTimer + i) h.now ((i : ℚ) * 500) Callback.bloodDrip))
    Callback.bloodTick 20000 60000 (by rw [hfold]; rfl) (by rw [hfold]; rfl)
  refine ⟨_, _, _, s1, ?_, rfl, rfl, s2⟩
  intro tm htm
  obtain ⟨i, _, rfl⟩ := List.mem_map.1 htm
  rfl

theorem flickerSchedule_timers (m : EnvironmentManager) (h : Host) :
    ∃ (pre : List Timer) (id : Nat) (d : ℚ),
    (m.flickerSchedule h).2.timers =
      h.timers ++ (pre ++ [Timer.mk id h.now d Callback.flickerTick]) ∧
    (∀ tm ∈ pre, tm.cb.isTick = false) ∧
    (m.flickerSchedule h).1.effectTimers = m.effectTimers ++ [id] ∧
    (m.flickerSchedule h).1.settings = m.settings ∧
    (m.flickerSchedule h).2.now = h.now := by
  unfold EnvironmentManager.flickerSchedule
  dsimp only
  split_ifs
  · obtain ⟨pre, e1, e2, _, e4⟩ := pageFlicker_timers h.random.2
    obtain ⟨s1, s2, s3⟩ := schedule_after h (EnvironmentManager.pageFlicker h.random.2) pre
      Callback.flickerTick 20000 60000 e1 e2
    exact ⟨pre, _, _, s1, fun tm htm => cleanup_not_tick _ (e4 tm htm), rfl, rfl, s2⟩
  · obtain ⟨s1, s2, s3⟩ := schedule_after h h.random.2 [] Callback.flickerTick 20000 60000
      (by simp) rfl
    exact ⟨[], _, _, s1, by simp, rfl, rfl, s2⟩

/-! ## After a stop nothing is scheduled again -/

theorem setEnabled_enabled (hw : HauntedWeb) (b : Bool) :
    (hw.setEnabled b).enabled = hw.enabled := by
  unfold HauntedWeb.setEnabled
  dsimp only
  split_ifs <;> rfl

theorem updateFromSettings_disabled (hw : HauntedWeb) (h : Host) (he : hw.enabled = false) :
    (hw.updateFromSettings h).1.enabled = false ∧ (hw.updateFromSettings h).2 = h := by
  cases hs : hw.settings.enabled <;>
    simp [HauntedWeb.updateFromSettings, he, hs, HauntedWeb.start]

theorem intensityTick_disabled (hw : HauntedWeb) (h : Host) (he : hw.enabled = false) :
    (hw.intensityTick h).1.enabled = false ∧ (hw.intensityTick h).2 = h := by
  simp [HauntedWeb.intensityTick, he]

theorem panic_host (hw : HauntedWeb) (h : Host) :
    (hw.panic h).1.enabled = false ∧
    (hw.panic h).2.timers = (hw.stop h).2.timers ∧
    (hw.panic h).2.nextTimer = h.nextTimer ∧ (hw.panic h).2.now = h.now :=
  ⟨rfl, rfl, (stop_host hw h).2.1, (stop_host hw h).2.2⟩

theorem runCallback_other (hw : HauntedWeb) (h : Host) (cb : Callback)
    (hcb : cb.isTick = false) :
    (hw.runCallback h cb).1.enabled = hw.enabled ∧
    (hw.runCallback h cb).2.now = h.now ∧
    (∀ c, (hw.runCallback h cb).1.handles c = hw.handles c) ∧
    ∃ added : List Timer, (hw.runCallback h cb).2.timers = h.timers ++ added ∧
      ∀ tm ∈ added, tm.cb.isTick = false := by
  cases cb with
  | eventRelease => exact ⟨rfl, rfl, fun c => by cases c <;> rfl, [], by simp [HauntedWeb.runCallback], by simp⟩
  | ghostTick => exact Bool.noConfusion hcb
  | ghostForget g => exact ⟨rfl, rfl, fun c => by cases c <;> rfl, [], by simp [HauntedWeb.runCallback], by simp⟩
  | spiderTick => exact Bool.noConfusion hcb
  | spiderCreate =>
    refine ⟨rfl, rfl, fun c => by cases c <;> rfl, [_], rfl, ?_⟩
    intro tm htm
    rw [List.mem_singleton.1 htm]
    rfl
  | spiderForget g => exact ⟨rfl, rfl, fun c => by cases c <;> rfl, [], by simp [HauntedWeb.runCallback], by simp⟩
  | corruptionTick => exact Bool.noConfusion hcb
  | shadowTick => exact Bool.noConfusion hcb
  | glitchTick => exact Bool.noConfusion hcb
  | bloodTick => exact Bool.noConfusion hcb
  | flickerTick => exact Bool.noConfusion hcb
  | bloodDrip =>
    obtain ⟨pre, e1, e2, _, e4⟩ := dripOnce_timers hw.environmentManager h
    exact ⟨rfl, e2, fun c => by cases c <;> rfl, pre, e1,
      fun tm htm => cleanup_not_tick _ (e4 tm htm)⟩
  | removeNode x => exact ⟨rfl, rfl, fun c => by cases c <;> rfl, [], by simp [HauntedWeb.runCallback], by simp⟩
  | restoreTransform t0 => exact ⟨rfl, rfl, fun c => by cases c <;> rfl, [], by simp [HauntedWeb.runCallback], by simp⟩
  | restoreFilter f0 => exact ⟨rfl, rfl, fun c => by cases c <;> rfl, [], by simp [HauntedWeb.runCallback], by simp⟩

/-- Once `enabled` is false and no tick timer is pending, every step leaves it
so. -/
theorem quiet_step (s : HauntedWeb × Host) (a : Step) (he : s.1.enabled = false)
    (hq : ∀ tm ∈ s.2.timers, tm.cb.isTick = false) :
    (HauntedWeb.step s a).1.enabled = false ∧
    ∀ tm ∈ (HauntedWeb.step s a).2.timers, tm.cb.isTick = false := by
  cases a with
  | safety =>
    show (s.1.safetyTick s.2).1.enabled = false ∧
      ∀ tm ∈ (s.1.safetyTick s.2).2.timers, tm.cb.isTick = false
    rw [safetyTick_suspended _ _ he]
    exact ⟨he, hq⟩
  | intensity =>
    obtain ⟨e1, e2⟩ := intensityTick_disabled s.1 s.2 he
    show (s.1.intensityTick s.2).1.enabled = false ∧
      ∀ tm ∈ (s.1.intensityTick s.2).2.timers, tm.cb.isTick = false
    rw [e2]
    exact ⟨e1, hq⟩
  | message req =>
    show (s.1.onMessage req s.2).1.enabled = false ∧
      ∀ tm ∈ (s.1.onMessage req s.2).2.timers, tm.cb.isTick = false
    unfold HauntedWeb.onMessage
    split_ifs
    · obtain ⟨e1, e2⟩ := updateFromSettings_disabled
        { s.1 with settings := s.1.settings.merge req.settings, sharedSettings := false } s.2 he
      rw [e2]
      exact ⟨e1, hq⟩
    · refine ⟨rfl, fun tm htm => ?_⟩
      rw [(panic_host s.1 s.2).2.1, (stop_host s.1 s.2).1] at htm
      exact hq tm (List.mem_filter.1 htm).1
    · rw [start_disabled _ _ ((setEnabled_enabled s.1 true).trans he)]
      exact ⟨(setEnabled_enabled s.1 true).trans he, hq⟩
    · refine ⟨rfl, fun tm htm => ?_⟩
      rw [(stop_host (s.1.setEnabled false) s.2).1] at htm
      exact hq tm (List.mem_filter.1 htm).1
    · exact ⟨he, hq⟩
  | interaction =>
    refine ⟨?_, hq⟩
    show (s.1.onFirstInteraction s.2).enabled = false
    unfold HauntedWeb.onFirstInteraction
    dsimp only
    split_ifs <;> exact he
  | fire id =>
    show (s.1.fire s.2 id).1.enabled = false ∧
      ∀ tm ∈ (s.1.fire s.2 id).2.timers, tm.cb.isTick = false
    unfold HauntedWeb.fire
    cases hfind : s.2.timers.find? (fun t => t.id == id) with
    | none => exact ⟨he, hq⟩
    | some t =>
      dsimp only
      split_ifs
      · have htq : t.cb.isTick = false := hq t (List.mem_of_find?_eq_some hfind)
        obtain ⟨e1, _, _, added, e3, e4⟩ := runCallback_other s.1
          { s.2 with timers := s.2.timers.filter (fun u => u.id != id) } t.cb htq
        refine ⟨e1.trans he, fun tm htm => ?_⟩
        rw [e3] at htm
        rcases List.mem_append.1 htm with hm | hm
        · exact hq tm (List.mem_filter.1 hm).1
        · exact e4 tm hm
      · exact ⟨he, hq⟩
  | page w => exact ⟨he, hq⟩

theorem quiet_run (steps : List Step) (s : HauntedWeb × Host) (he : s.1.enabled = false)
    (hq : ∀ tm ∈ s.2.timers, tm.cb.isTick = false) :
    (HauntedWeb.run s steps).1.enabled = false ∧
    ∀ tm ∈ (HauntedWeb.run s steps).2.timers, tm.cb.isTick = false := by
  induction steps generalizing s with
  | nil => exact ⟨he, hq⟩
  | cons a steps ih =>
    obtain ⟨e1, e2⟩ := quiet_step s a he hq
    exact ih (HauntedWeb.step s a) e1 e2

/-! ## Every pending tick timer is recorded by its scheduler -/

theorem tracked_grow (hw hw' : HauntedWeb) (h h' : Host) (added : List Timer)
    (ht : hw.Tracked h)
    (htimers : ∀ tm ∈ h'.timers, tm ∈ h.timers ∨ tm ∈ added)
    (hsub : ∀ c, hw.handles c ⊆ hw'.handles c)
    (hadd : ∀ tm ∈ added, tm.cb.isTick = true → tm.id ∈ hw'.handles tm.cb) :
    hw'.Tracked h' := by
  intro tm htm htick
  rcases htimers tm htm with hm | hm
  · exact hsub _ (ht tm hm htick)
  · exact hadd tm hm htick

theorem tracked_append (hw hw' : HauntedWeb) (h h' : Host) (added : List Timer)
    (ht : hw.Tracked h) (htimers : h'.timers = h.timers ++ added)
    (hsub : ∀ c, hw.handles c ⊆ hw'.handles c)
    (hadd : ∀ tm ∈ added, tm.cb.isTick = true → tm.id ∈ hw'.handles tm.cb) :
    hw'.Tracked h' :=
  tracked_grow hw hw' h h' added ht (fun _ htm => List.mem_append.1 (htimers ▸ htm)) hsub hadd

theorem tracked_same (hw hw' : HauntedWeb) (h h' : Host) (ht : hw.Tracked h)
    (htimers : h'.timers = h.timers) (hsub : ∀ c, hw'.handles c = hw.handles c) :
    hw'.Tracked h' := by
  apply tracked_grow hw hw' h h' [] ht
  · intro tm htm
    rw [htimers] at htm
    exact Or.inl htm
  · intro c
    rw [hsub c]
    exact fun _ hx => hx
  · simp

theorem tracked_ghostTick (hw : HauntedWeb) (h : Host) (ht : hw.Tracked h) :
    (hw.runCallback h Callback.ghostTick).1.Tracked (hw.runCallback h Callback.ghostTick).2 := by
  cases hf : hw.ghostManager.tickFires hw.eventQueue h
  · obtain ⟨_, _, e3, _, _, _, e7⟩ := GhostManager_tick_idle hw.ghostManager hw.eventQueue h hf
    refine tracked_append hw _ h _ _ ht e7 (fun c => ?_) (fun tm htm _ => ?_)
    · cases c <;> simp [HauntedWeb.handles, HauntedWeb.runCallback, e3]
    · rw [List.mem_singleton.1 htm]
      simp [HauntedWeb.handles, HauntedWeb.runCallback, e3]
  · obtain ⟨_, _, e3, _, _, e7⟩ := GhostManager_tick_fires hw.ghostManager hw.eventQueue h hf
    refine tracked_append hw _ h _ _ ht e7 (fun c => ?_) (fun tm htm htick => ?_)
    · cases c <;> simp [HauntedWeb.handles, HauntedWeb.runCallback, e3]
    · simp only [List.mem_cons, List.mem_singleton, List.not_mem_nil, or_false] at htm
      rcases htm with rfl | rfl | rfl
      · exact Bool.noConfusion htick
      · exact Bool.noConfusion htick
      · simp [HauntedWeb.handles, HauntedWeb.runCallback, e3]

theorem tracked_spiderTick (hw : HauntedWeb) (h : Host) (ht : hw.Tracked h) :
    (hw.runCallback h Callback.spiderTick).1.Tracked (hw.runCallback h Callback.spiderTick).2 := by
  cases hf : hw.spiderManager.tickFires hw.eventQueue h
  · obtain ⟨_, _, e3, _, _, _, e7⟩ := SpiderManager_tick_idle hw.spiderManager hw.eventQueue h hf
    refine tracked_append hw _ h _ _ ht e7 (fun c => ?_) (fun tm htm _ => ?_)
    · cases c <;> simp [HauntedWeb.handles, HauntedWeb.runCallback, e3]
    · rw [List.mem_singleton.1 htm]
      simp [HauntedWeb.handles, HauntedWeb.runCallback, e3]
  · obtain ⟨n, _, _, e3, _, _, _, r, e7⟩ :=
      SpiderManager_tick_fires hw.spiderManager hw.eventQueue h hf
    refine tracked_append hw _ h _ _ ht e7 (fun c => ?_) (fun tm htm htick => ?_)
    · cases c <;> simp [HauntedWeb.handles, HauntedWeb.runCallback, e3]
    · simp only [List.mem_cons, List.mem_append, List.mem_map, List.not_mem_nil,
        or_false] at htm
      rcases htm with rfl | ⟨i, _, rfl⟩ | rfl
      · exact Bool.noConfusion htick
      · exact Bool.noConfusion htick
      · simp [HauntedWeb.handles, HauntedWeb.runCallback, e3]

theorem tracked_corruptionTick (hw : HauntedWeb) (h : Host) (ht : hw.Tracked h) :
    (hw.runCallback h Callback.corruptionTick).1.Tracked
      (hw.runCallback h Callback.corruptionTick).2 := by
  cases hf : hw.corruptionManager.tickFires hw.eventQueue h
  · obtain ⟨_, e3, _, _, _, e7⟩ :=
      CorruptionManager_tick_idle hw.corruptionManager hw.eventQueue h hf
    refine tracked_append hw _ h _ _ ht e7 (fun c => ?_) (fun tm htm _ => ?_)
    · cases c <;> simp [HauntedWeb.handles, HauntedWeb.runCallback, e3]
    · rw [List.mem_singleton.1 htm]
      simp [HauntedWeb.handles, HauntedWeb.runCallback, e3]
  · obtain ⟨eff, _, e3, _, _, _, e6, r, e7⟩ :=
      CorruptionManager_tick_fires hw.corruptionManager hw.eventQueue h hf
    refine tracked_append hw _ h _ _ ht e7 (fun c => ?_) (fun tm htm htick => ?_)
    · cases c <;> simp [HauntedWeb.handles, HauntedWeb.runCallback, e3]
    · simp only [List.mem_cons, List.mem_append, List.not_mem_nil, or_false] at htm
      rcases htm with rfl | hm | rfl
      · exact Bool.noConfusion htick
      · rw [cleanup_not_tick _ (e6 tm hm).2.2] at htick
        exact Bool.noConfusion htick
      · simp [HauntedWeb.handles, HauntedWeb.runCallback, e3]

/-- An ambient round keeps the tick timers recorded: the schedule result `r`
registers non-tick timers and one tick of the environment manager, whose
handle it appends to `effectTimers`. -/
theorem tracked_env_round (hw : HauntedWeb) (h : Host) (ht : hw.Tracked h)
    (r : EnvironmentManager × Host) (cb : Callback)
    (hcb : ∀ hw' : HauntedWeb, hw'.handles cb = hw'.environmentManager.effectTimers)
    (hr : ∃ (pre : List Timer) (id : Nat) (d : ℚ),
      r.2.timers = h.timers ++ (pre ++ [Timer.mk id h.now d cb]) ∧
      (∀ tm ∈ pre, tm.cb.isTick = false) ∧
      r.1.effectTimers = hw.environmentManager.effectTimers ++ [id] ∧
      r.1.settings = hw.environmentManager.settings ∧ r.2.now = h.now) :
    HauntedWeb.Tracked { hw with environmentManager := r.1 } r.2 := by
  obtain ⟨pre, id, d, e1, e2, e3, _, _⟩ := hr
  refine tracked_append hw _ h _ _ ht e1 (fun c => ?_) (fun tm htm htick => ?_)
  · cases c <;> simp [HauntedWeb.handles, e3]
  · rcases List.mem_append.1 htm with hm | hm
    · rw [e2 tm hm] at htick
      exact Bool.noConfusion htick
    · rw [List.mem_singleton.1 hm]
      show id ∈ HauntedWeb.handles { hw with environmentManager := r.1 } cb
      rw [hcb, e3]
      simp

theorem tracked_runCallback (hw : HauntedWeb) (h : Host) (cb : Callback) (ht : hw.Tracked h) :
    (hw.runCallback h cb).1.Tracked (hw.runCallback h cb).2 := by
  cases hcb : cb.isTick
  · obtain ⟨_, _, e3, added, e4, e5⟩ := runCallback_other hw h cb hcb
    refine tracked_append hw _ h _ added ht e4 (fun c => ?_) (fun tm htm htick => ?_)
    · rw [e3 c]
      exact fun _ hx => hx
    · rw [e5 tm htm] at htick
      exact Bool.noConfusion htick
  · cases cb with
    | ghostTick => exact tracked_ghostTick hw h ht
    | spiderTick => exact tracked_spiderTick hw h ht
    | corruptionTick => exact tracked_corruptionTick hw h ht
    | shadowTick =>
      exact tracked_env_round hw h ht (hw.environmentManager.shadowSchedule h)
        Callback.shadowTick (fun _ => rfl)
        (shadowSchedule_timers _ h)
    | glitchTick =>
      exact tracked_env_round hw h ht (hw.environmentManager.glitchSchedule h)
        Callback.glitchTick (fun _ => rfl)
        (glitchSchedule_timers _ h)
    | bloodTick =>
      exact tracked_env_round hw h ht (hw.environmentManager.bloodSchedule h)
        Callback.bloodTick (fun _ => rfl)
        (bloodSchedule_timers _ h)
    | flickerTick =>
      exact tracked_env_round hw h ht (hw.environmentManager.flickerSchedule h)
        Callback.flickerTick (fun _ => rfl)
        (flickerSchedule_timers _ h)
    | eventRelease => exact Bool.noConfusion hcb
    | ghostForget g => exact Bool.noConfusion hcb
    | spiderCreate => exact Bool.noConfusion hcb
    | spiderForget g => exact Bool.noConfusion hcb
    | bloodDrip => exact Bool.noConfusion hcb
    | removeNode x => exact Bool.noConfusion hcb
    | restoreTransform t0 => exact Bool.noConfusion hcb
    | restoreFilter f0 => exact Bool.noConfusion hcb

theorem tracked_sub (hw : HauntedWeb) (h h' : Host) (ht : hw.Tracked h)
    (hsub : ∀ tm ∈ h'.timers, tm ∈ h.timers) : hw.Tracked h' :=
  fun tm htm htick => ht tm (hsub tm htm) htick

theorem tracked_fire (hw : HauntedWeb) (h : Host) (id : Nat) (ht : hw.Tracked h) :
    (hw.fire h id).1.Tracked (hw.fire h id).2 := by
  unfold HauntedWeb.fire
  cases h.timers.find? (fun t => t.id == id) with
  | none => exact ht
  | some t =>
    dsimp only
    split_ifs
    · apply tracked_runCallback
      exact tracked_sub hw h _ ht (fun tm htm => (List.mem_filter.1 htm).1)
    · exact ht

theorem tracked_env_start (hw : HauntedWeb) (h : Host) (ht : hw.Tracked h) :
    HauntedWeb.Tracked { hw with environmentManager := (hw.environmentManager.start h).1 }
      (hw.environmentManager.start h).2 := by
  have t0 : HauntedWeb.Tracked
      { hw with environmentManager :=
        (if hw.environmentManager.settings.fog then hw.environmentManager.startFog h
          else (hw.environmentManager, h)).1 }
      (if hw.environmentManager.settings.fog then hw.environmentManager.startFog h
        else (hw.environmentManager, h)).2 := by
    split_ifs
    · obtain ⟨e1, _, _, e4, _⟩ := startFog_timers hw.environmentManager h
      exact tracked_same hw _ h _ ht e1 (fun c => by cases c <;> simp [HauntedWeb.handles, e4])
    · exact ht
  have t1 := tracked_env_round _ _ t0 (EnvironmentManager.shadowSchedule _ _)
    Callback.shadowTick (fun _ => rfl) (shadowSchedule_timers _ _)
  have t2 := tracked_env_round _ _ t1 (EnvironmentManager.glitchSchedule _ _)
    Callback.glitchTick (fun _ => rfl) (glitchSchedule_timers _ _)
  have t3 := tracked_env_round _ _ t2 (EnvironmentManager.bloodSchedule _ _)
    Callback.bloodTick (fun _ => rfl) (bloodSchedule_timers _ _)
  have t4 := tracked_env_round _ _ t3 (EnvironmentManager.flickerSchedule _ _)
    Callback.flickerTick (fun _ => rfl) (flickerSchedule_timers _ _)
  exact t4

theorem pushSettings_spec (hw : HauntedWeb) (s : Settings) (h : Host) :
    (hw.pushSettings s h).2.timers = h.timers ∧
    (hw.pushSettings s h).2.nextTimer = h.nextTimer ∧
    (hw.pushSettings s h).2.now = h.now ∧
    (∀ c, (hw.pushSettings s h).1.handles c = hw.handles c) ∧
    (hw.pushSettings s h).1.enabled = hw.enabled ∧
    (hw.pushSettings s h).1.settings = hw.settings ∧
    (hw.pushSettings s h).1.eventQueue = hw.eventQueue := by
  obtain ⟨e1, e2, e3, e4, _⟩ := env_updateSettings_timers hw.environmentManager s h
  refine ⟨e1, e2, e3, fun c => ?_, rfl, rfl, rfl⟩
  cases c <;> first | rfl | exact e4

theorem tracked_set_ghost (hw : HauntedWeb) (h : Host) (ht : hw.Tracked h) (b : Bool) :
    HauntedWeb.Tracked
      { hw with ghostManager :=
        (if b then hw.ghostManager.start h else (hw.ghostManager, h)).1 }
      (if b then hw.ghostManager.start h else (hw.ghostManager, h)).2 := by
  cases b
  · exact ht
  · refine tracked_append hw _ h _ [_] ht rfl (fun c => ?_) (fun tm htm _ => ?_)
    · cases c <;> simp [HauntedWeb.handles, GhostManager.start, GhostManager.scheduleGhost]
    · rw [List.mem_singleton.1 htm]
      simp [HauntedWeb.handles, GhostManager.start, GhostManager.scheduleGhost]

theorem tracked_set_spider (hw : HauntedWeb) (h : Host) (ht : hw.Tracked h) (b : Bool) :
    HauntedWeb.Tracked
      { hw with spiderManager :=
        (if b then hw.spiderManager.start h else (hw.spiderManager, h)).1 }
      (if b then hw.spiderManager.start h else (hw.spiderManager, h)).2 := by
  cases b
  · exact ht
  · refine tracked_append hw _ h _ [_] ht rfl (fun c => ?_) (fun tm htm _ => ?_)
    · cases c <;> simp [HauntedWeb.handles, SpiderManager.start, SpiderManager.scheduleSpider]
    · rw [List.mem_singleton.1 htm]
      simp [HauntedWeb.handles, SpiderManager.start, SpiderManager.scheduleSpider]

theorem tracked_set_corruption (hw : HauntedWeb) (h : Host) (ht : hw.Tracked h) (b : Bool) :
    HauntedWeb.Tracked
      { hw with corruptionManager :=
        (if b then hw.corruptionManager.start h else (hw.corruptionManager, h)).1 }
      (if b then hw.corruptionManager.start h else (hw.corruptionManager, h)).2 := by
  cases b
  · exact ht
  · refine tracked_append hw _ h _ [_] ht rfl (fun c => ?_) (fun tm htm _ => ?_)
    · cases c <;>
        simp [HauntedWeb.handles, CorruptionManager.start, CorruptionManager.scheduleCorruption]
    · rw [List.mem_singleton.1 htm]
      simp [HauntedWeb.handles, CorruptionManager.start, CorruptionManager.scheduleCorruption]

theorem tracked_start (hw : HauntedWeb) (h : Host) (ht : hw.Tracked h) :
    (hw.start h).1.Tracked (hw.start h).2 := by
  cases he : hw.enabled
  · rw [start_disabled hw h he]
    exact ht
  · obtain ⟨p1, _, _, p4, _⟩ := pushSettings_spec { hw with enabled := true }
      (HauntedWeb.boosted hw.settings h) h
    have t1 : HauntedWeb.Tracked
        { ({ hw with enabled := true } : HauntedWeb).pushSettings
            (HauntedWeb.boosted hw.settings h) h |>.1 with sharedSettings := false }
        (({ hw with enabled := true } : HauntedWeb).pushSettings
            (HauntedWeb.boosted hw.settings h) h).2 :=
      tracked_same hw _ h _ ht p1 (fun c => by
        rw [← show HauntedWeb.handles { hw with enabled := true } c = hw.handles c from by
          cases c <;> rfl, ← p4 c]
        cases c <;> rfl)
    have t2 := tracked_set_ghost _ _ t1 hw.settings.ghosts
    have t3 := tracked_set_spider _ _ t2 hw.settings.spiders
    have t4 := tracked_set_corruption _ _ t3 hw.settings.corruption
    have t5 := tracked_env_start _ _ t4
    simp only [HauntedWeb.start, he, Bool.not_true, Bool.false_eq_true, if_false]
    exact tracked_same _ _ _ _ t5 rfl (fun c => by cases c <;> rfl)

/-- `stop()` cancels every pending tick timer, provided each was recorded. -/
theorem stop_quiet (hw : HauntedWeb) (h : Host) (ht : hw.Tracked h) :
    ∀ tm ∈ (hw.stop h).2.timers, tm.cb.isTick = false := by
  intro tm htm
  rw [(stop_host hw h).1, List.mem_filter] at htm
  obtain ⟨hm, hf⟩ := htm
  simp only [Bool.and_eq_true, Bool.not_eq_true'] at hf
  obtain ⟨⟨⟨f1, f2⟩, f3⟩, f4⟩ := hf
  replace f1 : tm.id ∉ hw.ghostManager.timers := by simpa using f1
  replace f2 : tm.id ∉ hw.spiderManager.timers := by simpa using f2
  replace f3 : tm.id ∉ hw.corruptionManager.timers := by simpa using f3
  replace f4 : tm.id ∉ hw.environmentManager.effectTimers := by simpa using f4
  cases htick : tm.cb.isTick
  · rfl
  · have hin := ht tm hm htick
    cases hcb : tm.cb <;> rw [hcb] at hin htick <;>
      first
      | exact absurd hin f1
      | exact absurd hin f2
      | exact absurd hin f3
      | exact absurd hin f4
      | exact Bool.noConfusion htick

theorem quiet_tracked (hw : HauntedWeb) (h : Host)
    (hq : ∀ tm ∈ h.timers, tm.cb.isTick = false) : hw.Tracked h := by
  intro tm htm htick
  rw [hq tm htm] at htick
  exact Bool.noConfusion htick

theorem tracked_stop (hw : HauntedWeb) (h : Host) (ht : hw.Tracked h) :
    (hw.stop h).1.Tracked (hw.stop h).2 :=
  quiet_tracked _ _ (stop_quiet hw h ht)

theorem tracked_panic (hw : HauntedWeb) (h : Host) (ht : hw.Tracked h) :
    (hw.panic h).1.Tracked (hw.panic h).2 :=
  quiet_tracked _ _ (stop_quiet hw h ht)

theorem setEnabled_handles (hw : HauntedWeb) (b : Bool) (c : Callback) :
    (hw.setEnabled b).handles c = hw.handles c := by
  unfold HauntedWeb.setEnabled
  dsimp only
  split_ifs <;> cases c <;> rfl

theorem tracked_updateFromSettings (hw : HauntedWeb) (h : Host) (ht : hw.Tracked h) :
    (hw.updateFromSettings h).1.Tracked (hw.updateFromSettings h).2 := by
  unfold HauntedWeb.updateFromSettings
  dsimp only
  have ha : ∀ a : HorrorAudio, HauntedWeb.Tracked { hw with audio := a } h :=
    fun a => tracked_same hw _ h h ht rfl (fun c => by cases c <;> rfl)
  generalize (if (hw.settings.audio &&
      !(hw.audio.setVolume hw.settings.audioVolume).droneOscillator) = true then
      (hw.audio.setVolume hw.settings.audioVolume).startDrone
    else if (!hw.settings.audio &&
      (hw.audio.setVolume hw.settings.audioVolume).droneOscillator) = true then
      (hw.audio.setVolume hw.settings.audioVolume).stopDrone
    else hw.audio.setVolume hw.settings.audioVolume) = a
  split_ifs
  · exact tracked_start _ _ (ha a)
  · exact tracked_stop _ _ (ha a)
  · obtain ⟨p1, _, _, p4, _⟩ := pushSettings_spec { hw with audio := a } hw.settings h
    exact tracked_same _ _ h _ (ha a) p1 (fun c => by
      rw [← p4 c]
      cases c <;> rfl)
  · exact ha a

theorem tracked_step (s : HauntedWeb × Host) (a : Step) (ht : s.1.Tracked s.2) :
    (HauntedWeb.step s a).1.Tracked (HauntedWeb.step s a).2 := by
  cases a with
  | safety =>
    show (s.1.safetyTick s.2).1.Tracked (s.1.safetyTick s.2).2
    unfold HauntedWeb.safetyTick
    split_ifs
    · exact tracked_stop _ _ ht
    · exact ht
    · exact tracked_start _ _ ht
    · exact ht
  | intensity =>
    show (s.1.intensityTick s.2).1.Tracked (s.1.intensityTick s.2).2
    unfold HauntedWeb.intensityTick
    dsimp only
    split_ifs
    · obtain ⟨p1, _, _, p4, _⟩ := pushSettings_spec
        { s.1 with
          timeOnPage := s.1.timeOnPage + TIME.INTENSITY_SCALE_INTERVAL
          intensity := s.1.settings.intensity *
            HauntedWeb.intensityScale (s.1.timeOnPage + TIME.INTENSITY_SCALE_INTERVAL) }
        { s.1.settings with intensity := s.1.settings.intensity *
            HauntedWeb.intensityScale (s.1.timeOnPage + TIME.INTENSITY_SCALE_INTERVAL) } s.2
      exact tracked_same s.1 _ s.2 _ ht p1 (fun c => by
        show HauntedWeb.handles _ c = _
        rw [show s.1.handles c = HauntedWeb.handles
          { s.1 with
            timeOnPage := s.1.timeOnPage + TIME.INTENSITY_SCALE_INTERVAL
            intensity := s.1.settings.intensity *
              HauntedWeb.intensityScale (s.1.timeOnPage + TIME.INTENSITY_SCALE_INTERVAL) } c
          from by cases c <;> rfl, ← p4 c]
        cases c <;> rfl)
    · exact tracked_same s.1 _ s.2 _ ht rfl (fun c => by cases c <;> rfl)
  | message req =>
    show (s.1.onMessage req s.2).1.Tracked (s.1.onMessage req s.2).2
    unfold HauntedWeb.onMessage
    split_ifs
    · exact tracked_updateFromSettings _ _
        (tracked_same s.1 _ s.2 _ ht rfl (fun c => by cases c <;> rfl))
    · exact tracked_panic _ _ ht
    · exact tracked_start _ _
        (tracked_same s.1 _ s.2 _ ht rfl (fun c => setEnabled_handles s.1 true c))
    · exact tracked_stop _ _
        (tracked_same s.1 _ s.2 _ ht rfl (fun c => setEnabled_handles s.1 false c))
    · exact ht
  | interaction =>
    show (s.1.onFirstInteraction s.2).Tracked s.2
    unfold HauntedWeb.onFirstInteraction
    dsimp only
    split_ifs <;> exact tracked_same s.1 _ s.2 _ ht rfl (fun c => by cases c <;> rfl)
  | fire id => exact tracked_fire s.1 s.2 id ht
  | page w => exact ht

theorem tracked_boot (st : Settings) (h : Host) (hfresh : h.timers = []) :
    HauntedWeb.Tracked
      { (if st.enabled then (HauntedWeb.construct st).start h
          else (HauntedWeb.construct st, h)).1 with initialized := true }
      (if st.enabled then (HauntedWeb.construct st).start h
        else (HauntedWeb.construct st, h)).2 := by
  have t0 : (HauntedWeb.construct st).Tracked h := quiet_tracked _ _ (by simp [hfresh])
  by_cases hen : st.enabled = true
  · rw [if_pos hen]
    exact tracked_same _ _ _ _ (tracked_start _ _ t0) rfl (fun c => by cases c <;> rfl)
  · rw [if_neg hen]
    exact tracked_same _ _ _ _ t0 rfl (fun c => by cases c <;> rfl)

theorem tracked_init (fetched : Settings) (h : Host) (s : HauntedWeb × Host)
    (hfresh : h.timers = []) (hi : HauntedWeb.init fetched h = some s) : s.1.Tracked s.2 := by
  unfold HauntedWeb.init at hi
  by_cases hd : HauntedWeb.shouldDisable fetched h = true
  · rw [if_pos hd] at hi
    exact Option.noConfusion hi
  · rw [if_neg hd] at hi
    have hs := Option.some.inj hi
    rw [← hs]
    exact tracked_boot _ h hfresh

/-- In every reachable state each pending tick timer is recorded in the timer
list of its scheduler. -/
theorem reachable_tracked (s : HauntedWeb × Host) (hr : Reachable s) : s.1.Tracked s.2 := by
  induction hr with
  | init fetched h s hfresh hi => exact tracked_init fetched h s hfresh hi
  | step s a _ ih => exact tracked_step s a ih

/-! ## `panic()` is terminal -/

theorem pending_zero (h : Host) (cb : Callback) (hcb : cb.isTick = true)
    (hq : ∀ tm ∈ h.timers, tm.cb.isTick = false) : h.pending cb = 0 := by
  rw [Host_pending_def, List.length_eq_zero, List.filter_eq_nil_iff]
  intro tm htm heq
  rw [beq_iff_eq] at heq
  rw [← heq, hq tm htm] at hcb
  exact Bool.noConfusion hcb

/-- C9. After `panic()` in a reachable state, and after any further sequence
of Safety Monitor ticks, Intensity Controller ticks, messages (ENABLE,
DISABLE, UPDATE_SETTINGS, PANIC or any other), first interactions, timer
firings and changes of the page, `enabled` is false and no tick timer of the
ghost, spider, corruption or environment scheduler is pending. -/
theorem C9_panic_terminal (s : HauntedWeb × Host) (hr : Reachable s) (steps : List Step) :
    (HauntedWeb.run (s.1.panic s.2) steps).1.enabled = false ∧
    (∀ tm ∈ (HauntedWeb.run (s.1.panic s.2) steps).2.timers, tm.cb.isTick = false) ∧
    (HauntedWeb.run (s.1.panic s.2) steps).2.pending Callback.ghostTick = 0 ∧
    (HauntedWeb.run (s.1.panic s.2) steps).2.pending Callback.spiderTick = 0 ∧
    (HauntedWeb.run (s.1.panic s.2) steps).2.pending Callback.corruptionTick = 0 ∧
    (HauntedWeb.run (s.1.panic s.2) steps).2.pending Callback.shadowTick = 0 ∧
    (HauntedWeb.run (s.1.panic s.2) steps).2.pending Callback.glitchTick = 0 ∧
    (HauntedWeb.run (s.1.panic s.2) steps).2.pending Callback.bloodTick = 0 ∧
    (HauntedWeb.run (s.1.panic s.2) steps).2.pending Callback.flickerTick = 0 := by
  obtain ⟨e1, e2⟩ := quiet_run steps (s.1.panic s.2) rfl
    (stop_quiet s.1 s.2 (reachable_tracked s hr))
  exact ⟨e1, e2, pending_zero _ _ rfl e2, pending_zero _ _ rfl e2, pending_zero _ _ rfl e2,
    pending_zero _ _ rfl e2, pending_zero _ _ rfl e2, pending_zero _ _ rfl e2,
    pending_zero _ _ rfl e2⟩

theorem scenario_reachable : Reachable Scenario.initialized := by
  refine Reachable.init DEFAULTS (Host.fresh 1000 0) _ rfl ?_
  have hd : HauntedWeb.shouldDisable DEFAULTS (Host.fresh 1000 0) = false := by
    decide
  unfold HauntedWeb.init
  rw [hd]
  rfl

/-- Witness of C9: the orchestrator initialized from the default settings
panics; an ENABLE message, a Safety Monitor tick on the safe page and an
UPDATE_SETTINGS message that sets `enabled` follow. -/
theorem C9_panic_terminal_witness :
    (HauntedWeb.run (Scenario.initialized.1.panic Scenario.initialized.2)
      [Step.message { type := MSG.ENABLE }, Step.safety,
       Step.message { type := MSG.UPDATE_SETTINGS, settings := { enabled := some true } }]
      ).1.enabled = false ∧
    (HauntedWeb.run (Scenario.initialized.1.panic Scenario.initialized.2)
      [Step.message { type := MSG.ENABLE }, Step.safety,
       Step.message { type := MSG.UPDATE_SETTINGS, settings := { enabled := some true } }]
      ).2.pending Callback.ghostTick = 0 :=
  ⟨(C9_panic_terminal Scenario.initialized scenario_reachable _).1,
   (C9_panic_terminal Scenario.initialized scenario_reachable _).2.2.1⟩

/-! ## Mutual exclusion of major events -/

/-- A tick of a gated family either leaves the gate alone and registers no
release timer, or finds `canStartEvent()` true, closes the gate at the current
clock and registers exactly one release timer, with the next handle and the
duration of the family. -/
theorem tick_outcome (hw : HauntedWeb) (h : Host) (f : Family) :
    (hw.runCallback h f.tick).2.now = h.now ∧
    (((hw.runCallback h f.tick).1.eventQueue = hw.eventQueue ∧
      ∃ rest : List Timer, (hw.runCallback h f.tick).2.timers = h.timers ++ rest ∧
        (∀ tm ∈ rest, tm.cb ≠ Callback.eventRelease ∧
          tm.id < (hw.runCallback h f.tick).2.nextTimer) ∧
        h.nextTimer ≤ (hw.runCallback h f.tick).2.nextTimer) ∨
     (hw.eventQueue.canStartEvent h.now = true ∧
      (hw.runCallback h f.tick).1.eventQueue =
        { isEventActive := true, lastEventTime := h.now } ∧
      ∃ (d : Nat) (rest : List Timer),
        (d = 8000 ∨ d = 12000 ∨ d = 4000) ∧
        (hw.runCallback h f.tick).2.timers =
          h.timers ++ Timer.mk h.nextTimer h.now (d : ℚ) Callback.eventRelease :: rest ∧
        (∀ tm ∈ rest, tm.cb ≠ Callback.eventRelease ∧
          tm.id < (hw.runCallback h f.tick).2.nextTimer) ∧
        h.nextTimer < (hw.runCallback h f.tick).2.nextTimer)) := by
  cases f with
  | ghost =>
    cases hf : hw.ghostManager.tickFires hw.eventQueue h
    · obtain ⟨e1, _, _, e4, e5, _, e7⟩ := GhostManager_tick_idle hw.ghostManager hw.eventQueue h hf
      have e5' : (hw.runCallback h Family.ghost.tick).2.nextTimer = h.nextTimer + 1 := e5
      refine ⟨e4, Or.inl ⟨e1, _, e7, ?_, ?_⟩⟩
      · intro tm htm
        rw [List.mem_singleton.1 htm, e5']
        exact ⟨by simp, Nat.lt_succ_self _⟩
      · rw [e5']
        omega
    · obtain ⟨e1, _, _, e4, e5, e7⟩ := GhostManager_tick_fires hw.ghostManager hw.eventQueue h hf
      have e5' : (hw.runCallback h Family.ghost.tick).2.nextTimer = h.nextTimer + 3 := e5
      have hcan : hw.eventQueue.canStartEvent h.now = true := by
        simp only [GhostManager.tickFires, Bool.and_eq_true] at hf
        exact hf.2
      have hd : ((8000 : ℕ) : ℚ) = 8000 := by norm_num
      refine ⟨e4, Or.inr ⟨hcan, e1, 8000, _, Or.inl rfl, e7.trans (by rw [hd]), ?_, ?_⟩⟩
      · intro tm htm
        rw [e5']
        simp only [List.mem_cons, List.not_mem_nil, or_false] at htm
        rcases htm with rfl | rfl
        · exact ⟨by simp, by dsimp only; omega⟩
        · exact ⟨by simp, by dsimp only; omega⟩
      · rw [e5']
        omega
  | spider =>
    cases hf : hw.spiderManager.tickFires hw.eventQueue h
    · obtain ⟨e1, _, _, e4, e5, _, e7⟩ :=
        SpiderManager_tick_idle hw.spiderManager hw.eventQueue h hf
      have e5' : (hw.runCallback h Family.spider.tick).2.nextTimer = h.nextTimer + 1 := e5
      refine ⟨e4, Or.inl ⟨e1, _, e7, ?_, ?_⟩⟩
      · intro tm htm
        rw [List.mem_singleton.1 htm, e5']
        exact ⟨by simp, Nat.lt_succ_self _⟩
      · rw [e5']
        omega
    · obtain ⟨n, e1, _, _, e4, _, e5, r, e7⟩ :=
        SpiderManager_tick_fires hw.spiderManager hw.eventQueue h hf
      have e5' : (hw.runCallback h Family.spider.tick).2.nextTimer = h.nextTimer + 1 + n + 1 :=
        e5
      have hcan : hw.eventQueue.canStartEvent h.now = true := by
        simp only [SpiderManager.tickFires, Bool.and_eq_true] at hf
        exact hf.2
      have hd : ((12000 : ℕ) : ℚ) = 12000 := by norm_num
      refine ⟨e4, Or.inr ⟨hcan, e1, 12000, _, Or.inr (Or.inl rfl), e7.trans (by rw [hd]), ?_, ?_⟩⟩
      · intro tm htm
        rw [e5']
        simp only [List.mem_append, List.mem_map, List.mem_range, List.mem_cons,
          List.not_mem_nil, or_false] at htm
        rcases htm with ⟨i, hi, rfl⟩ | rfl
        · exact ⟨by simp, by dsimp only; omega⟩
        · exact ⟨by simp, by dsimp only; omega⟩
      · rw [e5']
        omega
  | corruption =>
    cases hf : hw.corruptionManager.tickFires hw.eventQueue h
    · obtain ⟨e1, _, e4, e5, _, e7⟩ :=
        CorruptionManager_tick_idle hw.corruptionManager hw.eventQueue h hf
      have e5' : (hw.runCallback h Family.corruption.tick).2.nextTimer = h.nextTimer + 1 := e5
      refine ⟨e4, Or.inl ⟨e1, _, e7, ?_, ?_⟩⟩
      · intro tm htm
        rw [List.mem_singleton.1 htm, e5']
        exact ⟨by simp, Nat.lt_succ_self _⟩
      · rw [e5']
        omega
    · obtain ⟨eff, e1, _, e4, e5, _, e6, r, e7⟩ :=
        CorruptionManager_tick_fires hw.corruptionManager hw.eventQueue h hf
      have e5' : (hw.runCallback h Family.corruption.tick).2.nextTimer
          = h.nextTimer + 1 + eff.length + 1 := e5
      have hcan : hw.eventQueue.canStartEvent h.now = true := by
        simp only [CorruptionManager.tickFires, Bool.and_eq_true] at hf
        exact hf.2
      have hd : ((4000 : ℕ) : ℚ) = 4000 := by norm_num
      refine ⟨e4, Or.inr ⟨hcan, e1, 4000, _, Or.inr (Or.inr rfl), e7.trans (by rw [hd]), ?_, ?_⟩⟩
      · intro tm htm
        rw [e5']
        simp only [List.mem_append, List.mem_cons, List.not_mem_nil, or_false] at htm
        rcases htm with hm | rfl
        · obtain ⟨i1, _, i3⟩ := e6 tm hm
          refine ⟨fun hc => ?_, by rw [i1]; omega⟩
          rw [hc] at i3
          exact Bool.noConfusion i3
        · exact ⟨by simp, by dsimp only; omega⟩
      · rw [e5']
        omega

theorem startedSince_append (h h' : Host) (added : List Timer)
    (hA : ∀ tm ∈ h.timers, tm.id < h.nextTimer) (e : h'.timers = h.timers ++ added) :
    h.startedSince h' =
      (added.filter
        (fun t => t.cb == Callback.eventRelease && decide (h.nextTimer ≤ t.id))).map
        (fun t => (t.setAt, t.delay)) := by
  unfold Host.startedSince
  rw [e, List.filter_append]
  have hold : h.timers.filter
      (fun t => t.cb == Callback.eventRelease && decide (h.nextTimer ≤ t.id)) = [] := by
    rw [List.filter_eq_nil_iff]
    intro tm htm
    have := hA tm htm
    simp only [Bool.and_eq_true, decide_eq_true_eq, not_and, not_le]
    exact fun _ => this
  rw [hold, List.nil_append]

theorem startedSince_sub (h h' : Host) (hA : ∀ tm ∈ h.timers, tm.id < h.nextTimer)
    (hsub : ∀ tm ∈ h'.timers, tm ∈ h.timers) : h.startedSince h' = [] := by
  unfold Host.startedSince
  rw [List.map_eq_nil_iff, List.filter_eq_nil_iff]
  intro tm htm
  have := hA tm (hsub tm htm)
  simp only [Bool.and_eq_true, decide_eq_true_eq, not_and, not_le]
  exact fun _ => this

theorem filter_rest_nil (rest : List Timer) (p : Timer → Bool)
    (hr : ∀ tm ∈ rest, tm.cb ≠ Callback.eventRelease) :
    rest.filter (fun t => t.cb == Callback.eventRelease && p t) = [] := by
  rw [List.filter_eq_nil_iff]
  intro tm htm
  simp [hr tm htm]

theorem foldl_release_spec (l : List Timer) (q : EventQueue) :
    (l.foldl (fun q _ => q.release) q).lastEventTime = q.lastEventTime ∧
    (l = [] → l.foldl (fun q _ => q.release) q = q) ∧
    (l ≠ [] → (l.foldl (fun q _ => q.release) q).isEventActive = false) := by
  induction l generalizing q with
  | nil => exact ⟨rfl, fun _ => rfl, fun hne => absurd rfl hne⟩
  | cons t l ih =>
    obtain ⟨i1, i2, i3⟩ := ih q.release
    refine ⟨i1, fun hc => List.noConfusion hc, fun _ => ?_⟩
    by_cases hl : l = []
    · rw [List.foldl_cons, i2 hl]
      rfl
    · exact i3 hl

theorem eq_of_length_le_one (l : List Timer) (hl : l.length ≤ 1) (a b : Timer)
    (ha : a ∈ l) (hb : b ∈ l) : a = b := by
  match l, hl, ha, hb with
  | [x], _, ha, hb => rw [List.mem_singleton.1 ha, List.mem_singleton.1 hb]
  | _ :: _ :: _, hlen, _, _ =>
    simp only [List.length_cons] at hlen
    omega

theorem gate_inv_advance (s : HauntedWeb × Host) (t : Nat) (log : List (Nat × ℚ))
    (hinv : GateInv s log) :
    s.2.startedSince (HauntedWeb.gateStep s (GateStep.advance t)).2 = [] ∧
    GateInv (HauntedWeb.gateStep s (GateStep.advance t)) log := by
  obtain ⟨hA, hC', hC, hD, hE, hF⟩ := hinv
  refine ⟨startedSince_sub _ _ hA (fun tm htm => htm), hA, ?_, hC, ?_, hE, hF⟩
  · exact le_trans hC' (le_max_left _ _)
  · intro ha e he
    have h1 := hD ha e he
    have h2 : (s.2.now : ℚ) ≤ ((Max.max s.2.now t : Nat) : ℚ) := by
      exact_mod_cast le_max_left s.2.now t
    exact le_trans h1 h2

theorem gate_inv_configure (s : HauntedWeb × Host) (st : Settings) (log : List (Nat × ℚ))
    (hinv : GateInv s log) :
    s.2.startedSince (HauntedWeb.gateStep s (GateStep.configure st)).2 = [] ∧
    GateInv (HauntedWeb.gateStep s (GateStep.configure st)) log :=
  ⟨startedSince_sub _ _ hinv.1 (fun _ htm => htm), hinv⟩

theorem gate_inv_release (s : HauntedWeb × Host) (log : List (Nat × ℚ))
    (hinv : GateInv s log) :
    s.2.startedSince (HauntedWeb.gateStep s GateStep.release).2 = [] ∧
    GateInv (HauntedWeb.gateStep s GateStep.release) log := by
  obtain ⟨hA, hC', hC, hD, hE, hF⟩ := hinv
  have hsub : ∀ tm ∈ (HauntedWeb.gateStep s GateStep.release).2.timers, tm ∈ s.2.timers :=
    fun tm htm => (List.mem_filter.1 htm).1
  obtain ⟨f1, f2, f3⟩ := foldl_release_spec
    (s.2.timers.filter (fun tm => tm.cb == Callback.eventRelease && tm.due s.2.now))
    s.1.eventQueue
  refine ⟨startedSince_sub _ _ hA hsub, fun tm htm => hA tm (hsub tm htm), ?_, ?_, ?_, ?_, ?_⟩
  · have hq1 : (HauntedWeb.gateStep s GateStep.release).1.eventQueue.lastEventTime
        = s.1.eventQueue.lastEventTime := f1
    rw [hq1]
    exact hC'
  · intro e he
    have hq1 : (HauntedWeb.gateStep s GateStep.release).1.eventQueue.lastEventTime
        = s.1.eventQueue.lastEventTime := f1
    rw [hq1]
    exact hC e he
  · by_cases hdue : s.2.timers.filter
        (fun tm => tm.cb == Callback.eventRelease && tm.due s.2.now) = []
    · intro ha e he
      have ha' : s.1.eventQueue.isEventActive = false := by
        have : (HauntedWeb.gateStep s GateStep.release).1.eventQueue = s.1.eventQueue := f2 hdue
        rw [← this]
        exact ha
      exact hD ha' e he
    · intro _ e he
      obtain ⟨tm0, h0⟩ := List.exists_mem_of_ne_nil _ hdue
      rw [List.mem_filter] at h0
      obtain ⟨hm0, hp0⟩ := h0
      simp only [Bool.and_eq_true, beq_iff_eq] at hp0
      have hle := (hE tm0 hm0 hp0.1).2 e he
      have hd0 : (tm0.setAt : ℚ) + tm0.delay ≤ (s.2.now : ℚ) := by
        simpa [Timer.due] using hp0.2
      exact le_trans hle hd0
  · intro tm htm hcb
    have hm := hsub tm htm
    have hnd : ¬ (tm.cb == Callback.eventRelease && tm.due s.2.now) = true := by
      have := (List.mem_filter.1 htm).2
      revert this
      cases (tm.cb == Callback.eventRelease && tm.due s.2.now) <;> simp
    have hdue : s.2.timers.filter
        (fun tm => tm.cb == Callback.eventRelease && tm.due s.2.now) = [] := by
      by_contra hne
      obtain ⟨tm0, h0⟩ := List.exists_mem_of_ne_nil _ hne
      rw [List.mem_filter] at h0
      obtain ⟨hm0, hp0⟩ := h0
      simp only [Bool.and_eq_true, beq_iff_eq] at hp0
      have hR1 : tm ∈ s.2.timers.filter (fun t => t.cb == Callback.eventRelease) :=
        List.mem_filter.2 ⟨hm, by simp [hcb]⟩
      have hR0 : tm0 ∈ s.2.timers.filter (fun t => t.cb == Callback.eventRelease) :=
        List.mem_filter.2 ⟨hm0, by simp [hp0.1]⟩
      have heq : tm = tm0 := eq_of_length_le_one _ hF tm tm0 hR1 hR0
      rw [heq] at hnd
      exact hnd (by simp [hp0.1, hp0.2])
    have hq : (HauntedWeb.gateStep s GateStep.release).1.eventQueue = s.1.eventQueue := f2 hdue
    rw [hq]
    exact hE tm hm hcb
  · refine le_trans (List.Sublist.length_le (List.Sublist.filter _ ?_)) hF
    exact List.filter_sublist _

theorem gate_open_iff (q : EventQueue) (now : Nat) :
    q.canStartEvent now = true ↔
      (q.isEventActive = false ∧ q.lastEventTime + TIME.EVENT_COOLDOWN ≤ now) := by
  unfold EventQueue.canStartEvent TIME.EVENT_COOLDOWN
  cases q.isEventActive <;> simp
  omega

theorem gate_inv_tick (s : HauntedWeb × Host) (f : Family) (log : List (Nat × ℚ))
    (hinv : GateInv s log) :
    ∃ new : List (Nat × ℚ),
    s.2.startedSince (HauntedWeb.gateStep s (GateStep.tick f)).2 = new ∧
    GateInv (HauntedWeb.gateStep s (GateStep.tick f)) (log ++ new) ∧
    (∀ e0 ∈ log, ∀ e ∈ new, Separated e0 e) ∧ new.length ≤ 1 ∧
    (∀ e ∈ new, e.1 = s.2.now ∧ (e.2 = 8000 ∨ e.2 = 12000 ∨ e.2 = 4000)) := by
  obtain ⟨hA, hC', hC, hD, hE, hF⟩ := hinv
  obtain ⟨hnow, hout⟩ := tick_outcome s.1 s.2 f
  rw [show HauntedWeb.gateStep s (GateStep.tick f) = s.1.runCallback s.2 f.tick from rfl]
  rcases hout with ⟨hq, rest, ht, hrest, hnext⟩ | ⟨hcan, hq, d, rest, hd, ht, hrest, hnext⟩
  · refine ⟨[], ?_, ?_, by simp, by simp, by simp⟩
    · rw [startedSince_append _ _ rest hA ht,
        filter_rest_nil rest _ (fun tm htm => (hrest tm htm).1)]
      rfl
    · rw [List.append_nil]
      refine ⟨?_, ?_, ?_, ?_, ?_, ?_⟩
      · intro tm htm
        rw [ht] at htm
        rcases List.mem_append.1 htm with hm | hm
        · exact lt_of_lt_of_le (hA tm hm) hnext
        · exact (hrest tm hm).2
      · rw [hq,
          hnow]
        exact hC'
      · rw [hq]
        exact hC
      · rw [hq,
          hnow]
        exact hD
      · intro tm htm hcb
        rw [ht] at htm
        rw [hq]
        rcases List.mem_append.1 htm with hm | hm
        · exact hE tm hm hcb
        · exact absurd hcb (hrest tm hm).1
      · rw [ht,
          List.filter_append]
        have : rest.filter (fun t => t.cb == Callback.eventRelease) = [] := by
          rw [List.filter_eq_nil_iff]
          intro tm htm
          simp [(hrest tm htm).1]
        rw [this, List.append_nil]
        exact hF
  · have hcan' := (gate_open_iff s.1.eventQueue s.2.now).1 hcan
    obtain ⟨hact, hcool⟩ := hcan'
    have hnone : ∀ tm ∈ s.2.timers, tm.cb ≠ Callback.eventRelease := by
      intro tm htm hcb
      have := (hE tm htm hcb).1
      rw [hact] at this
      exact Bool.noConfusion this
    have hnew : s.2.startedSince (s.1.runCallback s.2 f.tick).2
        = [(s.2.now, (d : ℚ))] := by
      rw [startedSince_append _ _ _ hA ht, List.filter_cons]
      simp only [beq_self_eq_true, le_refl, decide_True, Bool.and_self, if_true]
      rw [filter_rest_nil rest _ (fun tm htm => (hrest tm htm).1)]
      rfl
    have hdq : (d : ℚ) = 8000 ∨ (d : ℚ) = 12000 ∨ (d : ℚ) = 4000 := by
      rcases hd with rfl | rfl | rfl
      · exact Or.inl (by norm_num)
      · exact Or.inr (Or.inl (by norm_num))
      · exact Or.inr (Or.inr (by norm_num))
    have hd0 : (0 : ℚ) ≤ (d : ℚ) := Nat.cast_nonneg d
    refine ⟨[(s.2.now, (d : ℚ))], hnew, ?_, ?_, by simp, ?_⟩
    · refine ⟨?_, ?_, ?_, ?_, ?_, ?_⟩
      · intro tm htm
        rw [ht] at htm
        rcases List.mem_append.1 htm with hm | hm
        · exact lt_trans (hA tm hm) hnext
        · rcases List.mem_cons.1 hm with rfl | hm
          · exact hnext
          · exact (hrest tm hm).2
      · rw [hq,
          hnow]
      · rw [hq]
        intro e he
        rcases List.mem_append.1 he with hm | hm
        · exact le_trans (hC e hm) hC'
        · rw [List.mem_singleton.1 hm]
      · rw [hq]
        intro hc
        exact Bool.noConfusion hc
      · intro tm htm hcb
        rw [ht] at htm
        rw [hq]
        refine ⟨rfl, ?_⟩
        have htm0 : tm = Timer.mk s.2.nextTimer s.2.now (d : ℚ) Callback.eventRelease := by
          rcases List.mem_append.1 htm with hm | hm
          · exact absurd hcb (hnone tm hm)
          · rcases List.mem_cons.1 hm with rfl | hm
            · rfl
            · exact absurd hcb (hrest tm hm).1
        rw [htm0]
        intro e he
        rcases List.mem_append.1 he with hm | hm
        · have := hD hact e hm
          show (e.1 : ℚ) + e.2 ≤ (s.2.now : ℚ) + (d : ℚ)
          linarith
        · rw [List.mem_singleton.1 hm]
      · rw [ht,
          List.filter_append, List.filter_cons]
        have h1 : s.2.timers.filter (fun t => t.cb == Callback.eventRelease) = [] := by
          rw [List.filter_eq_nil_iff]
          intro tm htm
          simp [hnone tm htm]
        have h2 : rest.filter (fun t => t.cb == Callback.eventRelease) = [] := by
          rw [List.filter_eq_nil_iff]
          intro tm htm
          simp [(hrest tm htm).1]
        simp [h1, h2]
    · intro e0 he0 e he
      rw [List.mem_singleton.1 he]
      exact ⟨hD hact e0 he0, le_trans (Nat.add_le_add_right (hC e0 he0) _) hcool⟩
    · intro e he
      rw [List.mem_singleton.1 he]
      exact ⟨rfl, hdq⟩

theorem gate_inv_step (s : HauntedWeb × Host) (a : GateStep) (log : List (Nat × ℚ))
    (hinv : GateInv s log) :
    GateInv (HauntedWeb.gateStep s a) (log ++ s.2.startedSince (HauntedWeb.gateStep s a).2) ∧
    (∀ e0 ∈ log, ∀ e ∈ s.2.startedSince (HauntedWeb.gateStep s a).2, Separated e0 e) ∧
    (s.2.startedSince (HauntedWeb.gateStep s a).2).length ≤ 1 ∧
    (∀ e ∈ s.2.startedSince (HauntedWeb.gateStep s a).2,
      e.2 = 8000 ∨ e.2 = 12000 ∨ e.2 = 4000) := by
  cases a with
  | advance t =>
    obtain ⟨e1, e2⟩ := gate_inv_advance s t log hinv
    rw [e1, List.append_nil]
    exact ⟨e2, by simp, by simp, by simp⟩
  | release =>
    obtain ⟨e1, e2⟩ := gate_inv_release s log hinv
    rw [e1, List.append_nil]
    exact ⟨e2, by simp, by simp, by simp⟩
  | tick f =>
    obtain ⟨new, e1, e2, e3, e4, e5⟩ := gate_inv_tick s f log hinv
    rw [e1]
    exact ⟨e2, e3, e4, fun e he => (e5 e he).2⟩
  | configure st =>
    obtain ⟨e1, e2⟩ := gate_inv_configure s st log hinv
    rw [e1, List.append_nil]
    exact ⟨e2, by simp, by simp, by simp⟩

theorem pairwise_short (l : List (Nat × ℚ)) (hl : l.length ≤ 1) : l.Pairwise Separated := by
  match l, hl with
  | [], _ => exact List.Pairwise.nil
  | [x], _ => exact List.pairwise_singleton _ _
  | _ :: _ :: _, hlen =>
    simp only [List.length_cons] at hlen
    omega

theorem gate_events_separated (steps : List GateStep) (s : HauntedWeb × Host)
    (log : List (Nat × ℚ)) (hinv : GateInv s log) (hp : log.Pairwise Separated) :
    (log ++ HauntedWeb.gateEvents s steps).Pairwise Separated ∧
    ∀ e ∈ HauntedWeb.gateEvents s steps, e.2 = 8000 ∨ e.2 = 12000 ∨ e.2 = 4000 := by
  induction steps generalizing s log with
  | nil =>
    simp only [HauntedWeb.gateEvents, List.append_nil]
    exact ⟨hp, by simp⟩
  | cons a steps ih =>
    obtain ⟨i1, i2, i3, i4⟩ := gate_inv_step s a log hinv
    have hp' : (log ++ s.2.startedSince (HauntedWeb.gateStep s a).2).Pairwise Separated :=
      List.pairwise_append.2 ⟨hp, pairwise_short _ i3, i2⟩
    obtain ⟨j1, j2⟩ := ih (HauntedWeb.gateStep s a) _ i1 hp'
    simp only [HauntedWeb.gateEvents]
    rw [← List.append_assoc]
    refine ⟨j1, fun e he => ?_⟩
    rcases List.mem_append.1 he with hm | hm
    · exact i4 e hm
    · exact j2 e hm

/-- C1. Mutual exclusion of major events. Start from a fresh event queue and a
host with no pending release timer (and whose pending timers carry handles
already issued), and let the clock advance, due release
closures run (possibly late), the schedulers receive settings, and ghost,
spider and corruption ticks run in any order and at any times; there is no
`reset()`. Then the events started (each `startEvent` call, read off the
release timer it registers) have durations 8000, 12000 or 4000, and any two of
them, `e1` started before `e2`, satisfy `start(e2) >= start(e1) + duration(e1)`
and `start(e2) - start(e1) >= 2000`: no two are in their active windows at the
same time. -/
theorem C1_mutual_exclusion (hw : HauntedWeb) (h : Host) (steps : List GateStep)
    (hq : hw.eventQueue = EventQueue.new)
    (hfresh : ∀ tm ∈ h.timers, tm.cb ≠ Callback.eventRelease ∧ tm.id < h.nextTimer) :
    (HauntedWeb.gateEvents (hw, h) steps).Pairwise Separated ∧
    (∀ e ∈ HauntedWeb.gateEvents (hw, h) steps, e.2 = 8000 ∨ e.2 = 12000 ∨ e.2 = 4000) := by
  have hinv : GateInv (hw, h) [] := by
    refine ⟨fun tm htm => (hfresh tm htm).2, ?_, by simp, by simp, ?_, ?_⟩
    · show hw.eventQueue.lastEventTime ≤ h.now
      rw [hq]
      exact Nat.zero_le _
    · intro tm htm hcb
      exact absurd hcb (hfresh tm htm).1
    · have : h.timers.filter (fun t => t.cb == Callback.eventRelease) = [] := by
        rw [List.filter_eq_nil_iff]
        intro tm htm
        simp [(hfresh tm htm).1]
      show (h.timers.filter (fun t => t.cb == Callback.eventRelease)).length ≤ 1
      rw [this]
      exact Nat.zero_le _
  have := gate_events_separated steps (hw, h) [] hinv List.Pairwise.nil
  simpa using this

/-- On the freshly constructed orchestrator the ghost tick at clock 5000 fires
and its event is read off the timer table. -/
theorem scenario_first_event :
    (HauntedWeb.gateEvents (HauntedWeb.construct DEFAULTS, Host.fresh 5000 0)
      Scenario.gateSteps).head? = some (5000, 8000) := by
  have hf : (HauntedWeb.construct DEFAULTS).ghostManager.tickFires
      (HauntedWeb.construct DEFAULTS).eventQueue (Host.fresh 5000 0) = true := by
    decide
  obtain ⟨_, _, _, _, _, e7⟩ := GhostManager_tick_fires _ _ _ hf
  have hs := startedSince_append (Host.fresh 5000 0)
    ((HauntedWeb.construct DEFAULTS).runCallback (Host.fresh 5000 0) Callback.ghostTick).2 _
    (by simp [Host.fresh]) e7
  simp only [Scenario.gateSteps, HauntedWeb.gateEvents, HauntedWeb.gateStep, Family.tick, hs]
  simp [List.filter_cons, Host.fresh]

/-- Witness of C1: the scenario of a ghost tick, a release, a spider tick and a
corruption tick on the orchestrator constructed from the default settings. -/
theorem C1_mutual_exclusion_witness :
    (HauntedWeb.gateEvents (HauntedWeb.construct DEFAULTS, Host.fresh 5000 0)
      Scenario.gateSteps).Pairwise Separated ∧
    (HauntedWeb.gateEvents (HauntedWeb.construct DEFAULTS, Host.fresh 5000 0)
      Scenario.gateSteps).head? = some (5000, 8000) :=
  ⟨(C1_mutual_exclusion (HauntedWeb.construct DEFAULTS) (Host.fresh 5000 0) Scenario.gateSteps
      rfl (by simp [Host.fresh])).1, scenario_first_event⟩

/-! ## Timers that `stop()` does not know -/

/-- What `init()` yields on a page that is not disabled, for a user who does
not ask for reduced motion, when the fetched settings have `enabled`. -/
theorem init_booted (st : Settings) (h : Host) (hd : HauntedWeb.shouldDisable st h = false)
    (hm : prefersReducedMotion h = false) (he : st.enabled = true) :
    HauntedWeb.init st h = some (Scenario.booted st h) := by
  unfold HauntedWeb.init
  rw [hd]
  simp only [hm, he, Bool.false_eq_true, if_false, if_true]
  rfl

/-- `stop()` of the spider manager leaves every pending creation closure of
`spawnSpider()` in the timer table, unless its handle happens to be in the
manager's list; `spawnSpider()` does not record these handles. -/
theorem stop_keeps_creations (m : SpiderManager) (h : Host)
    (hrec : ∀ tm ∈ h.timers, tm.cb = Callback.spiderCreate → tm.id ∉ m.timers) :
    (m.stop h).2.pending Callback.spiderCreate = h.pending Callback.spiderCreate := by
  rw [Host_pending_def, Host_pending_def, (SpiderManager_stop_host m h).1, List.filter_filter]
  congr 1
  apply List.filter_congr
  intro tm htm
  by_cases hc : tm.cb = Callback.spiderCreate
  · have := hrec tm htm hc
    simp [hc, this]
  · simp [hc]

/-- The creation closure adds a spider in whatever state it finds the manager. -/
theorem create_adds (m : SpiderManager) (h : Host) :
    (m.create h).1.spiders.length = m.spiders.length + 1 ∧
    (m.create h).1.timers = m.timers := by
  simp [SpiderManager.create]

/-- C11, evaluated on the code. A spider manager with the default settings is
started at clock 5000 with every draw 0; its tick (handle 1, due at 38000)
fires and `spawnSpider()` registers two creations, after 0 and 500 ms (handles
3 and 4), of which only the tick handles 1 and 5 are recorded; the first
creation runs; `stop()` at 38200 empties the timer list and the spider list
and the document, but the creation with handle 4 and the bookkeeping timer of
the first spider are still pending; at 38500 the creation runs and there is a
live spider and a `haunted-` element again, with no `start()` in between.
Likewise the bookkeeping timer of a spawned ghost is still pending after
`GhostManager.stop()`. The same through the orchestrator, initialized at clock
5000 with only the spider family switched on, its timers running in the order
of their due times: when the first spider of the cluster is on the page the
panic button is pressed (at 38200), which leaves `enabled` false, no spider, no
recorded handle and no `haunted-` element, and one creation pending; at 38500
that creation puts a spider on the page of the disabled orchestrator. -/
theorem C11_creation_after_stop :
    Scenario.spiderStarted.2.timers = [Timer.mk 1 5000 33000 Callback.spiderTick] ∧
    Scenario.spiderTicked.1.timers = [1, 5] ∧
    Scenario.spiderTicked.2.2.timers =
      [Timer.mk 2 38000 12000 Callback.eventRelease,
       Timer.mk 3 38000 0 Callback.spiderCreate,
       Timer.mk 4 38000 500 Callback.spiderCreate,
       Timer.mk 5 38000 33000 Callback.spiderTick] ∧
    Scenario.spiderFirst.1.spiders.length = 1 ∧
    Scenario.spiderStopped.1.timers = [] ∧
    Scenario.spiderStopped.1.spiders = [] ∧
    Scenario.spiderStopped.2.body = Dom.nil ∧
    Scenario.spiderStopped.2.timers =
      [Timer.mk 2 38000 12000 Callback.eventRelease,
       Timer.mk 4 38000 500 Callback.spiderCreate,
       Timer.mk 6 38000 20000 (Callback.spiderForget 1)] ∧
    Scenario.spiderLate.1.timers = [] ∧
    Scenario.spiderLate.1.spiders.length = 1 ∧
    Scenario.spiderLate.2.body.count hasHauntedClass = 1 ∧
    Scenario.ghostStopped.1.timers = [] ∧
    Scenario.ghostStopped.2.pending (Callback.ghostForget 1) = 1 ∧
    HauntedWeb.init Scenario.onlySpiders (Host.fresh 5000 0) =
      some (Scenario.booted Scenario.onlySpiders (Host.fresh 5000 0)) ∧
    Scenario.clusterSpawned.map Scenario.glance = some (true, 1, [1, 20], 1, 1) ∧
    Scenario.clusterPanicked.map Scenario.glance = some (false, 0, [], 0, 1) ∧
    Scenario.clusterLate.map Scenario.glance = some (false, 1, [], 1, 0) := by
  refine ⟨?_, ?_, ?_, ?_, ?_, ?_, ?_, ?_, ?_, ?_, ?_, ?_, ?_,
    init_booted _ _ (by decide) rfl rfl, ?_, ?_, ?_⟩ <;> decide!

/-! ## The Intensity Controller -/

theorem start_timeOnPage (hw : HauntedWeb) (h : Host) :
    (hw.start h).1.timeOnPage = hw.timeOnPage := by
  unfold HauntedWeb.start
  split_ifs <;> rfl

theorem updateFromSettings_timeOnPage (hw : HauntedWeb) (h : Host) :
    (hw.updateFromSettings h).1.timeOnPage = hw.timeOnPage := by
  unfold HauntedWeb.updateFromSettings
  dsimp only
  split_ifs <;> first | rfl | exact start_timeOnPage _ _

theorem setEnabled_timeOnPage (hw : HauntedWeb) (b : Bool) :
    (hw.setEnabled b).timeOnPage = hw.timeOnPage := by
  unfold HauntedWeb.setEnabled
  dsimp only
  split_ifs <;> rfl

theorem onMessage_timeOnPage (hw : HauntedWeb) (req : Request) (h : Host) :
    (hw.onMessage req h).1.timeOnPage = hw.timeOnPage := by
  unfold HauntedWeb.onMessage
  split_ifs
  · exact updateFromSettings_timeOnPage _ _
  · rfl
  · exact (start_timeOnPage _ _).trans (setEnabled_timeOnPage _ _)
  · exact setEnabled_timeOnPage _ _
  · rfl

theorem runCallback_timeOnPage (hw : HauntedWeb) (h : Host) (cb : Callback) :
    (hw.runCallback h cb).1.timeOnPage = hw.timeOnPage := by
  cases cb <;> rfl

theorem fire_timeOnPage (hw : HauntedWeb) (h : Host) (id : Nat) :
    (hw.fire h id).1.timeOnPage = hw.timeOnPage := by
  unfold HauntedWeb.fire
  split
  · rfl
  · split_ifs
    · exact runCallback_timeOnPage _ _ _
    · rfl

theorem safetyTick_timeOnPage (hw : HauntedWeb) (h : Host) :
    (hw.safetyTick h).1.timeOnPage = hw.timeOnPage := by
  unfold HauntedWeb.safetyTick
  split_ifs <;> first | rfl | exact start_timeOnPage _ _

theorem onFirstInteraction_timeOnPage (hw : HauntedWeb) (h : Host) :
    (hw.onFirstInteraction h).timeOnPage = hw.timeOnPage := by
  unfold HauntedWeb.onFirstInteraction
  dsimp only
  split_ifs <;> rfl

/-- One tick of the Intensity Controller, enabled or not. -/
theorem intensityTick_spec (hw : HauntedWeb) (h : Host) :
    (hw.intensityTick h).1.timeOnPage = hw.timeOnPage + 60000 ∧
    (hw.intensityTick h).1.settings = hw.settings ∧
    (hw.intensityTick h).1.intensity =
      hw.settings.intensity * HauntedWeb.intensityScale (hw.timeOnPage + 60000) := by
  unfold HauntedWeb.intensityTick
  dsimp only
  split_ifs
  · exact ⟨rfl, rfl, rfl⟩
  · exact ⟨rfl, rfl, rfl⟩

/-- Only the Intensity Controller advances `timeOnPage`. -/
theorem run_timeOnPage (steps : List Step) (s : HauntedWeb × Host) :
    (HauntedWeb.run s steps).1.timeOnPage = s.1.timeOnPage + 60000 * Step.ticks steps := by
  induction steps generalizing s with
  | nil => rfl
  | cons a rest ih =>
    have hr : HauntedWeb.run s (a :: rest) = HauntedWeb.run (HauntedWeb.step s a) rest := rfl
    rw [hr, ih]
    cases a with
    | safety =>
      show (s.1.safetyTick s.2).1.timeOnPage + _ = _
      rw [safetyTick_timeOnPage]
      rfl
    | intensity =>
      show (s.1.intensityTick s.2).1.timeOnPage + _ = _
      rw [(intensityTick_spec _ _).1]
      simp only [Step.ticks]
      omega
    | message req =>
      show (s.1.onMessage req s.2).1.timeOnPage + _ = _
      rw [onMessage_timeOnPage]
      rfl
    | interaction =>
      show (s.1.onFirstInteraction s.2).timeOnPage + _ = _
      rw [onFirstInteraction_timeOnPage]
      rfl
    | fire id =>
      show (s.1.fire s.2 id).1.timeOnPage + _ = _
      rw [fire_timeOnPage]
      rfl
    | page w => rfl

theorem init_timeOnPage (fetched : Settings) (h : Host) (s : HauntedWeb × Host)
    (hinit : HauntedWeb.init fetched h = some s) : s.1.timeOnPage = 0 := by
  unfold HauntedWeb.init at hinit
  split_ifs at hinit
  all_goals
    simp only [Option.some.injEq] at hinit
    rw [← hinit]
    dsimp only
    split_ifs <;> rfl

theorem intensityScale_mono (t t' : Nat) (htt : t ≤ t') :
    HauntedWeb.intensityScale t ≤ HauntedWeb.intensityScale t' := by
  unfold HauntedWeb.intensityScale
  have : (t : ℚ) / 300000 ≤ (t' : ℚ) / 300000 := by
    apply div_le_div_of_nonneg_right _ (by norm_num)
    exact_mod_cast htt
  exact add_le_add_left (min_le_min this le_rfl) 1

theorem intensityScale_range (t : Nat) :
    1 ≤ HauntedWeb.intensityScale t ∧ HauntedWeb.intensityScale t ≤ 2 := by
  unfold HauntedWeb.intensityScale
  have h0 : (0 : ℚ) ≤ (t : ℚ) / 300000 := by positivity
  constructor
  · have : (0 : ℚ) ≤ Min.min ((t : ℚ) / 300000) 1 := le_min h0 (by norm_num)
    linarith
  · have : Min.min ((t : ℚ) / 300000) 1 ≤ 1 := min_le_right _ _
    linarith

theorem intensityScale_full (t : Nat) (ht : 300000 ≤ t) : HauntedWeb.intensityScale t = 2 := by
  unfold HauntedWeb.intensityScale
  have : (1 : ℚ) ≤ (t : ℚ) / 300000 := by
    rw [le_div_iff₀ (by norm_num)]
    exact_mod_cast (by omega : 1 * 300000 ≤ t)
  rw [min_eq_right this]
  norm_num

/-- C12. The scale `1 + min(t / 300000, 1)` is 1 at 0 and 2 at 300000 and at
600000, does not decrease with `t` and lies in `[1, 2]`. After `init()` and any
steps among which the Intensity Controller ran `k - 1` times, its `k`-th tick
leaves `timeOnPage = 60000 * k` and `intensity = settings.intensity *
scale(60000 * k)`, which is `2 * settings.intensity` as soon as `k >= 5`. -/
theorem C12_intensity_ramp (fetched : Settings) (h : Host) (s : HauntedWeb × Host)
    (hinit : HauntedWeb.init fetched h = some s) (steps : List Step) :
    (HauntedWeb.intensityScale 0 = 1 ∧ HauntedWeb.intensityScale 300000 = 2 ∧
      HauntedWeb.intensityScale 600000 = 2) ∧
    (∀ t t' : Nat, t ≤ t' → HauntedWeb.intensityScale t ≤ HauntedWeb.intensityScale t') ∧
    (∀ t : Nat, 1 ≤ HauntedWeb.intensityScale t ∧ HauntedWeb.intensityScale t ≤ 2) ∧
    (HauntedWeb.run s (steps ++ [Step.intensity])).1.timeOnPage =
      60000 * (Step.ticks steps + 1) ∧
    (HauntedWeb.run s (steps ++ [Step.intensity])).1.intensity =
      (HauntedWeb.run s (steps ++ [Step.intensity])).1.settings.intensity *
        HauntedWeb.intensityScale (60000 * (Step.ticks steps + 1)) ∧
    (5 ≤ Step.ticks steps + 1 →
      (HauntedWeb.run s (steps ++ [Step.intensity])).1.intensity =
        2 * (HauntedWeb.run s (steps ++ [Step.intensity])).1.settings.intensity) := by
  have hrun : HauntedWeb.run s (steps ++ [Step.intensity]) =
      (HauntedWeb.run s steps).1.intensityTick (HauntedWeb.run s steps).2 := by
    simp [HauntedWeb.run, HauntedWeb.step]
  have ht : (HauntedWeb.run s steps).1.timeOnPage + 60000 = 60000 * (Step.ticks steps + 1) := by
    rw [run_timeOnPage, init_timeOnPage fetched h s hinit]
    omega
  obtain ⟨e1, e2, e3⟩ := intensityTick_spec (HauntedWeb.run s steps).1 (HauntedWeb.run s steps).2
  rw [ht] at e1 e3
  refine ⟨⟨by norm_num [HauntedWeb.intensityScale], intensityScale_full _ le_rfl,
    intensityScale_full _ (by norm_num)⟩, intensityScale_mono, intensityScale_range, ?_, ?_, ?_⟩
  · rw [hrun, e1]
  · rw [hrun, e3, e2]
  · intro hk
    rw [hrun, e3, e2, intensityScale_full _ (by omega)]
    ring

/-- Witness of C12: on the orchestrator initialized from the default settings,
a Safety Monitor tick and four ticks of the Intensity Controller, then the
fifth. -/
theorem C12_intensity_ramp_witness :
    (HauntedWeb.run Scenario.initialized
      ([Step.intensity, Step.safety, Step.intensity, Step.intensity, Step.intensity] ++
        [Step.intensity])).1.timeOnPage = 300000 ∧
    (HauntedWeb.run Scenario.initialized
      ([Step.intensity, Step.safety, Step.intensity, Step.intensity, Step.intensity] ++
        [Step.intensity])).1.intensity =
      2 * (HauntedWeb.run Scenario.initialized
        ([Step.intensity, Step.safety, Step.intensity, Step.intensity, Step.intensity] ++
          [Step.intensity])).1.settings.intensity :=
  have w := C12_intensity_ramp DEFAULTS (Host.fresh 1000 0) Scenario.initialized
    (init_booted DEFAULTS (Host.fresh 1000 0) (by decide) rfl rfl)
    [Step.intensity, Step.safety, Step.intensity, Step.intensity, Step.intensity]
  ⟨w.2.2.2.1, w.2.2.2.2.2 (by decide)⟩

/-! ## The snapshots handed to the schedulers -/

theorem env_start_settings (m : EnvironmentManager) (h : Host) :
    (m.start h).1.settings = m.settings := by
  unfold EnvironmentManager.start
  simp only [EnvironmentManager.shadowSchedule, EnvironmentManager.glitchSchedule,
    EnvironmentManager.bloodSchedule, EnvironmentManager.flickerSchedule]
  split_ifs
  · exact (startFog_timers m h).2.2.2.2
  · rfl

/-- After `start()` on an enabled orchestrator the four managers hold the
snapshot `boosted`, and `this.settings` is the object it was. -/
theorem start_snapshot (hw : HauntedWeb) (h : Host) (he : hw.enabled = true) :
    (hw.start h).1.ghostManager.settings = HauntedWeb.boosted hw.settings h ∧
    (hw.start h).1.spiderManager.settings = HauntedWeb.boosted hw.settings h ∧
    (hw.start h).1.corruptionManager.settings = HauntedWeb.boosted hw.settings h ∧
    (hw.start h).1.environmentManager.settings = HauntedWeb.boosted hw.settings h ∧
    (hw.start h).1.settings = hw.settings := by
  simp only [HauntedWeb.start, he, Bool.not_true, Bool.false_eq_true, if_false]
  refine ⟨?_, ?_, ?_, ?_, rfl⟩
  · dsimp only
    split_ifs <;> rfl
  · dsimp only
    split_ifs <;> rfl
  · dsimp only
    split_ifs <;> rfl
  · dsimp only
    rw [env_start_settings]
    exact (env_updateSettings_timers _ _ _).2.2.2.2

/-- After an Intensity Controller tick on an enabled orchestrator the four
managers hold `this.settings` with the scaled intensity. -/
theorem intensityTick_snapshot (hw : HauntedWeb) (h : Host) (he : hw.enabled = true) :
    (hw.intensityTick h).1.schedulersHold
      { hw.settings with intensity :=
          hw.settings.intensity * HauntedWeb.intensityScale (hw.timeOnPage + 60000) } := by
  simp only [HauntedWeb.intensityTick, he, if_true]
  exact ⟨rfl, rfl, rfl, (env_updateSettings_timers _ _ _).2.2.2.2⟩

/-- When `updateFromSettings()` finds the orchestrator enabled and
`settings.enabled` true, the four managers receive `this.settings`. -/
theorem updateFromSettings_snapshot (hw : HauntedWeb) (h : Host) (he : hw.enabled = true)
    (hs : hw.settings.enabled = true) :
    (hw.updateFromSettings h).1.schedulersHold hw.settings := by
  simp only [HauntedWeb.updateFromSettings, he, hs]
  simp only [Bool.not_true, Bool.and_false, Bool.false_eq_true, if_false, if_true,
    Bool.and_true]
  exact ⟨rfl, rfl, rfl, (env_updateSettings_timers _ _ _).2.2.2.2⟩

/-- C13, evaluated on the code. The orchestrator is initialized from the
default settings (`nightModeAggression` true) at ten in the evening: after
`start()` the schedulers hold the frequencies 0.45, 0.3 and 0.6, and after one
tick of the Intensity Controller they hold 0.3, 0.2 and 0.4. -/
theorem C13_tick_drops_night_boost :
    HauntedWeb.init DEFAULTS Scenario.nightHost =
      some (Scenario.booted DEFAULTS Scenario.nightHost) ∧
    (Scenario.booted DEFAULTS Scenario.nightHost).1.enabled = true ∧
    (Scenario.booted DEFAULTS Scenario.nightHost).1.ghostManager.settings.ghostFrequency
      = 9 / 20 ∧
    (Scenario.booted DEFAULTS Scenario.nightHost).1.spiderManager.settings.spiderFrequency
      = 3 / 10 ∧
    (Scenario.booted DEFAULTS
      Scenario.nightHost).1.corruptionManager.settings.distortionFrequency = 3 / 5 ∧
    ((Scenario.booted DEFAULTS Scenario.nightHost).1.intensityTick
      (Scenario.booted DEFAULTS Scenario.nightHost).2).1.ghostManager.settings.ghostFrequency
      = 3 / 10 ∧
    ((Scenario.booted DEFAULTS Scenario.nightHost).1.intensityTick
      (Scenario.booted DEFAULTS Scenario.nightHost).2).1.spiderManager.settings.spiderFrequency
      = 1 / 5 ∧
    ((Scenario.booted DEFAULTS Scenario.nightHost).1.intensityTick
      (Scenario.booted DEFAULTS
        Scenario.nightHost).2).1.corruptionManager.settings.distortionFrequency = 2 / 5 := by
  refine ⟨init_booted _ _ (by decide) rfl rfl, ?_⟩
  decide!

/-- C14. The snapshot `boosted` of `start()` has each of the three frequencies
equal to `min(f * 1.5, 1)` when `nightModeAggression` is true and the hour is
at least 19 or below 6, and to `min(f, 1)` otherwise; its other fields are
those of the orchestrator's settings; `start()` on an enabled orchestrator
leaves this snapshot in the four managers; and `start()` leaves the
orchestrator's own settings as they were. -/
theorem C14_night_boost (hw : HauntedWeb) (h : Host) :
    ((hw.settings.nightModeAggression = true ∧ (h.hour ≥ 19 ∨ h.hour < 6)) →
      (HauntedWeb.boosted hw.settings h).ghostFrequency =
        Min.min (hw.settings.ghostFrequency * (3 / 2)) 1 ∧
      (HauntedWeb.boosted hw.settings h).spiderFrequency =
        Min.min (hw.settings.spiderFrequency * (3 / 2)) 1 ∧
      (HauntedWeb.boosted hw.settings h).distortionFrequency =
        Min.min (hw.settings.distortionFrequency * (3 / 2)) 1) ∧
    (¬ (hw.settings.nightModeAggression = true ∧ (h.hour ≥ 19 ∨ h.hour < 6)) →
      (HauntedWeb.boosted hw.settings h).ghostFrequency = Min.min hw.settings.ghostFrequency 1 ∧
      (HauntedWeb.boosted hw.settings h).spiderFrequency =
        Min.min hw.settings.spiderFrequency 1 ∧
      (HauntedWeb.boosted hw.settings h).distortionFrequency =
        Min.min hw.settings.distortionFrequency 1) ∧
    ({ HauntedWeb.boosted hw.settings h with
        ghostFrequency := hw.settings.ghostFrequency
        spiderFrequency := hw.settings.spiderFrequency
        distortionFrequency := hw.settings.distortionFrequency } = hw.settings) ∧
    (hw.enabled = true → (hw.start h).1.schedulersHold (HauntedWeb.boosted hw.settings h)) ∧
    (hw.start h).1.settings = hw.settings := by
  refine ⟨?_, ?_, rfl, ?_, ?_⟩
  · rintro ⟨hn, hh⟩
    have : (hw.settings.nightModeAggression && isNightTime h) = true := by
      simp [isNightTime, hn, hh]
    simp [HauntedWeb.boosted, this]
  · intro hno
    have : (hw.settings.nightModeAggression && isNightTime h) = false := by
      rw [Bool.eq_false_iff]
      intro hc
      apply hno
      simpa [isNightTime] using hc
    simp [HauntedWeb.boosted, this]
  · intro he
    obtain ⟨e1, e2, e3, e4, _⟩ := start_snapshot hw h he
    exact ⟨e1, e2, e3, e4⟩
  · cases he : hw.enabled
    · rw [start_disabled hw h he]
    · exact (start_snapshot hw h he).2.2.2.2

theorem boost_in_unit (f b : ℚ) (hf : 0 ≤ f) (hb : 0 ≤ b) :
    0 ≤ Min.min (f * b) 1 ∧ Min.min (f * b) 1 ≤ 1 :=
  ⟨le_min (mul_nonneg hf hb) (by norm_num), min_le_right _ _⟩

theorem boosted_in_unit (s : Settings) (h : Host) (hf : s.frequenciesInUnit) :
    (HauntedWeb.boosted s h).frequenciesInUnit ∧
    (HauntedWeb.boosted s h).intensity = s.intensity := by
  obtain ⟨⟨g0, _⟩, ⟨s0, _⟩, ⟨d0, _⟩⟩ := hf
  have hb : (0 : ℚ) ≤ if (s.nightModeAggression && isNightTime h) = true then 3 / 2 else 1 := by
    split_ifs <;> norm_num
  exact ⟨⟨boost_in_unit _ _ g0 hb, boost_in_unit _ _ s0 hb, boost_in_unit _ _ d0 hb⟩, rfl⟩

/-- C15 as stated fails. With the stored intensity 0.9, inside `[0, 1]`, one
tick of the Intensity Controller hands the schedulers a snapshot with
intensity 1.08; and a stored ghost frequency of 2, received in an
`UPDATE_SETTINGS` message, is handed on as it is. -/
theorem C15_intensity_exceeds_one :
    (0 ≤ Scenario.loud.intensity ∧ Scenario.loud.intensity ≤ 1) ∧
    HauntedWeb.init Scenario.loud (Host.fresh 1000 0) =
      some (Scenario.booted Scenario.loud (Host.fresh 1000 0)) ∧
    ((Scenario.booted Scenario.loud (Host.fresh 1000 0)).1.intensityTick
      (Scenario.booted Scenario.loud (Host.fresh 1000 0)).2).1.ghostManager.settings.intensity
      = 27 / 25 ∧
    ¬ ((Scenario.booted Scenario.loud (Host.fresh 1000 0)).1.intensityTick
      (Scenario.booted Scenario.loud (Host.fresh 1000 0)).2).1.ghostManager.settings.intensity
      ≤ 1 ∧
    ((Scenario.booted DEFAULTS (Host.fresh 1000 0)).1.onMessage
      { type := MSG.UPDATE_SETTINGS, settings := Scenario.wild }
      (Scenario.booted DEFAULTS (Host.fresh 1000 0)).2).1.ghostManager.settings.ghostFrequency
      = 2 := by
  refine ⟨by decide!, init_booted _ _ (by decide) rfl rfl, ?_⟩
  decide!

/-- C15, amended. On an enabled orchestrator whose stored intensity and
frequencies lie in `[0, 1]`: the snapshot `start()` hands to the four managers
(`boosted`) has its frequencies and intensity in `[0, 1]`; the snapshot of an
Intensity Controller tick is the stored settings, whose frequencies lie in
`[0, 1]`, with the intensity `settings.intensity * scale`, which lies in
`[0, 2]`; and the snapshot of `updateFromSettings()`, handed when
`settings.enabled` holds, is the stored settings, with frequencies and
intensity in `[0, 1]`. -/
theorem C15_snapshot_bounds (hw : HauntedWeb) (h : Host) (he : hw.enabled = true)
    (hi : 0 ≤ hw.settings.intensity ∧ hw.settings.intensity ≤ 1)
    (hf : hw.settings.frequenciesInUnit) :
    ((hw.start h).1.schedulersHold (HauntedWeb.boosted hw.settings h) ∧
      (HauntedWeb.boosted hw.settings h).frequenciesInUnit ∧
      0 ≤ (HauntedWeb.boosted hw.settings h).intensity ∧
      (HauntedWeb.boosted hw.settings h).intensity ≤ 1) ∧
    ((hw.intensityTick h).1.schedulersHold
        { hw.settings with intensity :=
            hw.settings.intensity * HauntedWeb.intensityScale (hw.timeOnPage + 60000) } ∧
      Settings.frequenciesInUnit
        { hw.settings with intensity :=
            hw.settings.intensity * HauntedWeb.intensityScale (hw.timeOnPage + 60000) } ∧
      0 ≤ hw.settings.intensity * HauntedWeb.intensityScale (hw.timeOnPage + 60000) ∧
      hw.settings.intensity * HauntedWeb.intensityScale (hw.timeOnPage + 60000) ≤ 2) ∧
    (hw.settings.enabled = true → (hw.updateFromSettings h).1.schedulersHold hw.settings) := by
  refine ⟨⟨?_, (boosted_in_unit _ h hf).1, hi.1, hi.2⟩,
    ⟨intensityTick_snapshot hw h he, hf, ?_, ?_⟩,
    fun hs => updateFromSettings_snapshot hw h he hs⟩
  · obtain ⟨e1, e2, e3, e4, _⟩ := start_snapshot hw h he
    exact ⟨e1, e2, e3, e4⟩
  · exact mul_nonneg hi.1 (le_trans (by norm_num) (intensityScale_range _).1)
  · have h2 := (intensityScale_range (hw.timeOnPage + 60000)).2
    have h1 := (intensityScale_range (hw.timeOnPage + 60000)).1
    nlinarith [hi.1, hi.2]

/-- Witness of C15: the orchestrator constructed from the default settings,
whose first tick hands on the intensity 0.6. -/
theorem C15_snapshot_bounds_witness :
    ((HauntedWeb.construct DEFAULTS).intensityTick (Host.fresh 1000 0)).1.schedulersHold
      { DEFAULTS with intensity := DEFAULTS.intensity * HauntedWeb.intensityScale (0 + 60000) } ∧
    DEFAULTS.intensity * HauntedWeb.intensityScale (0 + 60000) ≤ 2 :=
  have w := (C15_snapshot_bounds (HauntedWeb.construct DEFAULTS) (Host.fresh 1000 0) rfl
    (by norm_num [DEFAULTS, HauntedWeb.construct])
    (by norm_num [DEFAULTS, HauntedWeb.construct, Settings.frequenciesInUnit])).2.1
  ⟨w.1, w.2.2.2⟩

/-! ## Pages on which `init()` does nothing -/

theorem init_none_iff (fetched : Settings) (h : Host) :
    HauntedWeb.init fetched h = none ↔ HauntedWeb.shouldDisable fetched h = true := by
  unfold HauntedWeb.init
  cases HauntedWeb.shouldDisable fetched h <;> simp

theorem shouldDisable_iff (settings : Settings) (h : Host) :
    HauntedWeb.shouldDisable settings h = true ↔
      ((settings.whitelist ≠ [] ∧
          ∃ site ∈ settings.whitelist, site.toList <:+: h.hostname.toList) ∨
        (∃ domain ∈ UNSAFE_DOMAINS, domain.toList <:+: (toLowerCase h.hostname).toList) ∨
        (h.passwordInput = true ∨ h.loginForm = true)) := by
  unfold HauntedWeb.shouldDisable isWhitelisted isUnsafeDomain includes HauntedWeb.isLoginPage
  by_cases hw : settings.whitelist = []
  · simp [hw]
  · have hl : settings.whitelist.length ≠ 0 := by
      simpa [List.length_eq_zero] using hw
    simp only [hl, if_false, hw, ne_eq, not_false_eq_true, true_and]
    simp only [List.any_eq_true, decide_eq_true_eq, Bool.or_eq_true]
    constructor
    · intro hx
      split_ifs at hx with h1 h2 h3
      · exact Or.inl h1
      · exact Or.inr (Or.inl h2)
      · exact Or.inr (Or.inr h3)
    · rintro (h1 | h2 | h3)
      · rw [if_pos h1]
      · split_ifs <;> rfl
      · split_ifs <;> rfl

/-- C16. `shouldDisable()` of the bundle returns true exactly when the
whitelist is non-empty and one of its entries is a substring of the hostname,
or an entry of `UNSAFE_DOMAINS` is a substring of the lower-cased hostname, or
the page is a login page (a password input, or a form whose action mentions
login or signin). Whenever it returns true `init()` returns early: the
orchestrator object has the fetched settings and nothing else, with no manager
constructed, `initialized` false, no listener or interval registered and the
host untouched (so no timer started). On the hostname `mybank-login.com` this
is so for every settings value. -/
theorem C16_shouldDisable (settings : Settings) (h : Host) :
    (HauntedWeb.shouldDisable settings h = true ↔
      ((settings.whitelist ≠ [] ∧
          ∃ site ∈ settings.whitelist, site.toList <:+: h.hostname.toList) ∨
        (∃ domain ∈ UNSAFE_DOMAINS, domain.toList <:+: (toLowerCase h.hostname).toList) ∨
        (h.passwordInput = true ∨ h.loginForm = true))) ∧
    (HauntedWeb.shouldDisable settings h = true →
      HauntedWeb.init settings h = none ∧
      Instance.new.init settings h =
        ({ settings := some settings, core := none, initialized := false, enabled := true,
           listening := false }, h)) ∧
    (h.hostname = "mybank-login.com" →
      HauntedWeb.shouldDisable settings h = true ∧
      (Instance.new.init settings h).1.core = none ∧
      (Instance.new.init settings h).1.initialized = false ∧
      (Instance.new.init settings h).1.listening = false ∧
      (Instance.new.init settings h).2 = h) := by
  have hin : HauntedWeb.shouldDisable settings h = true →
      HauntedWeb.init settings h = none ∧
      Instance.new.init settings h =
        ({ settings := some settings, core := none, initialized := false, enabled := true,
           listening := false }, h) := by
    intro hd
    have hn := (init_none_iff settings h).2 hd
    refine ⟨hn, ?_⟩
    simp [Instance.init, Instance.new, hn]
  refine ⟨shouldDisable_iff settings h, hin, ?_⟩
  intro hh
  have hd : HauntedWeb.shouldDisable settings h = true := by
    rw [shouldDisable_iff]
    refine Or.inr (Or.inl ⟨"bank", by decide, ?_⟩)
    rw [hh]
    decide
  obtain ⟨_, e⟩ := hin hd
  rw [e]
  exact ⟨hd, rfl, rfl, rfl, rfl⟩

/-- C17 as stated fails. With the blacklist entry `example`, a substring of
the hostname `example.org`, and nothing else that disables the page,
`shouldDisable()` returns false and `init()` starts the schedulers. -/
theorem C17_blacklist_match_runs :
    (∃ entry ∈ Scenario.blacklisted.blacklist,
      includes (Host.fresh 1000 0).hostname entry = true) ∧
    HauntedWeb.shouldDisable Scenario.blacklisted (Host.fresh 1000 0) = false ∧
    HauntedWeb.init Scenario.blacklisted (Host.fresh 1000 0) =
      some (Scenario.booted Scenario.blacklisted (Host.fresh 1000 0)) ∧
    (Scenario.booted Scenario.blacklisted (Host.fresh 1000 0)).1.enabled = true ∧
    (Scenario.booted Scenario.blacklisted (Host.fresh 1000 0)).1.ghostManager.timers = [1] ∧
    (Scenario.booted Scenario.blacklisted (Host.fresh 1000 0)).2.pending Callback.ghostTick
      = 1 ∧
    (Scenario.booted Scenario.blacklisted (Host.fresh 1000 0)).2.pending Callback.spiderTick
      = 1 := by
  refine ⟨⟨"example", by decide, by decide⟩, by decide,
    init_booted _ _ (by decide) rfl rfl, ?_⟩
  decide!

/-- C17, amended. The blacklist is not consulted: `shouldDisable()` and the
early return of `init()` are the same whatever the blacklist holds, and
`init()` leaves the orchestrator without managers exactly when the whitelist
is non-empty with an entry that is a substring of the hostname, or an entry of
`UNSAFE_DOMAINS` is a substring of the lower-cased hostname, or the page is a
login page. -/
theorem C17_blacklist_ignored (settings : Settings) (blacklist : List String) (h : Host) :
    HauntedWeb.shouldDisable { settings with blacklist := blacklist } h =
      HauntedWeb.shouldDisable settings h ∧
    (HauntedWeb.init { settings with blacklist := blacklist } h = none ↔
      HauntedWeb.init settings h = none) ∧
    ((Instance.new.init { settings with blacklist := blacklist } h).1.core = none ↔
      ((settings.whitelist ≠ [] ∧
          ∃ site ∈ settings.whitelist, site.toList <:+: h.hostname.toList) ∨
        (∃ domain ∈ UNSAFE_DOMAINS, domain.toList <:+: (toLowerCase h.hostname).toList) ∨
        (h.passwordInput = true ∨ h.loginForm = true))) := by
  have e : HauntedWeb.shouldDisable { settings with blacklist := blacklist } h =
      HauntedWeb.shouldDisable settings h := rfl
  refine ⟨e, by rw [init_none_iff, init_none_iff, e], ?_⟩
  rw [← shouldDisable_iff settings h, ← e, ← init_none_iff]
  unfold Instance.init
  simp only [Instance.new, Bool.false_eq_true, if_false]
  cases HauntedWeb.init { settings with blacklist := blacklist } h <;> simp

/-! ## The ambient drone -/

/-- C18, evaluated on the code. On the orchestrator initialized from the
default settings the first click starts the drone and the panic button stops
it; the settings update that follows (with `enabled` false and a new volume)
starts the drone again although `enabled` and `settings.enabled` are false.
Likewise the first click on an orchestrator that the Safety Monitor has
suspended starts the drone. -/
theorem C18_drone_while_inactive :
    HauntedWeb.init DEFAULTS (Host.fresh 1000 0) = some Scenario.initialized ∧
    (HauntedWeb.run Scenario.initialized [Step.interaction]).1.audio.droneOscillator = true ∧
    (HauntedWeb.run Scenario.initialized
      [Step.interaction, Step.message { type := MSG.PANIC }]).1.audio.droneOscillator = false ∧
    (HauntedWeb.run Scenario.initialized Scenario.droneSteps).1.enabled = false ∧
    (HauntedWeb.run Scenario.initialized Scenario.droneSteps).1.settings.enabled = false ∧
    (HauntedWeb.run Scenario.initialized Scenario.droneSteps).1.audio.droneOscillator = true ∧
    (HauntedWeb.run Scenario.suspended [Step.interaction]).1.enabled = false ∧
    (HauntedWeb.run Scenario.suspended [Step.interaction]).1.audio.droneOscillator = true := by
  refine ⟨init_booted _ _ (by decide) rfl rfl, ?_⟩
  decide!

/-! ## Messages and settings persistence -/

/-- C19. For a request whose type is none of `GET_SETTINGS`, `UPDATE_SETTINGS`,
`PANIC`, `ENABLE` and `DISABLE`, the service worker responds with `success`
false and the error `Unknown message type`, leaves the storage as it was and
sends nothing to any tab; and the listener of the content script leaves the
orchestrator and the host exactly as they were. -/
theorem C19_unknown_message (b : Browser) (hw : HauntedWeb) (h : Host) (request : Request)
    (h1 : request.type ≠ MSG.GET_SETTINGS) (h2 : request.type ≠ MSG.UPDATE_SETTINGS)
    (h3 : request.type ≠ MSG.PANIC) (h4 : request.type ≠ MSG.ENABLE)
    (h5 : request.type ≠ MSG.DISABLE) :
    (Background.onMessage b request).response.success = false ∧
    (Background.onMessage b request).response.error = some "Unknown message type" ∧
    (Background.onMessage b request).response.settings = none ∧
    (Background.onMessage b request).storage = b.storage ∧
    (Background.onMessage b request).sent = [] ∧
    hw.onMessage request h = (hw, h) := by
  simp [Background.onMessage, HauntedWeb.onMessage, h1, h2, h3, h4, h5]

/-- Witness of C19: a request of type `PING`. -/
theorem C19_unknown_message_witness :
    (Background.onMessage
      { storage := { items := {}, getError := none, setError := none }, tabs := Except.ok [7] }
      { type := "PING" }).response.error = some "Unknown message type" ∧
    (HauntedWeb.construct DEFAULTS).onMessage { type := "PING" } (Host.fresh 1000 0) =
      (HauntedWeb.construct DEFAULTS, Host.fresh 1000 0) :=
  have w := C19_unknown_message
    { storage := { items := {}, getError := none, setError := none }, tabs := Except.ok [7] }
    (HauntedWeb.construct DEFAULTS) (Host.fresh 1000 0) { type := "PING" }
    (by decide) (by decide) (by decide) (by decide) (by decide)
  ⟨w.2.1, w.2.2.2.2.2⟩

/-- C20. `getSettings()` resolves to `response.settings` when a response with
`success` true arrived, and to `DEFAULTS` when the response has `success`
false, when there is no response and when `sendMessage` throws. `Settings.get()`
resolves to `DEFAULTS` when the storage read fails (and to the stored values
over the defaults otherwise); `Settings.set()` resolves to false, leaving the
storage as it was, when the write fails and to true otherwise; neither of them
rejects. -/
theorem C20_settings_fallback (res : Response) (st : Storage) (settings : Settings) :
    (res.success = true →
      HauntedWeb.getSettings (SendOutcome.answered (some res)) = res.settings) ∧
    (res.success = false →
      HauntedWeb.getSettings (SendOutcome.answered (some res)) = some DEFAULTS) ∧
    HauntedWeb.getSettings (SendOutcome.answered none) = some DEFAULTS ∧
    HauntedWeb.getSettings SendOutcome.threw = some DEFAULTS ∧
    (st.getError ≠ none → Settings.get st = Except.ok DEFAULTS) ∧
    (st.getError = none → Settings.get st = Except.ok (DEFAULTS.merge st.items)) ∧
    (st.setError ≠ none → Settings.set st settings = Except.ok (false, st)) ∧
    (st.setError = none →
      Settings.set st settings =
        Except.ok (true, { st with items := SettingsPatch.ofSettings settings })) ∧
    (∃ v, Settings.get st = Except.ok v) ∧
    (∃ ok st', Settings.set st settings = Except.ok (ok, st')) := by
  refine ⟨?_, ?_, rfl, rfl, ?_, ?_, ?_, ?_, ?_, ?_⟩
  · intro hs
    simp [HauntedWeb.getSettings, hs]
  · intro hs
    simp [HauntedWeb.getSettings, hs]
  · intro he
    cases hg : st.getError with
    | none => exact absurd hg he
    | some e => simp [Settings.get, Storage.get, hg]
  · intro he
    simp [Settings.get, Storage.get, he]
  · intro he
    cases hg : st.setError with
    | none => exact absurd hg he
    | some e => simp [Settings.set, Storage.set, hg]
  · intro he
    simp [Settings.set, Storage.set, he]
  · cases hg : st.getError <;> simp [Settings.get, Storage.get, hg]
  · cases hg : st.setError <;> simp [Settings.set, Storage.set, hg]

/-! ## Reduced motion at `init()` -/

/-- What `init()` yields on a page that is not disabled, for a user who asks
for reduced motion, when the fetched settings have `enabled`. -/
theorem init_reduced (st : Settings) (h : Host) (hd : HauntedWeb.shouldDisable st h = false)
    (hm : prefersReducedMotion h = true) (he : st.enabled = true) :
    HauntedWeb.init st h =
      some (Scenario.booted { st with intensity := Min.min st.intensity (1 / 5) } h) := by
  unfold HauntedWeb.init
  rw [hd]
  simp only [hm, he, Bool.false_eq_true, if_false, if_true]
  rfl

/-- `start()` assigns neither `this.intensity` nor `this.settings`. -/
theorem start_intensity (hw : HauntedWeb) (h : Host) :
    (hw.start h).1.intensity = hw.intensity ∧ (hw.start h).1.settings = hw.settings := by
  unfold HauntedWeb.start
  split_ifs <;> exact ⟨rfl, rfl⟩

/-- The intensity that `init()` stores, in the settings and in the orchestrator. -/
theorem init_intensity (fetched : Settings) (h : Host) (s : HauntedWeb × Host)
    (hinit : HauntedWeb.init fetched h = some s) :
    s.1.settings.intensity =
      (if prefersReducedMotion h then Min.min fetched.intensity (1 / 5) else fetched.intensity) ∧
    s.1.intensity = s.1.settings.intensity := by
  unfold HauntedWeb.init at hinit
  split_ifs at hinit with hd hm
  all_goals
    simp only [Option.some.injEq] at hinit
    rw [← hinit]
    dsimp only
    split_ifs
    · rw [(start_intensity _ _).1, (start_intensity _ _).2]
      simp [HauntedWeb.construct, hm]
    · simp [HauntedWeb.construct, hm]

/-- C21. If `init()` of the bundle does not return early: when the
reduced-motion preference is detected, `settings.intensity` and the
orchestrator's `intensity` both equal `min(fetched intensity, 0.2)`, so they
are at most 0.2 and at most the fetched value; when it is not detected both
equal the fetched intensity. -/
theorem C21_reduced_motion (fetched : Settings) (h : Host) (s : HauntedWeb × Host)
    (hinit : HauntedWeb.init fetched h = some s) :
    (prefersReducedMotion h = true →
      s.1.settings.intensity = Min.min fetched.intensity (1 / 5) ∧
      s.1.intensity = Min.min fetched.intensity (1 / 5) ∧
      s.1.settings.intensity ≤ 1 / 5 ∧ s.1.intensity ≤ 1 / 5 ∧
      s.1.settings.intensity ≤ fetched.intensity ∧ s.1.intensity ≤ fetched.intensity) ∧
    (prefersReducedMotion h = false →
      s.1.settings.intensity = fetched.intensity ∧ s.1.intensity = fetched.intensity) := by
  obtain ⟨e1, e2⟩ := init_intensity fetched h s hinit
  constructor
  · intro hm
    rw [hm, if_pos rfl] at e1
    rw [e2, e1]
    exact ⟨rfl, rfl, min_le_right _ _, min_le_right _ _, min_le_left _ _, min_le_left _ _⟩
  · intro hm
    rw [hm] at e1
    rw [e2, e1]
    exact ⟨rfl, rfl⟩


/-- Witness of C21: the stored intensity 0.9 and a user who asks for reduced
motion. -/
theorem C21_reduced_motion_witness :
    (Scenario.booted { Scenario.loud with intensity := Min.min Scenario.loud.intensity (1 / 5) }
      Scenario.calmHost).1.intensity ≤ 1 / 5 :=
  ((C21_reduced_motion Scenario.loud Scenario.calmHost _
    (init_reduced Scenario.loud Scenario.calmHost (by decide) rfl rfl)).1 rfl).2.2.2.1

/-! ## Random choices -/

/-- `randomInt(lo, hi)` for integers `lo < hi` and a draw in `[0, 1)` lies in
`lo .. hi - 1`. -/
theorem randomInt_range (lo hi : Int) (r : ℚ) (hlh : lo < hi) (h0 : 0 ≤ r) (h1 : r < 1) :
    lo ≤ randomInt lo hi r ∧ randomInt lo hi r < hi := by
  unfold randomInt random
  have hpos : (0 : ℚ) < (hi : ℚ) - lo := by
    have : (lo : ℚ) < hi := by exact_mod_cast hlh
    linarith
  constructor
  · rw [Int.le_floor]
    have := mul_nonneg h0 hpos.le
    linarith
  · rw [Int.floor_lt]
    have : r * ((hi : ℚ) - lo) < 1 * ((hi : ℚ) - lo) := mul_lt_mul_of_pos_right h1 hpos
    linarith

theorem clusterCount_single (r1 r2 : ℚ) (h : 1 / 10 ≤ r1) :
    SpiderManager.clusterCount r1 r2 = 1 := by
  unfold SpiderManager.clusterCount probability
  rw [if_neg]
  simpa using h

theorem clusterCount_cluster (r1 r2 : ℚ) (h : r1 < 1 / 10) :
    SpiderManager.clusterCount r1 r2 = randomInt 2 5 r2 := by
  unfold SpiderManager.clusterCount probability
  rw [if_pos]
  simpa using h

theorem clusterCount_values (r1 r2 : ℚ) (h : r1 < 1 / 10) (h0 : 0 ≤ r2) (h1 : r2 < 1) :
    SpiderManager.clusterCount r1 r2 = 2 ∨ SpiderManager.clusterCount r1 r2 = 3 ∨
      SpiderManager.clusterCount r1 r2 = 4 := by
  rw [clusterCount_cluster r1 r2 h]
  have := randomInt_range 2 5 r2 (by norm_num) h0 h1
  simp only [Int.cast_ofNat] at this
  omega

/-- C22 as stated fails: no pair of draws in `[0, 1)` gives a cluster of five,
since `randomInt(2, 5)` is `floor(2 + 3 * r)`. -/
theorem C22_no_cluster_of_five :
    ¬ ∃ r1 r2 : ℚ, (0 ≤ r1 ∧ r1 < 1) ∧ (0 ≤ r2 ∧ r2 < 1) ∧
      SpiderManager.clusterCount r1 r2 = 5 := by
  rintro ⟨r1, r2, ⟨_, _⟩, ⟨h0, h1⟩, h5⟩
  by_cases h : r1 < 1 / 10
  · have := clusterCount_values r1 r2 h h0 h1
    omega
  · rw [clusterCount_single r1 r2 (not_lt.1 h)] at h5
    omega

/-- `spawnSpider()` with the cluster size spelled out. -/
theorem spawnSpider_count (m : SpiderManager) (q : EventQueue) (h : Host) :
    (m.spawnSpider q h).1 = m ∧
    (m.spawnSpider q h).2.1 = { isEventActive := true, lastEventTime := h.now } ∧
    (m.spawnSpider q h).2.2.timers = h.timers ++
      (Timer.mk h.nextTimer h.now 12000 Callback.eventRelease ::
        (List.range (SpiderManager.clusterCount (h.rand h.drawn) (h.rand (h.drawn + 1))).toNat).map
          (fun i => Timer.mk (h.nextTimer + 1 + i) h.now ((i : ℚ) * 500) Callback.spiderCreate)) := by
  obtain ⟨hd, hdef⟩ : ∃ hd : Host,
      hd = (if probability (1 / 10) h.random.1 then h.random.2.random.2 else h.random.2) :=
    ⟨_, rfl⟩
  have h1 : hd.timers = h.timers := by rw [hdef]; split_ifs <;> rfl
  have h2 : hd.nextTimer = h.nextTimer := by rw [hdef]; split_ifs <;> rfl
  have h3 : hd.now = h.now := by rw [hdef]; split_ifs <;> rfl
  simp only [SpiderManager.spawnSpider, EventQueue.startEvent, foldl_setTimeout, ← hdef]
  simp [h1, h2, h3, Host.random]

/-- C22, amended. `spawnSpider()` creates one spider when the first draw is at
least 0.1, and otherwise a cluster of 2, 3 or 4 spiders for a second draw in
`[0, 1)`, each of these sizes occurring for some draw; it starts the gate once,
with the duration 12000, and registers the `i`-th creation (`i = 0, 1, ...`
below the size) with the delay `i * 500` ms, at the clock of the firing. -/
theorem C22_cluster_sizes (m : SpiderManager) (q : EventQueue) (h : Host) (r1 r2 : ℚ)
    (h20 : 0 ≤ r2) (h21 : r2 < 1) :
    (1 / 10 ≤ r1 → SpiderManager.clusterCount r1 r2 = 1) ∧
    (r1 < 1 / 10 →
      SpiderManager.clusterCount r1 r2 = 2 ∨ SpiderManager.clusterCount r1 r2 = 3 ∨
        SpiderManager.clusterCount r1 r2 = 4) ∧
    (SpiderManager.clusterCount 0 0 = 2 ∧ SpiderManager.clusterCount 0 (1 / 2) = 3 ∧
      SpiderManager.clusterCount 0 (9 / 10) = 4) ∧
    (m.spawnSpider q h).2.1 = { isEventActive := true, lastEventTime := h.now } ∧
    (m.spawnSpider q h).2.2.timers = h.timers ++
      (Timer.mk h.nextTimer h.now 12000 Callback.eventRelease ::
        (List.range (SpiderManager.clusterCount (h.rand h.drawn) (h.rand (h.drawn + 1))).toNat).map
          (fun i => Timer.mk (h.nextTimer + 1 + i) h.now ((i : ℚ) * 500) Callback.spiderCreate)) := by
  refine ⟨clusterCount_single r1 r2, fun hc => clusterCount_values r1 r2 hc h20 h21,
    by decide!, (spawnSpider_count m q h).2.1, (spawnSpider_count m q h).2.2⟩

/-- Witness of C22: the draws 0.05 and 0.5. -/
theorem C22_cluster_sizes_witness :
    SpiderManager.clusterCount (1 / 20) (1 / 2) = 2 ∨
      SpiderManager.clusterCount (1 / 20) (1 / 2) = 3 ∨
      SpiderManager.clusterCount (1 / 20) (1 / 2) = 4 :=
  (C22_cluster_sizes (SpiderManager.new DEFAULTS) EventQueue.new (Host.fresh 5000 0)
    (1 / 20) (1 / 2) (by norm_num) (by norm_num)).2.1 (by norm_num)

/-- `randomChoice` on a non-empty array and a draw in `[0, 1)` reads the
element at the index `floor(r * length)`, which is below the length. -/
theorem randomChoice_index {α : Type} (array : List α) (r : ℚ) (hne : array ≠ [])
    (h0 : 0 ≤ r) (h1 : r < 1) :
    0 ≤ Int.floor (r * array.length) ∧ (Int.floor (r * array.length)).toNat < array.length ∧
    randomChoice array r = array.get? (Int.floor (r * array.length)).toNat ∧
    (randomChoice array r).isSome = true := by
  have hlen : 0 < array.length := List.length_pos.2 hne
  have hpos : (0 : ℚ) < (array.length : ℚ) := by exact_mod_cast hlen
  have hf0 : 0 ≤ Int.floor (r * array.length) := Int.floor_nonneg.2 (mul_nonneg h0 hpos.le)
  have hf1 : Int.floor (r * array.length) < (array.length : Int) := by
    rw [Int.floor_lt]
    have : r * (array.length : ℚ) < 1 * (array.length : ℚ) := mul_lt_mul_of_pos_right h1 hpos
    simpa using this
  have hlt : (Int.floor (r * array.length)).toNat < array.length := by omega
  have hrc : randomChoice array r = array.get? (Int.floor (r * array.length)).toNat := by
    unfold randomChoice randomInt random
    simp only [sub_zero, add_zero]
    rw [if_pos hf0]
  refine ⟨hf0, hlt, hrc, ?_⟩
  rw [hrc, List.get?_eq_get hlt]
  rfl

theorem effects_get (k : Nat) (hk : k < 5) :
    ∃ e, CorruptionManager.effects.get? k = some e := by
  interval_cases k <;> exact ⟨_, rfl⟩

theorem floor_eq_nat (x : ℚ) (k : Nat) (hx : 0 ≤ x) :
    (Int.floor x).toNat = k ↔ (k : ℚ) ≤ x ∧ x < k + 1 := by
  have hf0 : 0 ≤ Int.floor x := Int.floor_nonneg.2 hx
  constructor
  · intro h
    have hk : Int.floor x = (k : Int) := by omega
    have := Int.floor_eq_iff.1 hk
    simpa using this
  · rintro ⟨a, b⟩
    have hk : Int.floor x = (k : Int) := Int.floor_eq_iff.2 ⟨by simpa using a, by simpa using b⟩
    omega

/-- C23. For a draw `r` in `[0, 1)`: `floor(5 * r)` lies in `0 .. 4`;
`applyRandomCorruption()` starts the gate with the duration 4000 and then runs
exactly the effect at that index of the five; the effect at index `k` is
chosen exactly for `k / 5 <= r < (k + 1) / 5`; and `randomChoice` on any
non-empty array reads an index below the length, so it returns an element. -/
theorem C23_random_corruption (m : CorruptionManager) (q : EventQueue) (h : Host)
    (h0 : 0 ≤ h.rand h.drawn) (h1 : h.rand h.drawn < 1) :
    (0 ≤ Int.floor (5 * h.rand h.drawn) ∧ Int.floor (5 * h.rand h.drawn) ≤ 4) ∧
    (∃ e : CorruptionEffect,
      CorruptionManager.effects.get? (Int.floor (5 * h.rand h.drawn)).toNat = some e ∧
      randomChoice CorruptionManager.effects (h.rand h.drawn) = some e ∧
      m.applyRandomCorruption q h =
        (m, { isEventActive := true, lastEventTime := h.now },
          CorruptionManager.applyEffect e (q.startEvent h 4000).2.random.2)) ∧
    (q.startEvent h 4000).2.timers =
      h.timers ++ [Timer.mk h.nextTimer h.now 4000 Callback.eventRelease] ∧
    (∀ k : Nat, k < 5 →
      (randomChoice CorruptionManager.effects (h.rand h.drawn) =
          CorruptionManager.effects.get? k ↔
        (k : ℚ) / 5 ≤ h.rand h.drawn ∧ h.rand h.drawn < ((k : ℚ) + 1) / 5)) ∧
    (∀ (α : Type) (array : List α) (r : ℚ), array ≠ [] → 0 ≤ r → r < 1 →
      (Int.floor (r * array.length)).toNat < array.length ∧
      randomChoice array r = array.get? (Int.floor (r * array.length)).toNat ∧
      (randomChoice array r).isSome = true) := by
  obtain ⟨f0, f1, f2, _⟩ := randomChoice_index CorruptionManager.effects (h.rand h.drawn)
    (by decide) h0 h1
  have hlen : CorruptionManager.effects.length = 5 := rfl
  rw [hlen] at f0 f1 f2
  have hmul : h.rand h.drawn * ((5 : ℕ) : ℚ) = 5 * h.rand h.drawn := by
    push_cast
    ring
  rw [hmul] at f0 f1 f2
  obtain ⟨e, he⟩ := effects_get _ f1
  refine ⟨⟨f0, by omega⟩, ⟨e, he, f2.trans he, ?_⟩, by simp [EventQueue.startEvent], ?_, ?_⟩
  · have hr : (q.startEvent h 4000).2.random.1 = h.rand h.drawn := rfl
    unfold CorruptionManager.applyRandomCorruption
    simp only [hr, f2.trans he]
    rfl
  · intro k hk
    rw [f2]
    have hnd : CorruptionManager.effects.Nodup := by decide
    have hx : (0 : ℚ) ≤ 5 * h.rand h.drawn := by linarith
    have key : CorruptionManager.effects.get? (Int.floor (5 * h.rand h.drawn)).toNat =
        CorruptionManager.effects.get? k ↔ (Int.floor (5 * h.rand h.drawn)).toNat = k := by
      constructor
      · intro hg
        have hk' : k < CorruptionManager.effects.length := hk
        have f1' : (Int.floor (5 * h.rand h.drawn)).toNat < CorruptionManager.effects.length := f1
        rw [List.get?_eq_get f1', List.get?_eq_get hk', Option.some.injEq] at hg
        have := (List.Nodup.get_inj_iff hnd).1 hg
        simpa using congrArg Fin.val this
      · intro hg
        rw [hg]
    rw [key, floor_eq_nat _ k hx]
    constructor
    · rintro ⟨a, b⟩
      constructor
      · rw [div_le_iff₀ (by norm_num)]
        linarith
      · rw [lt_div_iff₀ (by norm_num)]
        linarith
    · rintro ⟨a, b⟩
      rw [div_le_iff₀ (by norm_num)] at a
      rw [lt_div_iff₀ (by norm_num)] at b
      constructor <;> linarith
  · intro α array r hne r0 r1
    obtain ⟨_, g1, g2, g3⟩ := randomChoice_index array r hne r0 r1
    exact ⟨g1, g2, g3⟩

/-- Witness of C23: every draw is 0.5. -/
theorem C23_random_corruption_witness :
    Int.floor (5 * (Host.fresh 5000 (1 / 2)).rand (Host.fresh 5000 (1 / 2)).drawn) ≤ 4 :=
  (C23_random_corruption (CorruptionManager.new DEFAULTS) EventQueue.new
    (Host.fresh 5000 (1 / 2)) (by norm_num [Host.fresh]) (by norm_num [Host.fresh])).1.2

/-! ## Fog and `updateSettings` -/

theorem animateFog_canvas (m : EnvironmentManager) (h : Host) :
    (m.animateFog h).1.fogCanvas = m.fogCanvas := by
  unfold EnvironmentManager.animateFog
  split_ifs <;> rfl

theorem startFog_canvas (m : EnvironmentManager) (h : Host) :
    (m.startFog h).1.fogCanvas = some h.nextNode := by
  unfold EnvironmentManager.startFog
  rw [animateFog_canvas]
  rfl

/-- C24. After `updateSettings(s)` of the environment manager the settings are
`s` and the fog canvas is non-null exactly when `s.fog` is true; when the fog
was running and `s.fog` is true, or was not running and `s.fog` is false,
nothing but the settings changes (the canvas, the particles and the host are
as before); and the effect timers and the timer table are unchanged in every
case. -/
theorem C24_env_updateSettings (m : EnvironmentManager) (s : Settings) (h : Host) :
    (m.updateSettings s h).1.settings = s ∧
    ((m.updateSettings s h).1.fogCanvas.isSome = true ↔ s.fog = true) ∧
    (s.fog = true → m.fogCanvas.isSome = true →
      m.updateSettings s h = ({ m with settings := s }, h)) ∧
    (s.fog = false → m.fogCanvas = none →
      m.updateSettings s h = ({ m with settings := s }, h)) ∧
    (m.updateSettings s h).1.effectTimers = m.effectTimers ∧
    (m.updateSettings s h).2.timers = h.timers := by
  obtain ⟨e1, _, _, e4, e5⟩ := env_updateSettings_timers m s h
  refine ⟨e5, ?_, ?_, ?_, e4, e1⟩
  · unfold EnvironmentManager.updateSettings
    dsimp only
    cases hf : s.fog <;> cases hc : m.fogCanvas <;>
      simp [hf, hc, startFog_canvas, EnvironmentManager.stopFog]
  · intro hf hc
    unfold EnvironmentManager.updateSettings
    dsimp only
    cases hc' : m.fogCanvas with
    | none => rw [hc'] at hc; exact absurd hc (by simp)
    | some c => simp [hf]
  · intro hf hc
    unfold EnvironmentManager.updateSettings
    simp [hf, hc]

/-! ## The bundle and the modular version -/

/-- C25. For every settings snapshot, gate and clock, the tick of the bundle
(ghost, spider, corruption) fires exactly when the tick of the modular version
fires and `canStartEvent()` is true; so the two decide alike when the gate
permits, and the bundle does not fire when the modular version would not. For
the ghosts the decision is read off the effect: either tick adds a ghost
exactly when it fires. -/
theorem C25_bundle_versus_modular (gm : GhostManager) (sm : SpiderManager)
    (cm : CorruptionManager) (q : EventQueue) (h : Host) :
    (gm.tickFires q h = (Modular.GhostManager.tickFires gm && q.canStartEvent h.now) ∧
      sm.tickFires q h = (Modular.SpiderManager.tickFires sm && q.canStartEvent h.now) ∧
      cm.tickFires q h = (Modular.CorruptionManager.tickFires cm && q.canStartEvent h.now)) ∧
    (q.canStartEvent h.now = true →
      gm.tickFires q h = Modular.GhostManager.tickFires gm ∧
      sm.tickFires q h = Modular.SpiderManager.tickFires sm ∧
      cm.tickFires q h = Modular.CorruptionManager.tickFires cm) ∧
    ((gm.tickFires q h = true → Modular.GhostManager.tickFires gm = true) ∧
      (sm.tickFires q h = true → Modular.SpiderManager.tickFires sm = true) ∧
      (cm.tickFires q h = true → Modular.CorruptionManager.tickFires cm = true)) ∧
    (((gm.tick q h).1.ghosts.length = gm.ghosts.length + 1 ↔ gm.tickFires q h = true) ∧
      ((Modular.GhostManager.tick gm h).1.ghosts.length = gm.ghosts.length + 1 ↔
        Modular.GhostManager.tickFires gm = true)) := by
  refine ⟨⟨rfl, rfl, rfl⟩, ?_, ?_, ?_, ?_⟩
  · intro hc
    simp [GhostManager.tickFires, SpiderManager.tickFires, CorruptionManager.tickFires,
      Modular.GhostManager.tickFires, Modular.SpiderManager.tickFires,
      Modular.CorruptionManager.tickFires, hc]
  · refine ⟨fun hf => ?_, fun hf => ?_, fun hf => ?_⟩
    · simp only [GhostManager.tickFires, Bool.and_eq_true] at hf
      simp [Modular.GhostManager.tickFires, hf.1.1, hf.1.2]
    · simp only [SpiderManager.tickFires, Bool.and_eq_true] at hf
      simp [Modular.SpiderManager.tickFires, hf.1.1, hf.1.2]
    · simp only [CorruptionManager.tickFires, Bool.and_eq_true] at hf
      simp [Modular.CorruptionManager.tickFires, hf.1.1, hf.1.2]
  · cases hf : gm.tickFires q h
    · obtain ⟨_, e2, _⟩ := GhostManager_tick_idle gm q h hf
      simp [e2]
    · obtain ⟨_, e2, _⟩ := GhostManager_tick_fires gm q h hf
      simp [e2]
  · cases hf : Modular.GhostManager.tickFires gm <;>
      simp [Modular.GhostManager.tick, hf, GhostManager.scheduleGhost,
        Modular.GhostManager.spawnGhost]

/-! ## Family toggles, `ENABLE` and the fog at `start()` -/

/-- C26, evaluated on the code. The orchestrator is initialized from the default
settings with `ghosts` false: it is enabled, with a spider tick pending and no
ghost tick. After the `UPDATE_SETTINGS` message that sets `ghosts` to true it is
still enabled, `settings.ghosts` is true in the orchestrator and in the ghost
manager, and the ghost manager has no timer handle and no pending tick. -/
theorem C26_toggle_not_started :
    HauntedWeb.init Scenario.noGhosts (Host.fresh 1000 0) =
      some (Scenario.booted Scenario.noGhosts (Host.fresh 1000 0)) ∧
    (Scenario.booted Scenario.noGhosts (Host.fresh 1000 0)).1.enabled = true ∧
    (Scenario.booted Scenario.noGhosts (Host.fresh 1000 0)).2.pending Callback.spiderTick = 1 ∧
    (Scenario.booted Scenario.noGhosts (Host.fresh 1000 0)).2.pending Callback.ghostTick = 0 ∧
    (HauntedWeb.step (Scenario.booted Scenario.noGhosts (Host.fresh 1000 0))
      (Step.message Scenario.ghostsOn)).1.enabled = true ∧
    (HauntedWeb.step (Scenario.booted Scenario.noGhosts (Host.fresh 1000 0))
      (Step.message Scenario.ghostsOn)).1.settings.ghosts = true ∧
    (HauntedWeb.step (Scenario.booted Scenario.noGhosts (Host.fresh 1000 0))
      (Step.message Scenario.ghostsOn)).1.ghostManager.settings.ghosts = true ∧
    (HauntedWeb.step (Scenario.booted Scenario.noGhosts (Host.fresh 1000 0))
      (Step.message Scenario.ghostsOn)).1.ghostManager.timers = [] ∧
    (HauntedWeb.step (Scenario.booted Scenario.noGhosts (Host.fresh 1000 0))
      (Step.message Scenario.ghostsOn)).2.pending Callback.ghostTick = 0 := by
  refine ⟨init_booted _ _ (by decide) rfl rfl, ?_⟩
  decide!

/-- C27, evaluated on the code. On the orchestrator initialized from the default
settings, with one pending tick for each of the three families, an `ENABLE`
message leaves two pending ticks for each of them. -/
theorem C27_enable_doubles_loops :
    HauntedWeb.init DEFAULTS (Host.fresh 1000 0) = some Scenario.initialized ∧
    Scenario.initialized.2.pending Callback.ghostTick = 1 ∧
    Scenario.initialized.2.pending Callback.spiderTick = 1 ∧
    Scenario.initialized.2.pending Callback.corruptionTick = 1 ∧
    (HauntedWeb.step Scenario.initialized (Step.message { type := MSG.ENABLE })).1.enabled
      = true ∧
    (HauntedWeb.step Scenario.initialized
      (Step.message { type := MSG.ENABLE })).1.ghostManager.timers.length = 2 ∧
    (HauntedWeb.step Scenario.initialized
      (Step.message { type := MSG.ENABLE })).2.pending Callback.ghostTick = 2 ∧
    (HauntedWeb.step Scenario.initialized
      (Step.message { type := MSG.ENABLE })).2.pending Callback.spiderTick = 2 ∧
    (HauntedWeb.step Scenario.initialized
      (Step.message { type := MSG.ENABLE })).2.pending Callback.corruptionTick = 2 := by
  refine ⟨init_booted _ _ (by decide) rfl rfl, ?_⟩
  decide!

/-- C28, evaluated on the code. `start()` on the orchestrator constructed from
the default settings (`fog` true, no fog running, empty document) leaves 100
fog particles and two `haunted-fog` canvases in the document, `fogCanvas`
being the second; the `stop()` that follows leaves one `haunted-fog` canvas
in the document. -/
theorem C28_fog_started_twice :
    (HauntedWeb.construct DEFAULTS).settings.fog = true ∧
    (HauntedWeb.construct DEFAULTS).environmentManager.fogCanvas = none ∧
    (Host.fresh 1000 0).body = Dom.nil ∧
    Scenario.active.1.environmentManager.fogParticles.length = 100 ∧
    Scenario.active.2.body.count (hasClass "haunted-fog") = 2 ∧
    Scenario.active.1.environmentManager.fogCanvas = some 2 ∧
    (Scenario.active.1.stop Scenario.active.2).1.environmentManager.fogCanvas = none ∧
    (Scenario.active.1.stop Scenario.active.2).2.body.count (hasClass "haunted-fog") = 1 := by
  decide!

/-! ## `reset()` and the release timers -/

/-- C29, evaluated on the code. On a fresh gate an event of 4000 ms starts at
clock 10000; `reset()` is called at 11000; at 12500 `canStartEvent()` is true
and an event of 12000 ms starts, so that two release timers are pending; at
14000 the release timer of the first event runs and clears the flag; at 14500
`canStartEvent()` is true although the second event, started at 12500 for
12000 ms, is inside its window. The same when the second event starts at
14200, after the window of the first, and the release closure of the first
runs late, at 16000: `canStartEvent()` is true at 16200, inside the window of
the second event, and would have been false had that closure not run. -/
theorem C29_stale_release :
    EventQueue.new.canStartEvent 10000 = true ∧
    Scenario.gateFirst.2.timers = [Timer.mk 1 10000 4000 Callback.eventRelease] ∧
    Scenario.gateReset.1.canStartEvent 12500 = true ∧
    Scenario.gateSecond.1 = { isEventActive := true, lastEventTime := 12500 } ∧
    Scenario.gateSecond.2.timers =
      [Timer.mk 1 10000 4000 Callback.eventRelease,
       Timer.mk 2 12500 12000 Callback.eventRelease] ∧
    Scenario.gateSecond.1.canStartEvent 14000 = false ∧
    Scenario.gateStale.1.isEventActive = false ∧
    Scenario.gateStale.2.timers = [Timer.mk 2 12500 12000 Callback.eventRelease] ∧
    Scenario.gateStale.1.canStartEvent 14500 = true ∧
    (12500 ≤ 14500 ∧ 14500 < 12500 + 12000) ∧
    (Scenario.gateReset.1.canStartEvent 14200 = true ∧ 10000 + 4000 ≤ 14200) ∧
    Scenario.gateLateSecond.1 = { isEventActive := true, lastEventTime := 14200 } ∧
    Scenario.gateLateSecond.1.canStartEvent 16200 = false ∧
    Scenario.gateLateStale.2.timers = [Timer.mk 2 14200 12000 Callback.eventRelease] ∧
    Scenario.gateLateStale.1.canStartEvent 16200 = true ∧
    (14200 ≤ 16200 ∧ 16200 < 14200 + 12000) := by
  decide!

/-! ## The intensity after `init()` in the two versions -/

/-- On a page that neither version disables, the two versions store the same
intensity unless reduced motion is asked for and the fetched intensity is
below 0.2. -/
theorem init_intensity_agrees (fetched : Settings) (h : Host) (s : HauntedWeb × Host)
    (t : Settings × ℚ) (hb : HauntedWeb.init fetched h = some s)
    (hm : Modular.init fetched h = some t)
    (hok : prefersReducedMotion h = false ∨ 1 / 5 ≤ fetched.intensity) :
    s.1.settings.intensity = t.1.intensity ∧ s.1.intensity = t.2 := by
  obtain ⟨e1, e2⟩ := init_intensity fetched h s hb
  have hd : Modular.shouldDisable fetched h = false := by
    cases hd : Modular.shouldDisable fetched h
    · rfl
    · simp [Modular.init, hd] at hm
  cases hr : prefersReducedMotion h
  · have ht : t = (fetched, fetched.intensity) := by
      simpa [Modular.init, hd, hr] using hm.symm
    rw [e2, e1, ht, hr]
    exact ⟨rfl, rfl⟩
  · have hi : 1 / 5 ≤ fetched.intensity := by
      rcases hok with hf | hi
      · rw [hr] at hf
        exact absurd hf (by simp)
      · exact hi
    have ht : t = ({ fetched with intensity := 1 / 5 }, 1 / 5) := by
      simpa [Modular.init, hd, hr] using hm.symm
    rw [e2, e1, ht, hr]
    exact ⟨min_eq_right hi, min_eq_right hi⟩

/-- C30, evaluated on the code. With the fetched intensity 0.1 and the
reduced-motion preference detected, `init()` of the bundle leaves
`settings.intensity` and `intensity` at 0.1 and `init()` of `content.js` leaves
them at 0.2. -/
theorem C30_intensity_differs :
    (0 ≤ Scenario.calm.intensity ∧ Scenario.calm.intensity ≤ 1) ∧
    prefersReducedMotion Scenario.calmHost = true ∧
    (HauntedWeb.init Scenario.calm Scenario.calmHost).map
      (fun s => (s.1.settings.intensity, s.1.intensity)) = some (1 / 10, 1 / 10) ∧
    (Modular.init Scenario.calm Scenario.calmHost).map
      (fun s => (s.1.intensity, s.2)) = some (1 / 5, 1 / 5) := by
  decide!

end Haunted
